import Mathlib

/-!
# seq-align: the dynamic-programming fill and the traceback step of `alignment.c`

A shallow embedding of `src/alignment.c`.

* `score_t` is a 32-bit `int`: values are integers, and every conversion to
  `score_t` is the explicit wrap `toScore`.  `long` is 64 bits (`toLong`).
* The three score buffers are memories `Nat → Int` written cell by cell in
  the order of the C loops; their initial contents are arbitrary.
* `scoring_lookup` lives in another translation unit and is a field of `Scoring`.
-/

namespace SeqAlign

/-- The constant `INT_MIN` of `limits.h` for a 32-bit `int`. -/
def INT_MIN : Int := -2147483648

/-- The constant `INT_MAX` of `limits.h` for a 32-bit `int`. -/
def INT_MAX : Int := 2147483647

/-- A value is representable in `score_t` (32-bit `int`). -/
def inRange (v : Int) : Prop := INT_MIN ≤ v ∧ v ≤ INT_MAX

instance (v : Int) : Decidable (inRange v) := by
  unfold inRange
  exact inferInstance

/-- Conversion of a wider value to `score_t` (two's complement wrap to 32 bits);
also the result of an `int` addition. -/
def toScore (v : Int) : Int := (v + 2147483648) % 4294967296 - 2147483648

/-- Result of an arithmetic operation carried out in `long` (64 bits). -/
def toLong (v : Int) : Int :=
  (v + 9223372036854775808) % 18446744073709551616 - 9223372036854775808

/-- Modelled from the spec: the macro `MAX2` comes from a header that is not
part of the sources; it yields the larger of its two arguments. -/
def MAX2 (a b : Int) : Int := max a b

/-- Modelled from the spec: the macro `MAX3` comes from a header that is not
part of the sources; `combine(a,b,c) = max(a,b,c)`. -/
def MAX3 (a b c : Int) : Int := max (max a b) c

/-- Modelled from the spec: the macro `ARR_2D_INDEX(width, x, y)` comes from a
header that is not part of the sources; matrices are addressed `[x][y]` and the
fill itself uses `j*score_width + i` for the cell `[i][j]`. -/
def ARR_2D_INDEX (width x y : Nat) : Nat := y * width + x

/-- Function `nw_combine`: `MAX3` of three `long`s, returned as `score_t`. -/
def nw_combine (a b c : Int) : Int := toScore (MAX3 a b c)

/-- Function `sw_combine`: `score_t x = MAX3(a,b,c); return MAX2(x,0);`. -/
def sw_combine (a b c : Int) : Int :=
  let x := toScore (MAX3 a b c)
  MAX2 x 0

/-- The scoring configuration `scoring_t`, with the external `scoring_lookup`
(substitution score and match flag of a symbol pair) as a field. -/
structure Scoring where
  gap_open : Int
  gap_extend : Int
  no_start_gap_penalty : Bool
  no_end_gap_penalty : Bool
  no_gaps_in_a : Bool
  no_gaps_in_b : Bool
  no_mismatches : Bool
  scoring_lookup : Char → Char → Int × Bool

/-- A score buffer: the memory behind a `score_t *`. -/
abbrev Buf := Nat → Int

/-- The assignment `buf[idx] = v`. -/
def bufSet (buf : Buf) (idx : Nat) (v : Int) : Buf :=
  fun k => if k = idx then v else buf k

/-- The three score buffers. -/
structure Mats where
  match_scores : Buf
  gap_a_scores : Buf
  gap_b_scores : Buf

/-- The engine `aligner_t`. -/
structure Aligner where
  scoring : Scoring
  seq_a : List Char
  seq_b : List Char
  score_width : Nat
  score_height : Nat
  capacity : Nat
  match_scores : Buf
  gap_a_scores : Buf
  gap_b_scores : Buf

/-- The enumeration `enum Matrix`. -/
inductive Matrix where
  | MATCH
  | GAP_A
  | GAP_B
  deriving DecidableEq, Repr

/-- The character `seq[k]` of a C string: the terminating NUL at the end. -/
def seqAt (s : List Char) (k : Nat) : Char := s.getD k (Char.ofNat 0)

/-- A counted loop `for(i = lo; i < lo + n; i++) body`: the iterations run in
increasing order of `i`. -/
def forRange {σ : Type} (lo : Nat) (body : Nat → σ → σ) : Nat → σ → σ
  | 0, s => s
  | n + 1, s => body (lo + n) (forRange lo body n s)

/-- The floor `min` chosen at lines 58-64. -/
def fill_min (is_sw : Bool) : Int := if is_sw then 0 else INT_MIN

/-- The function pointer `combine` chosen at lines 58-64. -/
def combine (is_sw : Bool) (a b c : Int) : Int :=
  if is_sw then sw_combine a b c else nw_combine a b c

/-- Lines 66-72: `for(i = 0; i < arr_size; i++) buf[i] = min;`. -/
def fill_all (arr_size : Nat) (min : Int) (buf : Buf) : Buf :=
  forRange 0 (fun i b => bufSet b i min) arr_size buf

/-- Lines 79-88, one iteration of the loop along the first row. -/
def first_row_step (sc : Scoring) (min : Int) (i : Nat) (s : Mats) : Mats :=
  Mats.mk
    (bufSet s.match_scores i min)
    (bufSet s.gap_a_scores i min)
    (bufSet s.gap_b_scores i
      (toScore (if sc.no_start_gap_penalty then 0
                else toLong (sc.gap_open + toLong ((i : Int) * sc.gap_extend)))))

/-- Lines 90-101, one iteration of the loop down the first column; `i` is the
variable `i` as the preceding loop left it. -/
def first_col_step (sc : Scoring) (min : Int) (score_width i j : Nat) (s : Mats) : Mats :=
  let index := j * score_width
  Mats.mk
    (bufSet s.match_scores index min)
    (bufSet s.gap_a_scores index
      (toScore (if sc.no_start_gap_penalty then 0
                else toLong (sc.gap_open + toLong ((i : Int) * sc.gap_extend)))))
    (bufSet s.gap_b_scores index min)

/-- Lines 113-189, the body of the inner loop of the fill for the cell `[i][j]`. -/
def fill_cell (al : Aligner) (is_sw : Bool) (i j : Nat) (s : Mats) : Mats :=
  let scoring := al.scoring
  let score_width := al.score_width
  let score_height := al.score_height
  let min := fill_min is_sw
  let gap_open_penalty := toScore (scoring.gap_extend + scoring.gap_open)
  let gap_extend_penalty := scoring.gap_extend
  let seq_i := i - 1
  let seq_j := j - 1
  let new_index := j * score_width + i
  let look := scoring.scoring_lookup (seqAt al.seq_a seq_i) (seqAt al.seq_b seq_j)
  let substitution_penalty := look.1
  let is_match := look.2
  let s1 : Mats :=
    if scoring.no_mismatches && !is_match then
      Mats.mk (bufSet s.match_scores new_index min) s.gap_a_scores s.gap_b_scores
    else
      let old_index := ARR_2D_INDEX score_width (i - 1) (j - 1)
      Mats.mk
        (bufSet s.match_scores new_index
          (toScore (combine is_sw (s.match_scores old_index)
                                  (s.gap_a_scores old_index)
                                  (s.gap_b_scores old_index)
                    + substitution_penalty)))
        s.gap_a_scores s.gap_b_scores
  let s2 : Mats :=
    if !scoring.no_gaps_in_a then
      let old_index := ARR_2D_INDEX score_width i (j - 1)
      if i = score_width - 1 && scoring.no_end_gap_penalty then
        Mats.mk s1.match_scores
          (bufSet s1.gap_a_scores new_index
            (combine is_sw (s1.match_scores old_index)
                           (s1.gap_a_scores old_index)
                           (s1.gap_b_scores old_index
                              + (if j = 1 then 0 else gap_open_penalty))))
          s1.gap_b_scores
      else
        Mats.mk s1.match_scores
          (bufSet s1.gap_a_scores new_index
            (combine is_sw (s1.match_scores old_index + gap_open_penalty)
                           (s1.gap_a_scores old_index + gap_extend_penalty)
                           (s1.gap_b_scores old_index + gap_open_penalty)))
          s1.gap_b_scores
    else s1
  let s3 : Mats :=
    if !scoring.no_gaps_in_b then
      let old_index := ARR_2D_INDEX score_width (i - 1) j
      if j = score_height - 1 && scoring.no_end_gap_penalty then
        Mats.mk s2.match_scores s2.gap_a_scores
          (bufSet s2.gap_b_scores new_index
            (combine is_sw (s2.match_scores old_index)
                           (s2.gap_a_scores old_index
                              + (if i = 1 then 0 else gap_open_penalty))
                           (s2.gap_b_scores old_index)))
      else
        Mats.mk s2.match_scores s2.gap_a_scores
          (bufSet s2.gap_b_scores new_index
            (combine is_sw (s2.match_scores old_index + gap_open_penalty)
                           (s2.gap_a_scores old_index + gap_open_penalty)
                           (s2.gap_b_scores old_index + gap_extend_penalty)))
    else s2
  s3

/-- Lines 111-190, the nested loops of the fill. -/
def fill_main (al : Aligner) (is_sw : Bool) (s : Mats) : Mats :=
  forRange 1
    (fun i si => forRange 1 (fun j sj => fill_cell al is_sw i j sj) (al.score_height - 1) si)
    (al.score_width - 1) s

/-- Lines 197-207, one iteration of the pass over the last column of
`gap_a_scores`; the cell written at `j - 1` is the `old_index` of iteration `j`. -/
def last_col_step (al : Aligner) (is_sw : Bool) (j : Nat) (s : Mats) : Mats :=
  let score_width := al.score_width
  let gap_open_penalty := toScore (al.scoring.gap_extend + al.scoring.gap_open)
  let gap_extend_penalty := al.scoring.gap_extend
  let old_index := ARR_2D_INDEX score_width (score_width - 1) (j - 1)
  let new_index := ARR_2D_INDEX score_width (score_width - 1) j
  Mats.mk s.match_scores
    (bufSet s.gap_a_scores new_index
      (combine is_sw (s.match_scores old_index + gap_open_penalty)
                     (s.gap_a_scores old_index + gap_extend_penalty)
                     (fill_min is_sw)))
    s.gap_b_scores

/-- Lines 215-225, one iteration of the pass over the last row of
`gap_b_scores`; the cell written at `i - 1` is the `old_index` of iteration `i`. -/
def last_row_step (al : Aligner) (is_sw : Bool) (i : Nat) (s : Mats) : Mats :=
  let score_width := al.score_width
  let score_height := al.score_height
  let gap_open_penalty := toScore (al.scoring.gap_extend + al.scoring.gap_open)
  let gap_extend_penalty := al.scoring.gap_extend
  let old_index := ARR_2D_INDEX score_width (i - 1) (score_height - 1)
  let new_index := ARR_2D_INDEX score_width i (score_height - 1)
  Mats.mk s.match_scores s.gap_a_scores
    (bufSet s.gap_b_scores new_index
      (combine is_sw (s.match_scores old_index + gap_open_penalty)
                     (s.gap_b_scores old_index + gap_extend_penalty)
                     (fill_min is_sw)))

/-- Lines 66-77: the optional floods of the two gap buffers and the origin. -/
def fill_init (al : Aligner) (is_sw : Bool) : Mats :=
  let arr_size := al.score_width * al.score_height
  let min := fill_min is_sw
  let ga := if al.scoring.no_gaps_in_a then fill_all arr_size min al.gap_a_scores
            else al.gap_a_scores
  let gb := if al.scoring.no_gaps_in_b then fill_all arr_size min al.gap_b_scores
            else al.gap_b_scores
  Mats.mk (bufSet al.match_scores 0 0) (bufSet ga 0 0) (bufSet gb 0 0)

/-- Lines 79-101: the first row, then the first column. -/
def fill_borders (al : Aligner) (is_sw : Bool) (s : Mats) : Mats :=
  let min := fill_min is_sw
  let s1 := forRange 1 (first_row_step al.scoring min) (al.score_width - 1) s
  -- the value of `i` when the loop `for(i = 1; i < score_width; i++)` is left
  let i := if 1 < al.score_width then al.score_width else 1
  forRange 1 (first_col_step al.scoring min al.score_width i) (al.score_height - 1) s1

/-- Lines 192-226: the two edge passes. -/
def fill_edges (al : Aligner) (is_sw : Bool) (s : Mats) : Mats :=
  let s1 := if al.scoring.no_gaps_in_a then
              forRange 1 (last_col_step al is_sw) (al.score_height - 1) s
            else s
  if al.scoring.no_gaps_in_b then
    forRange 1 (last_row_step al is_sw) (al.score_width - 1) s1
  else s1

/-- The buffers after `alignment_fill_matrices(aligner, is_sw)`. -/
def fill_mats (al : Aligner) (is_sw : Bool) : Mats :=
  fill_edges al is_sw (fill_main al is_sw (fill_borders al is_sw (fill_init al is_sw)))

/-- Function `alignment_fill_matrices`: the engine with its three buffers filled. -/
def alignment_fill_matrices (al : Aligner) (is_sw : Bool) : Aligner :=
  let s := fill_mats al is_sw
  Aligner.mk al.scoring al.seq_a al.seq_b al.score_width al.score_height al.capacity
    s.match_scores s.gap_a_scores s.gap_b_scores

/-- The value line 129-143 stores in `match_scores[x][y]`, read off a state `t`. -/
def matchVal (al : Aligner) (is_sw : Bool) (t : Mats) (x y : Nat) : Int :=
  let look := al.scoring.scoring_lookup (seqAt al.seq_a (x - 1)) (seqAt al.seq_b (y - 1))
  let old_index := ARR_2D_INDEX al.score_width (x - 1) (y - 1)
  if al.scoring.no_mismatches && !look.2 then fill_min is_sw
  else toScore (combine is_sw (t.match_scores old_index) (t.gap_a_scores old_index)
                  (t.gap_b_scores old_index) + look.1)

/-- The value lines 148-167 store in `gap_a_scores[x][y]`, read off a state `t`. -/
def gapAVal (al : Aligner) (is_sw : Bool) (t : Mats) (x y : Nat) : Int :=
  let gap_open_penalty := toScore (al.scoring.gap_extend + al.scoring.gap_open)
  let gap_extend_penalty := al.scoring.gap_extend
  let old_index := ARR_2D_INDEX al.score_width x (y - 1)
  if x = al.score_width - 1 && al.scoring.no_end_gap_penalty then
    combine is_sw (t.match_scores old_index) (t.gap_a_scores old_index)
      (t.gap_b_scores old_index + (if y = 1 then 0 else gap_open_penalty))
  else
    combine is_sw (t.match_scores old_index + gap_open_penalty)
      (t.gap_a_scores old_index + gap_extend_penalty)
      (t.gap_b_scores old_index + gap_open_penalty)

/-- The value lines 169-188 store in `gap_b_scores[x][y]`, read off a state `t`. -/
def gapBVal (al : Aligner) (is_sw : Bool) (t : Mats) (x y : Nat) : Int :=
  let gap_open_penalty := toScore (al.scoring.gap_extend + al.scoring.gap_open)
  let gap_extend_penalty := al.scoring.gap_extend
  let old_index := ARR_2D_INDEX al.score_width (x - 1) y
  if y = al.score_height - 1 && al.scoring.no_end_gap_penalty then
    combine is_sw (t.match_scores old_index)
      (t.gap_a_scores old_index + (if x = 1 then 0 else gap_open_penalty))
      (t.gap_b_scores old_index)
  else
    combine is_sw (t.match_scores old_index + gap_open_penalty)
      (t.gap_a_scores old_index + gap_open_penalty)
      (t.gap_b_scores old_index + gap_extend_penalty)

/-- The first assignment of the loop body: `match_scores[i][j]`. -/
def write_match (al : Aligner) (is_sw : Bool) (i j : Nat) (s : Mats) : Mats :=
  Mats.mk (bufSet s.match_scores (ARR_2D_INDEX al.score_width i j) (matchVal al is_sw s i j))
    s.gap_a_scores s.gap_b_scores

/-- The second assignment of the loop body: `gap_a_scores[i][j]`, skipped under
`no_gaps_in_a`. -/
def write_gap_a (al : Aligner) (is_sw : Bool) (i j : Nat) (s : Mats) : Mats :=
  if al.scoring.no_gaps_in_a then s
  else Mats.mk s.match_scores
    (bufSet s.gap_a_scores (ARR_2D_INDEX al.score_width i j) (gapAVal al is_sw s i j))
    s.gap_b_scores

/-- The third assignment of the loop body: `gap_b_scores[i][j]`, skipped under
`no_gaps_in_b`. -/
def write_gap_b (al : Aligner) (is_sw : Bool) (i j : Nat) (s : Mats) : Mats :=
  if al.scoring.no_gaps_in_b then s
  else Mats.mk s.match_scores s.gap_a_scores
    (bufSet s.gap_b_scores (ARR_2D_INDEX al.score_width i j) (gapBVal al is_sw s i j))

/-- The interior cell `[x][y]` of a state holds what the loop body computes
from the state's own cells `[x-1][y-1]`, `[x][y-1]` and `[x-1][y]`. -/
def CellOK (al : Aligner) (is_sw : Bool) (t : Mats) (x y : Nat) : Prop :=
  t.match_scores (ARR_2D_INDEX al.score_width x y) = matchVal al is_sw t x y ∧
  (al.scoring.no_gaps_in_a = false →
    t.gap_a_scores (ARR_2D_INDEX al.score_width x y) = gapAVal al is_sw t x y) ∧
  (al.scoring.no_gaps_in_b = false →
    t.gap_b_scores (ARR_2D_INDEX al.score_width x y) = gapBVal al is_sw t x y)

/-- Two states hold the same three values at an index. -/
def AgreeAt (t u : Mats) (p : Nat) : Prop :=
  t.match_scores p = u.match_scores p ∧ t.gap_a_scores p = u.gap_a_scores p ∧
  t.gap_b_scores p = u.gap_b_scores p

/-- The cursor of the traceback: the five locations `alignment_reverse_move`
reads and writes through its pointer arguments. -/
structure Cursor where
  curr_matrix : Matrix
  curr_score : Int
  score_x : Nat
  score_y : Nat
  arr_index : Nat
  deriving DecidableEq

/-- Lines 330-338: the two gap penalties of `alignment_reverse_move` at the
cell `[x][y]` it is called on, as (gap_open_penalty, gap_extend_penalty). -/
def reverse_gap_penalties (aligner : Aligner) (x y : Nat) : Int × Int :=
  let scoring := aligner.scoring
  let gap_open_penalty := toScore (scoring.gap_extend + scoring.gap_open)
  let gap_extend_penalty := scoring.gap_extend
  if scoring.no_end_gap_penalty &&
      (x == aligner.score_width - 1 || y == aligner.score_height - 1) then
    (0, 0)
  else
    (gap_open_penalty, gap_extend_penalty)

/-- Lines 318-362: the penalties `(prev_match_penalty, prev_gap_a_penalty,
prev_gap_b_penalty)` that `alignment_reverse_move` adds to the three candidate
predecessors when called in state `m` on the cell `[x][y]`. -/
def reverse_penalties (aligner : Aligner) (m : Matrix) (x y : Nat) : Int × Int × Int :=
  let match_penalty :=
    (aligner.scoring.scoring_lookup (seqAt aligner.seq_a (x - 1)) (seqAt aligner.seq_b (y - 1))).1
  let gap_open_penalty := (reverse_gap_penalties aligner x y).1
  let gap_extend_penalty := (reverse_gap_penalties aligner x y).2
  match m with
  | Matrix.MATCH => (match_penalty, match_penalty, match_penalty)
  | Matrix.GAP_A => (gap_open_penalty, gap_extend_penalty, gap_open_penalty)
  | Matrix.GAP_B => (gap_open_penalty, gap_open_penalty, gap_extend_penalty)

/-- Lines 340-362: the cell the `switch` moves the coordinates to. -/
def reverse_cell (m : Matrix) (x y : Nat) : Nat × Nat :=
  match m with
  | Matrix.MATCH => (x - 1, y - 1)
  | Matrix.GAP_A => (x, y - 1)
  | Matrix.GAP_B => (x - 1, y)

/-- Function `alignment_reverse_move`; `none` is the branch that prints
"traceback fail" and calls `exit(EXIT_FAILURE)`.  The coordinates are at least 1
on entry (the function reads `seq_a[score_x-1]` and `seq_b[score_y-1]`). -/
def alignment_reverse_move (c : Cursor) (aligner : Aligner) : Option Cursor :=
  let scoring := aligner.scoring
  let seq_x := c.score_x - 1
  let seq_y := c.score_y - 1
  let is_match := (scoring.scoring_lookup (seqAt aligner.seq_a seq_x) (seqAt aligner.seq_b seq_y)).2
  let pen := reverse_penalties aligner c.curr_matrix c.score_x c.score_y
  let prev_match_penalty := pen.1
  let prev_gap_a_penalty := pen.2.1
  let prev_gap_b_penalty := pen.2.2
  let score_x := (reverse_cell c.curr_matrix c.score_x c.score_y).1
  let score_y := (reverse_cell c.curr_matrix c.score_x c.score_y).2
  let arr_index := ARR_2D_INDEX aligner.score_width score_x score_y
  if (!scoring.no_gaps_in_a || score_x == 0 || score_x == aligner.score_width - 1) &&
      aligner.gap_a_scores arr_index + prev_gap_a_penalty == c.curr_score then
    some (Cursor.mk Matrix.GAP_A (aligner.gap_a_scores arr_index) score_x score_y arr_index)
  else if (!scoring.no_gaps_in_b || score_y == 0 || score_y == aligner.score_height - 1) &&
      aligner.gap_b_scores arr_index + prev_gap_b_penalty == c.curr_score then
    some (Cursor.mk Matrix.GAP_B (aligner.gap_b_scores arr_index) score_x score_y arr_index)
  else if (!scoring.no_mismatches || is_match) &&
      aligner.match_scores arr_index + prev_match_penalty == c.curr_score then
    some (Cursor.mk Matrix.MATCH (aligner.match_scores arr_index) score_x score_y arr_index)
  else
    none

/-- Lines 153-166: the penalties the fill adds to the candidates
`(match, gap_a, gap_b)` of `[i][j-1]` when it computes `gap_a_scores[i][j]`. -/
def fill_gap_a_penalties (al : Aligner) (i j : Nat) : Int × Int × Int :=
  let gap_open_penalty := toScore (al.scoring.gap_extend + al.scoring.gap_open)
  let gap_extend_penalty := al.scoring.gap_extend
  if i = al.score_width - 1 && al.scoring.no_end_gap_penalty then
    (0, 0, if j = 1 then 0 else gap_open_penalty)
  else
    (gap_open_penalty, gap_extend_penalty, gap_open_penalty)

/-- Lines 174-187: the penalties the fill adds to the candidates
`(match, gap_a, gap_b)` of `[i-1][j]` when it computes `gap_b_scores[i][j]`. -/
def fill_gap_b_penalties (al : Aligner) (i j : Nat) : Int × Int × Int :=
  let gap_open_penalty := toScore (al.scoring.gap_extend + al.scoring.gap_open)
  let gap_extend_penalty := al.scoring.gap_extend
  if j = al.score_height - 1 && al.scoring.no_end_gap_penalty then
    (0, if i = 1 then 0 else gap_open_penalty, 0)
  else
    (gap_open_penalty, gap_open_penalty, gap_extend_penalty)

/-- The combine function in the words of the specification: the maximum of the
three candidates in GLOBAL mode, and that maximum floored at zero in LOCAL mode. -/
def spec_combine (is_sw : Bool) (a b c : Int) : Int :=
  if is_sw then max (max (max a b) c) 0 else max (max a b) c

/-- The symbol-equality lookup of the concrete scenarios: `+1` for equal
symbols, `-1` for different ones. -/
def unit_lookup (a b : Char) : Int × Bool := if a = b then (1, true) else (-1, false)

/-- The scoring of the concrete scenario: lookup `+1`/`-1`, `gap_open = 0`,
`gap_extend = -1`, all flags off. -/
def classic_scoring : Scoring :=
  Scoring.mk 0 (-1) false false false false false unit_lookup

/-- An engine set up as `aligner_align` does before the fill (`score_width =
strlen(seq_a)+1`, `score_height = strlen(seq_b)+1`), with zeroed buffers. -/
def mk_aligner (sc : Scoring) (a b : List Char) : Aligner :=
  Aligner.mk sc a b (a.length + 1) (b.length + 1) 0 (fun _ => 0) (fun _ => 0) (fun _ => 0)

/-- The engine for `seqA = "GATTACA"`, `seqB = "GCATGCU"` under `classic_scoring`. -/
def gattaca_aligner : Aligner :=
  mk_aligner classic_scoring ['G', 'A', 'T', 'T', 'A', 'C', 'A'] ['G', 'C', 'A', 'T', 'G', 'C', 'U']

/-- The penalty of a triple `(prev_match_penalty, prev_gap_a_penalty,
prev_gap_b_penalty)` that belongs to the candidate matrix `m`. -/
def pick_penalty (p : Int × Int × Int) (m : Matrix) : Int :=
  match m with
  | Matrix.MATCH => p.1
  | Matrix.GAP_A => p.2.1
  | Matrix.GAP_B => p.2.2

/-- The value a matrix of the engine holds at an array index. -/
def matrix_at (al : Aligner) (m : Matrix) (k : Nat) : Int :=
  match m with
  | Matrix.MATCH => al.match_scores k
  | Matrix.GAP_A => al.gap_a_scores k
  | Matrix.GAP_B => al.gap_b_scores k

/-- The predecessor cell in the words of the specification: `MATCH → (x-1,y-1)`,
`GAP_FIRST → (x,y-1)`, `GAP_SECOND → (x-1,y)`. -/
def spec_predecessor (m : Matrix) (x y : Nat) : Nat × Nat :=
  match m with
  | Matrix.MATCH => (x - 1, y - 1)
  | Matrix.GAP_A => (x, y - 1)
  | Matrix.GAP_B => (x - 1, y)

/-- The GAP_FIRST candidate of a traceback step in the words of the
specification: it is legal (`no_gaps_in_a` unset, or `x' = 0`, or `x' = |A|`)
and `gap_a[x'][y'] + p_first = score`. -/
def spec_gap_a_matches (c : Cursor) (al : Aligner) : Prop :=
  (al.scoring.no_gaps_in_a = false ∨ (spec_predecessor c.curr_matrix c.score_x c.score_y).1 = 0 ∨
    (spec_predecessor c.curr_matrix c.score_x c.score_y).1 = al.seq_a.length) ∧
  al.gap_a_scores (ARR_2D_INDEX (al.seq_a.length + 1)
      (spec_predecessor c.curr_matrix c.score_x c.score_y).1
      (spec_predecessor c.curr_matrix c.score_x c.score_y).2)
    + (reverse_penalties al c.curr_matrix c.score_x c.score_y).2.1 = c.curr_score

/-- The GAP_SECOND candidate of a traceback step in the words of the
specification: it is legal (`no_gaps_in_b` unset, or `y' = 0`, or `y' = |B|`)
and `gap_b[x'][y'] + p_second = score`. -/
def spec_gap_b_matches (c : Cursor) (al : Aligner) : Prop :=
  (al.scoring.no_gaps_in_b = false ∨ (spec_predecessor c.curr_matrix c.score_x c.score_y).2 = 0 ∨
    (spec_predecessor c.curr_matrix c.score_x c.score_y).2 = al.seq_b.length) ∧
  al.gap_b_scores (ARR_2D_INDEX (al.seq_a.length + 1)
      (spec_predecessor c.curr_matrix c.score_x c.score_y).1
      (spec_predecessor c.curr_matrix c.score_x c.score_y).2)
    + (reverse_penalties al c.curr_matrix c.score_x c.score_y).2.2 = c.curr_score

/-- The MATCH test of `alignment_reverse_move` as the code writes it (line 385):
`no_mismatches` unset, or `is_match` of the lookup of lines 320-328, which is
taken at the symbols `A[x-1]`, `B[y-1]` of the current cell, and
`match[x'][y'] + p_match = score`. -/
def code_match_matches (c : Cursor) (al : Aligner) : Prop :=
  (al.scoring.no_mismatches = false ∨
    (al.scoring.scoring_lookup (seqAt al.seq_a (c.score_x - 1))
      (seqAt al.seq_b (c.score_y - 1))).2 = true) ∧
  al.match_scores (ARR_2D_INDEX (al.seq_a.length + 1)
      (spec_predecessor c.curr_matrix c.score_x c.score_y).1
      (spec_predecessor c.curr_matrix c.score_x c.score_y).2)
    + (reverse_penalties al c.curr_matrix c.score_x c.score_y).1 = c.curr_score

/-- The MATCH candidate of a traceback step in the words of the specification:
it is legal by the rule the fill used for the predecessor cell `(x', y')`
(`no_mismatches` unset, or the predecessor lies on the first row or column,
where the fill does not apply that rule, or the lookup of the predecessor's own
symbols `A[x'-1]`, `B[y'-1]` reports a match) and
`match[x'][y'] + p_match = score`. -/
def spec_match_matches (c : Cursor) (al : Aligner) : Prop :=
  (al.scoring.no_mismatches = false ∨
    (spec_predecessor c.curr_matrix c.score_x c.score_y).1 = 0 ∨
    (spec_predecessor c.curr_matrix c.score_x c.score_y).2 = 0 ∨
    (al.scoring.scoring_lookup
      (seqAt al.seq_a ((spec_predecessor c.curr_matrix c.score_x c.score_y).1 - 1))
      (seqAt al.seq_b ((spec_predecessor c.curr_matrix c.score_x c.score_y).2 - 1))).2 = true) ∧
  al.match_scores (ARR_2D_INDEX (al.seq_a.length + 1)
      (spec_predecessor c.curr_matrix c.score_x c.score_y).1
      (spec_predecessor c.curr_matrix c.score_x c.score_y).2)
    + (reverse_penalties al c.curr_matrix c.score_x c.score_y).1 = c.curr_score

instance spec_gap_a_matches_decidable (c : Cursor) (al : Aligner) :
    Decidable (spec_gap_a_matches c al) := by
  unfold spec_gap_a_matches
  infer_instance

instance spec_gap_b_matches_decidable (c : Cursor) (al : Aligner) :
    Decidable (spec_gap_b_matches c al) := by
  unfold spec_gap_b_matches
  infer_instance

instance spec_match_matches_decidable (c : Cursor) (al : Aligner) :
    Decidable (spec_match_matches c al) := by
  unfold spec_match_matches
  infer_instance

/-- The maximum of `f 0, …, f n`. -/
def max_upto (f : Nat → Int) : Nat → Int
  | 0 => f 0
  | n + 1 => max (max_upto f n) (f (n + 1))

/-- The optimal score of LOCAL mode as the claim defines it: the maximum over all
cells `0 ≤ x ≤ |A|`, `0 ≤ y ≤ |B|` of the three matrices of the engine. -/
def local_optimal_score (al : Aligner) : Int :=
  max_upto (fun y => max_upto (fun x =>
      MAX3 (al.match_scores (ARR_2D_INDEX al.score_width x y))
        (al.gap_a_scores (ARR_2D_INDEX al.score_width x y))
        (al.gap_b_scores (ARR_2D_INDEX al.score_width x y)))
    al.seq_a.length) al.seq_b.length

/-- The optimal score of GLOBAL mode: the maximum of the three matrices at the
terminal cell `[|A|][|B|]`. -/
def global_optimal_score (al : Aligner) : Int :=
  MAX3 (al.match_scores (ARR_2D_INDEX al.score_width al.seq_a.length al.seq_b.length))
    (al.gap_a_scores (ARR_2D_INDEX al.score_width al.seq_a.length al.seq_b.length))
    (al.gap_b_scores (ARR_2D_INDEX al.score_width al.seq_a.length al.seq_b.length))

/-- The memory `realloc` hands back: the old contents below the old size, and
whatever the allocator left there (`fresh`) above it. -/
def realloc_buf (old : Buf) (old_size : Nat) (fresh : Buf) : Buf :=
  fun k => if k < old_size then old k else fresh k

/-- Lines 232-261 of `aligner_align`: the engine after the `memcpy`, before the
fill.  `ROUNDUP2POW` is a macro of a header that is not part of the sources and
is a parameter; `fresh` is the contents of newly allocated memory (`malloc`
and `realloc` are assumed to succeed: the function does not test their result). -/
def aligner_prepare (ROUNDUP2POW : Nat → Nat) (fresh : Mats) (aligner : Aligner)
    (seq_a seq_b : List Char) (scoring : Scoring) : Aligner :=
  let score_width := seq_a.length + 1
  let score_height := seq_b.length + 1
  let new_capacity := score_width * score_height
  if aligner.capacity = 0 ∨ aligner.capacity < new_capacity then
    if aligner.capacity = 0 then
      Aligner.mk scoring seq_a seq_b score_width score_height (ROUNDUP2POW new_capacity)
        fresh.match_scores fresh.gap_a_scores fresh.gap_b_scores
    else
      Aligner.mk scoring seq_a seq_b score_width score_height (ROUNDUP2POW new_capacity)
        (realloc_buf aligner.match_scores aligner.capacity fresh.match_scores)
        (realloc_buf aligner.gap_a_scores aligner.capacity fresh.gap_a_scores)
        (realloc_buf aligner.gap_b_scores aligner.capacity fresh.gap_b_scores)
  else
    Aligner.mk scoring seq_a seq_b score_width score_height aligner.capacity
      aligner.match_scores aligner.gap_a_scores aligner.gap_b_scores

/-- Function `aligner_align`. -/
def aligner_align (ROUNDUP2POW : Nat → Nat) (fresh : Mats) (aligner : Aligner)
    (seq_a seq_b : List Char) (scoring : Scoring) (is_sw : Bool) : Aligner :=
  alignment_fill_matrices (aligner_prepare ROUNDUP2POW fresh aligner seq_a seq_b scoring) is_sw

/-- The result `alignment_t`: two character buffers, their capacity, and the
fields the core reports. -/
structure Alignment where
  result_a : Nat → Char
  result_b : Nat → Char
  capacity : Nat
  length : Nat
  pos_a : Nat
  pos_b : Nat
  len_a : Nat
  len_b : Nat
  score : Int

/-- The memory `realloc` hands back for a character buffer. -/
def realloc_chars (old : Nat → Char) (old_size : Nat) (fresh : Nat → Char) : Nat → Char :=
  fun k => if k < old_size then old k else fresh k

/-- Function `alignment_ensure_capacity`.  `ROUNDUP2POW` is a parameter; `fresh_a`
and `fresh_b` are what the two `realloc` calls leave above the old contents,
`none` when the call returns `NULL`; the result `none` is the branch that prints
"Out of memory" and calls `exit(EXIT_FAILURE)`. -/
def alignment_ensure_capacity (ROUNDUP2POW : Nat → Nat) (fresh_a fresh_b : Option (Nat → Char))
    (result : Alignment) (strlength : Nat) : Option Alignment :=
  let capacity := strlength + 1
  if result.capacity < capacity then
    let capacity := ROUNDUP2POW capacity
    match fresh_a, fresh_b with
    | some fa, some fb =>
      some (Alignment.mk (realloc_chars result.result_a result.capacity fa)
        (realloc_chars result.result_b result.capacity fb) capacity result.length
        result.pos_a result.pos_b result.len_a result.len_b result.score)
    | _, _ => none
  else
    some result

/-- No 32-bit overflow occurs at the interior cell `[x][y]` of a fill with
`no_gaps_in_a`, `no_gaps_in_b` and `no_end_gap_penalty` unset: `gap_extend +
gap_open` is an `int`, and the three values the recurrence yields over the
integers, read off the filled matrices `r`, are values of `score_t`. -/
def cell_no_overflow (r : Aligner) (x y : Nat) : Prop :=
  inRange (r.scoring.gap_extend + r.scoring.gap_open) ∧
  inRange (MAX3 (r.match_scores (ARR_2D_INDEX r.score_width (x - 1) (y - 1)))
      (r.gap_a_scores (ARR_2D_INDEX r.score_width (x - 1) (y - 1)))
      (r.gap_b_scores (ARR_2D_INDEX r.score_width (x - 1) (y - 1)))
    + (r.scoring.scoring_lookup (seqAt r.seq_a (x - 1)) (seqAt r.seq_b (y - 1))).1) ∧
  inRange (MAX3
    (r.match_scores (ARR_2D_INDEX r.score_width x (y - 1))
      + r.scoring.gap_open + r.scoring.gap_extend)
    (r.gap_a_scores (ARR_2D_INDEX r.score_width x (y - 1)) + r.scoring.gap_extend)
    (r.gap_b_scores (ARR_2D_INDEX r.score_width x (y - 1))
      + r.scoring.gap_open + r.scoring.gap_extend)) ∧
  inRange (MAX3
    (r.match_scores (ARR_2D_INDEX r.score_width (x - 1) y)
      + r.scoring.gap_open + r.scoring.gap_extend)
    (r.gap_a_scores (ARR_2D_INDEX r.score_width (x - 1) y)
      + r.scoring.gap_open + r.scoring.gap_extend)
    (r.gap_b_scores (ARR_2D_INDEX r.score_width (x - 1) y) + r.scoring.gap_extend))

instance (r : Aligner) (x y : Nat) : Decidable (cell_no_overflow r x y) := by
  unfold cell_no_overflow
  exact inferInstance

/-- No 32-bit overflow occurs at any interior cell of the filled matrices `r`. -/
def fill_no_overflow (r : Aligner) : Prop :=
  ∀ x, x ≤ r.seq_a.length → ∀ y, y ≤ r.seq_b.length → 1 ≤ x → 1 ≤ y → cell_no_overflow r x y

instance (r : Aligner) : Decidable (fill_no_overflow r) := by
  unfold fill_no_overflow
  exact inferInstance

/-- Modelled from the spec: `next_power_of_two`, an instance of the absent macro
`ROUNDUP2POW` (the least power of two that is at least `n`). -/
def roundup2pow (n : Nat) : Nat := 2 ^ Nat.clog 2 n

/-- A lookup inside the bounds of the overflow claim: every pair of symbols
scores `-1`, and the match flag is symbol equality. -/
def flat_lookup (a b : Char) : Int × Bool := if a = b then (-1, true) else (-1, false)

/-! ## Arithmetic of `score_t` -/

theorem toScore_inRange (v : Int) : inRange (toScore v) := by
  unfold inRange toScore INT_MIN INT_MAX
  constructor <;> omega

theorem toScore_of_inRange {v : Int} (h : inRange v) : toScore v = v := by
  unfold inRange INT_MIN INT_MAX at h
  unfold toScore
  omega

theorem toScore_toLong (v : Int) : toScore (toLong v) = toScore v := by
  unfold toScore toLong
  omega

theorem toScore_add_toLong (a v : Int) : toScore (toLong (a + toLong v)) = toScore (a + v) := by
  unfold toScore toLong
  omega

theorem inRange_MAX3 {a b c : Int} (ha : inRange a) (hb : inRange b) (hc : inRange c) :
    inRange (MAX3 a b c) := by
  unfold inRange MAX3 at *
  omega

theorem fill_min_inRange (is_sw : Bool) : inRange (fill_min is_sw) := by
  cases is_sw <;> simp [fill_min, inRange, INT_MIN, INT_MAX]

theorem combine_inRange (is_sw : Bool) (a b c : Int) : inRange (combine is_sw a b c) := by
  cases is_sw
  · simpa [combine, nw_combine] using toScore_inRange _
  · have h := toScore_inRange (MAX3 a b c)
    unfold inRange INT_MIN INT_MAX at *
    simp only [combine, sw_combine, MAX2, if_true]
    omega

/-! ## Indices, writes and loops -/

theorem idx_inj {W x y x' y' : Nat} (hx : x < W) (hx' : x' < W)
    (h : ARR_2D_INDEX W x y = ARR_2D_INDEX W x' y') : x = x' ∧ y = y' := by
  unfold ARR_2D_INDEX at h
  have h1 : (y * W + x) % W = x := by
    rw [Nat.add_comm, Nat.add_mul_mod_self_right]; exact Nat.mod_eq_of_lt hx
  have h2 : (y' * W + x') % W = x' := by
    rw [Nat.add_comm, Nat.add_mul_mod_self_right]; exact Nat.mod_eq_of_lt hx'
  have hxx : x = x' := by rw [← h1, ← h2, h]
  subst hxx
  have hW : 0 < W := by omega
  have h3 : y * W = y' * W := by omega
  exact ⟨rfl, Nat.eq_of_mul_eq_mul_right hW h3⟩

theorem idx_ne {W x y x' y' : Nat} (hx : x < W) (hx' : x' < W)
    (h : ¬ (x = x' ∧ y = y')) : ARR_2D_INDEX W x y ≠ ARR_2D_INDEX W x' y' :=
  fun e => h (idx_inj hx hx' e)

@[simp] theorem bufSet_same (buf : Buf) (p : Nat) (v : Int) : bufSet buf p v p = v := by
  simp [bufSet]

theorem bufSet_other (buf : Buf) {p q : Nat} (v : Int) (h : q ≠ p) :
    bufSet buf p v q = buf q := by
  simp [bufSet, h]

theorem forRange_induct {σ : Type} (P : Nat → σ → Prop) (lo : Nat) (body : Nat → σ → σ)
    (n : Nat) (s : σ) (h0 : P 0 s)
    (hs : ∀ k t, k < n → P k t → P (k + 1) (body (lo + k) t)) :
    P n (forRange lo body n s) := by
  induction n with
  | zero => exact h0
  | succ m ih =>
    exact hs m _ (Nat.lt_succ_self m) (ih (fun k t hk hp => hs k t (Nat.lt_succ_of_lt hk) hp))

theorem AgreeAt.rfl' (t : Mats) (p : Nat) : AgreeAt t t p := ⟨rfl, rfl, rfl⟩

theorem AgreeAt.trans' {t u v : Mats} {p : Nat} (h1 : AgreeAt t u p) (h2 : AgreeAt u v p) :
    AgreeAt t v p :=
  ⟨h1.1.trans h2.1, h1.2.1.trans h2.2.1, h1.2.2.trans h2.2.2⟩

theorem AgreeAt.symm' {t u : Mats} {p : Nat} (h1 : AgreeAt t u p) : AgreeAt u t p :=
  ⟨h1.1.symm, h1.2.1.symm, h1.2.2.symm⟩

theorem matchVal_congr (al : Aligner) (is_sw : Bool) {t u : Mats} (x y : Nat)
    (h : AgreeAt t u (ARR_2D_INDEX al.score_width (x - 1) (y - 1))) :
    matchVal al is_sw t x y = matchVal al is_sw u x y := by
  obtain ⟨h1, h2, h3⟩ := h
  simp only [matchVal, h1, h2, h3]

theorem gapAVal_congr (al : Aligner) (is_sw : Bool) {t u : Mats} (x y : Nat)
    (h : AgreeAt t u (ARR_2D_INDEX al.score_width x (y - 1))) :
    gapAVal al is_sw t x y = gapAVal al is_sw u x y := by
  obtain ⟨h1, h2, h3⟩ := h
  simp only [gapAVal, h1, h2, h3]

theorem gapBVal_congr (al : Aligner) (is_sw : Bool) {t u : Mats} (x y : Nat)
    (h : AgreeAt t u (ARR_2D_INDEX al.score_width (x - 1) y)) :
    gapBVal al is_sw t x y = gapBVal al is_sw u x y := by
  obtain ⟨h1, h2, h3⟩ := h
  simp only [gapBVal, h1, h2, h3]

theorem CellOK_congr (al : Aligner) (is_sw : Bool) {t u : Mats} (x y : Nat)
    (h0 : AgreeAt t u (ARR_2D_INDEX al.score_width x y))
    (h1 : AgreeAt t u (ARR_2D_INDEX al.score_width (x - 1) (y - 1)))
    (h2 : AgreeAt t u (ARR_2D_INDEX al.score_width x (y - 1)))
    (h3 : AgreeAt t u (ARR_2D_INDEX al.score_width (x - 1) y))
    (h : CellOK al is_sw t x y) : CellOK al is_sw u x y := by
  obtain ⟨a, b, c⟩ := h
  refine ⟨?_, fun hn => ?_, fun hn => ?_⟩
  · rw [← h0.1, a, matchVal_congr al is_sw x y h1]
  · rw [← h0.2.1, b hn, gapAVal_congr al is_sw x y h2]
  · rw [← h0.2.2, c hn, gapBVal_congr al is_sw x y h3]

theorem fill_cell_eq (al : Aligner) (is_sw : Bool) (i j : Nat) (s : Mats) :
    fill_cell al is_sw i j s
      = write_gap_b al is_sw i j (write_gap_a al is_sw i j (write_match al is_sw i j s)) := by
  have e : ∀ (c : Prop) [Decidable c] (m : Buf) (p : Nat) (v w : Int) (a b : Buf),
      (if c then Mats.mk (bufSet m p v) a b else Mats.mk (bufSet m p w) a b)
        = Mats.mk (bufSet m p (if c then v else w)) a b := by
    intro c _ m p v w a b; split_ifs <;> rfl
  have ea : ∀ (c : Prop) [Decidable c] (m : Buf) (p : Nat) (v w : Int) (a b : Buf),
      (if c then Mats.mk a (bufSet m p v) b else Mats.mk a (bufSet m p w) b)
        = Mats.mk a (bufSet m p (if c then v else w)) b := by
    intro c _ m p v w a b; split_ifs <;> rfl
  have eb : ∀ (c : Prop) [Decidable c] (m : Buf) (p : Nat) (v w : Int) (a b : Buf),
      (if c then Mats.mk a b (bufSet m p v) else Mats.mk a b (bufSet m p w))
        = Mats.mk a b (bufSet m p (if c then v else w)) := by
    intro c _ m p v w a b; split_ifs <;> rfl
  unfold fill_cell write_gap_b write_gap_a write_match matchVal gapAVal gapBVal ARR_2D_INDEX
  simp only [e, ea, eb]
  cases al.scoring.no_gaps_in_a <;> cases al.scoring.no_gaps_in_b <;> rfl


theorem forRange_preserve {σ α : Type} (f : σ → α) (lo : Nat) (body : Nat → σ → σ)
    (h : ∀ i s, f (body i s) = f s) (n : Nat) (s : σ) :
    f (forRange lo body n s) = f s := by
  induction n with
  | zero => rfl
  | succ m ih => exact (h _ _).trans ih

theorem write_match_frame (al : Aligner) (is_sw : Bool) (i j : Nat) (s : Mats) {p : Nat}
    (hp : p ≠ ARR_2D_INDEX al.score_width i j) : AgreeAt (write_match al is_sw i j s) s p :=
  ⟨bufSet_other _ _ hp, rfl, rfl⟩

theorem write_gap_a_frame (al : Aligner) (is_sw : Bool) (i j : Nat) (s : Mats) {p : Nat}
    (hp : p ≠ ARR_2D_INDEX al.score_width i j) : AgreeAt (write_gap_a al is_sw i j s) s p := by
  unfold write_gap_a
  split_ifs
  · exact AgreeAt.rfl' s p
  · exact ⟨rfl, bufSet_other _ _ hp, rfl⟩

theorem write_gap_b_frame (al : Aligner) (is_sw : Bool) (i j : Nat) (s : Mats) {p : Nat}
    (hp : p ≠ ARR_2D_INDEX al.score_width i j) : AgreeAt (write_gap_b al is_sw i j s) s p := by
  unfold write_gap_b
  split_ifs
  · exact AgreeAt.rfl' s p
  · exact ⟨rfl, rfl, bufSet_other _ _ hp⟩

theorem fill_cell_frame (al : Aligner) (is_sw : Bool) (i j : Nat) (s : Mats) {p : Nat}
    (hp : p ≠ ARR_2D_INDEX al.score_width i j) : AgreeAt (fill_cell al is_sw i j s) s p := by
  rw [fill_cell_eq]
  exact ((write_gap_b_frame al is_sw i j _ hp).trans' (write_gap_a_frame al is_sw i j _ hp)).trans'
    (write_match_frame al is_sw i j s hp)

theorem fill_cell_gap_a (al : Aligner) (is_sw : Bool) (h : al.scoring.no_gaps_in_a = true)
    (i j : Nat) (s : Mats) : (fill_cell al is_sw i j s).gap_a_scores = s.gap_a_scores := by
  rw [fill_cell_eq]
  unfold write_gap_b write_gap_a write_match
  rw [if_pos h]
  split_ifs <;> rfl

theorem fill_cell_gap_b (al : Aligner) (is_sw : Bool) (h : al.scoring.no_gaps_in_b = true)
    (i j : Nat) (s : Mats) : (fill_cell al is_sw i j s).gap_b_scores = s.gap_b_scores := by
  rw [fill_cell_eq]
  unfold write_gap_b write_gap_a write_match
  rw [if_pos h]
  split_ifs <;> rfl

theorem fill_cell_match (al : Aligner) (is_sw : Bool) (i j : Nat) (s : Mats) :
    (fill_cell al is_sw i j s).match_scores
      = bufSet s.match_scores (ARR_2D_INDEX al.score_width i j) (matchVal al is_sw s i j) := by
  rw [fill_cell_eq]
  unfold write_gap_b write_gap_a write_match
  split_ifs <;> rfl

theorem fill_cell_ok (al : Aligner) (is_sw : Bool) (i j : Nat) (s : Mats)
    (hi : 1 ≤ i) (hiW : i < al.score_width) (hj : 1 ≤ j) :
    CellOK al is_sw (fill_cell al is_sw i j s) i j := by
  have n0 : ARR_2D_INDEX al.score_width (i - 1) (j - 1) ≠ ARR_2D_INDEX al.score_width i j :=
    idx_ne (by omega) hiW (by omega)
  have n1 : ARR_2D_INDEX al.score_width i (j - 1) ≠ ARR_2D_INDEX al.score_width i j :=
    idx_ne hiW hiW (by omega)
  have n2 : ARR_2D_INDEX al.score_width (i - 1) j ≠ ARR_2D_INDEX al.score_width i j :=
    idx_ne (by omega) hiW (by omega)
  refine ⟨?_, fun hn => ?_, fun hn => ?_⟩
  · rw [matchVal_congr al is_sw i j (fill_cell_frame al is_sw i j s n0), fill_cell_match,
      bufSet_same]
  · have ha : AgreeAt (fill_cell al is_sw i j s) (write_match al is_sw i j s)
        (ARR_2D_INDEX al.score_width i (j - 1)) :=
      (fill_cell_frame al is_sw i j s n1).trans' (write_match_frame al is_sw i j s n1).symm'
    rw [gapAVal_congr al is_sw i j ha, fill_cell_eq]
    unfold write_gap_b write_gap_a
    simp only [hn, Bool.false_eq_true, if_false]
    split_ifs <;> simp
  · have ha : AgreeAt (fill_cell al is_sw i j s)
        (write_gap_a al is_sw i j (write_match al is_sw i j s))
        (ARR_2D_INDEX al.score_width (i - 1) j) :=
      (fill_cell_frame al is_sw i j s n2).trans'
        ((write_gap_a_frame al is_sw i j _ n2).trans' (write_match_frame al is_sw i j s n2)).symm'
    rw [gapBVal_congr al is_sw i j ha, fill_cell_eq]
    unfold write_gap_b
    simp only [hn, Bool.false_eq_true, if_false, bufSet_same]

/-- The inner loop over one column `i`, after `n` iterations. -/
theorem fill_column (al : Aligner) (is_sw : Bool) (i : Nat) (hi : 1 ≤ i)
    (hiW : i < al.score_width) (n : Nat) (s : Mats) :
    (∀ p, (∀ y, 1 ≤ y → y ≤ n → p ≠ ARR_2D_INDEX al.score_width i y) →
      AgreeAt (forRange 1 (fun j sj => fill_cell al is_sw i j sj) n s) s p) ∧
    (∀ y, 1 ≤ y → y ≤ n →
      CellOK al is_sw (forRange 1 (fun j sj => fill_cell al is_sw i j sj) n s) i y) := by
  refine forRange_induct
    (fun k t => (∀ p, (∀ y, 1 ≤ y → y ≤ k → p ≠ ARR_2D_INDEX al.score_width i y) →
        AgreeAt t s p) ∧ (∀ y, 1 ≤ y → y ≤ k → CellOK al is_sw t i y))
    1 _ n s ⟨fun p _ => AgreeAt.rfl' s p, fun y h1 h2 => absurd h1 (by omega)⟩ ?_
  intro k t _ ⟨hf, hok⟩
  refine ⟨fun p hp => ?_, fun y h1 h2 => ?_⟩
  · exact (fill_cell_frame al is_sw i (1 + k) t (hp (1 + k) (by omega) (by omega))).trans'
      (hf p (fun y h1 h2 => hp y h1 (by omega)))
  · by_cases hy : y = 1 + k
    · subst hy
      exact fill_cell_ok al is_sw i (1 + k) t hi hiW (by omega)
    · have hyk : y ≤ k := by omega
      refine CellOK_congr al is_sw i y ?_ ?_ ?_ ?_ (hok y h1 hyk)
      · exact (fill_cell_frame al is_sw i (1 + k) t (idx_ne hiW hiW (by omega))).symm'
      · exact (fill_cell_frame al is_sw i (1 + k) t (idx_ne (by omega) hiW (by omega))).symm'
      · exact (fill_cell_frame al is_sw i (1 + k) t (idx_ne hiW hiW (by omega))).symm'
      · exact (fill_cell_frame al is_sw i (1 + k) t (idx_ne (by omega) hiW (by omega))).symm'

/-- The nested loops, after `n` columns. -/
theorem fill_columns (al : Aligner) (is_sw : Bool) (n : Nat) (hn : n < al.score_width)
    (s : Mats) :
    (∀ p, (∀ x y, 1 ≤ x → x ≤ n → 1 ≤ y → y ≤ al.score_height - 1 →
        p ≠ ARR_2D_INDEX al.score_width x y) →
      AgreeAt (forRange 1 (fun i si => forRange 1 (fun j sj => fill_cell al is_sw i j sj)
        (al.score_height - 1) si) n s) s p) ∧
    (∀ x y, 1 ≤ x → x ≤ n → 1 ≤ y → y ≤ al.score_height - 1 →
      CellOK al is_sw (forRange 1 (fun i si => forRange 1 (fun j sj => fill_cell al is_sw i j sj)
        (al.score_height - 1) si) n s) x y) := by
  refine forRange_induct
    (fun k t => (∀ p, (∀ x y, 1 ≤ x → x ≤ k → 1 ≤ y → y ≤ al.score_height - 1 →
        p ≠ ARR_2D_INDEX al.score_width x y) → AgreeAt t s p) ∧
      (∀ x y, 1 ≤ x → x ≤ k → 1 ≤ y → y ≤ al.score_height - 1 → CellOK al is_sw t x y))
    1 _ n s ⟨fun p _ => AgreeAt.rfl' s p, fun x y h1 h2 => absurd h1 (by omega)⟩ ?_
  intro k t hk ⟨hf, hok⟩
  have hkW : 1 + k < al.score_width := by omega
  obtain ⟨cf, cok⟩ := fill_column al is_sw (1 + k) (by omega) hkW (al.score_height - 1) t
  refine ⟨fun p hp => ?_, fun x y hx1 hx2 hy1 hy2 => ?_⟩
  · exact (cf p (fun y h1 h2 => hp (1 + k) y (by omega) (by omega) h1 h2)).trans'
      (hf p (fun x y h1 h2 h3 h4 => hp x y h1 (by omega) h3 h4))
  · by_cases hxk : x = 1 + k
    · subst hxk
      exact cok y hy1 hy2
    · have hx : x ≤ k := by omega
      refine CellOK_congr al is_sw x y ?_ ?_ ?_ ?_ (hok x y hx1 hx hy1 hy2)
      · exact (cf _ (fun y' _ _ => idx_ne (by omega) hkW (by omega))).symm'
      · exact (cf _ (fun y' _ _ => idx_ne (by omega) hkW (by omega))).symm'
      · exact (cf _ (fun y' _ _ => idx_ne (by omega) hkW (by omega))).symm'
      · exact (cf _ (fun y' _ _ => idx_ne (by omega) hkW (by omega))).symm'

theorem idx_lt {W H x y : Nat} (hx : x < W) (hy : y < H) : ARR_2D_INDEX W x y < W * H := by
  unfold ARR_2D_INDEX
  have h1 : (y + 1) * W ≤ H * W := Nat.mul_le_mul_right W hy
  have h2 : (y + 1) * W = y * W + W := by ring
  have h3 : H * W = W * H := Nat.mul_comm H W
  omega

theorem idx_ge {W x y : Nat} (hy : 1 ≤ y) : W ≤ ARR_2D_INDEX W x y := by
  unfold ARR_2D_INDEX
  have h1 : 1 * W ≤ y * W := Nat.mul_le_mul_right W hy
  omega

theorem fill_all_apply (n : Nat) (min : Int) (buf : Buf) (p : Nat) :
    fill_all n min buf p = if p < n then min else buf p := by
  unfold fill_all
  refine forRange_induct (fun k b => ∀ p, b p = if p < k then min else buf p) 0 _ n buf
    (fun p => by simp) ?_ p
  intro k t _ ht q
  by_cases hq : q = 0 + k
  · subst hq
    simp
  · rw [bufSet_other _ _ hq, ht q]
    have : q < k + 1 ↔ q < k := by omega
    simp [this]

/-- The value lines 86-87 store in `gap_b_scores[x][0]`. -/
theorem first_row_value (sc : Scoring) (x : Nat) :
    toScore (if sc.no_start_gap_penalty then 0
        else toLong (sc.gap_open + toLong ((x : Int) * sc.gap_extend)))
      = if sc.no_start_gap_penalty then 0 else toScore (sc.gap_open + (x : Int) * sc.gap_extend) := by
  split_ifs
  · rfl
  · exact toScore_add_toLong _ _

theorem first_row_loop (sc : Scoring) (min : Int) (n : Nat) (s : Mats) :
    (∀ p, (∀ x, 1 ≤ x → x ≤ n → p ≠ x) →
      AgreeAt (forRange 1 (first_row_step sc min) n s) s p) ∧
    (∀ x, 1 ≤ x → x ≤ n →
      (forRange 1 (first_row_step sc min) n s).match_scores x = min ∧
      (forRange 1 (first_row_step sc min) n s).gap_a_scores x = min ∧
      (forRange 1 (first_row_step sc min) n s).gap_b_scores x
        = if sc.no_start_gap_penalty then 0
          else toScore (sc.gap_open + (x : Int) * sc.gap_extend)) := by
  refine forRange_induct
    (fun k t => (∀ p, (∀ x, 1 ≤ x → x ≤ k → p ≠ x) → AgreeAt t s p) ∧
      (∀ x, 1 ≤ x → x ≤ k → t.match_scores x = min ∧ t.gap_a_scores x = min ∧
        t.gap_b_scores x = if sc.no_start_gap_penalty then 0
          else toScore (sc.gap_open + (x : Int) * sc.gap_extend)))
    1 _ n s ⟨fun p _ => AgreeAt.rfl' s p, fun x h1 h2 => absurd h1 (by omega)⟩ ?_
  intro k t _ ⟨hf, hp⟩
  refine ⟨fun p hq => ?_, fun x h1 h2 => ?_⟩
  · have hne : p ≠ 1 + k := hq (1 + k) (by omega) (by omega)
    obtain ⟨a, b, c⟩ := hf p (fun x h1 h2 => hq x h1 (by omega))
    exact ⟨(bufSet_other _ _ hne).trans a, (bufSet_other _ _ hne).trans b,
      (bufSet_other _ _ hne).trans c⟩
  · by_cases hx : x = 1 + k
    · subst hx
      refine ⟨bufSet_same _ _ _, bufSet_same _ _ _, ?_⟩
      show bufSet _ _ _ _ = _
      rw [bufSet_same, first_row_value]
    · obtain ⟨a, b, c⟩ := hp x h1 (by omega)
      exact ⟨(bufSet_other _ _ hx).trans a, (bufSet_other _ _ hx).trans b,
        (bufSet_other _ _ hx).trans c⟩

theorem first_col_loop (sc : Scoring) (min : Int) (W i : Nat) (hW : 0 < W) (n : Nat)
    (s : Mats) :
    (∀ p, (∀ y, 1 ≤ y → y ≤ n → p ≠ ARR_2D_INDEX W 0 y) →
      AgreeAt (forRange 1 (first_col_step sc min W i) n s) s p) ∧
    (∀ y, 1 ≤ y → y ≤ n →
      (forRange 1 (first_col_step sc min W i) n s).match_scores (ARR_2D_INDEX W 0 y) = min ∧
      (forRange 1 (first_col_step sc min W i) n s).gap_a_scores (ARR_2D_INDEX W 0 y)
        = (if sc.no_start_gap_penalty then 0
           else toScore (sc.gap_open + (i : Int) * sc.gap_extend)) ∧
      (forRange 1 (first_col_step sc min W i) n s).gap_b_scores (ARR_2D_INDEX W 0 y) = min) := by
  refine forRange_induct
    (fun k t => (∀ p, (∀ y, 1 ≤ y → y ≤ k → p ≠ ARR_2D_INDEX W 0 y) → AgreeAt t s p) ∧
      (∀ y, 1 ≤ y → y ≤ k → t.match_scores (ARR_2D_INDEX W 0 y) = min ∧
        t.gap_a_scores (ARR_2D_INDEX W 0 y) = (if sc.no_start_gap_penalty then 0
           else toScore (sc.gap_open + (i : Int) * sc.gap_extend)) ∧
        t.gap_b_scores (ARR_2D_INDEX W 0 y) = min))
    1 _ n s ⟨fun p _ => AgreeAt.rfl' s p, fun x h1 h2 => absurd h1 (by omega)⟩ ?_
  intro k t _ ⟨hf, hp⟩
  have e : ∀ j, j * W = ARR_2D_INDEX W 0 j := fun j => rfl
  refine ⟨fun p hq => ?_, fun y h1 h2 => ?_⟩
  · have hne : p ≠ (1 + k) * W := hq (1 + k) (by omega) (by omega)
    obtain ⟨a, b, c⟩ := hf p (fun x h1 h2 => hq x h1 (by omega))
    exact ⟨(bufSet_other _ _ hne).trans a, (bufSet_other _ _ hne).trans b,
      (bufSet_other _ _ hne).trans c⟩
  · by_cases hy : y = 1 + k
    · subst hy
      refine ⟨bufSet_same _ _ _, ?_, bufSet_same _ _ _⟩
      show bufSet _ _ _ _ = _
      rw [e, bufSet_same, first_row_value]
    · have hne : ARR_2D_INDEX W 0 y ≠ (1 + k) * W := by
        rw [e]; exact idx_ne hW hW (by omega)
      obtain ⟨a, b, c⟩ := hp y h1 (by omega)
      exact ⟨(bufSet_other _ _ hne).trans a, (bufSet_other _ _ hne).trans b,
        (bufSet_other _ _ hne).trans c⟩

theorem last_col_loop (al : Aligner) (is_sw : Bool) (hW : 0 < al.score_width) (n : Nat)
    (s : Mats) :
    (forRange 1 (last_col_step al is_sw) n s).match_scores = s.match_scores ∧
    (forRange 1 (last_col_step al is_sw) n s).gap_b_scores = s.gap_b_scores ∧
    (∀ p, (∀ y, 1 ≤ y → y ≤ n → p ≠ ARR_2D_INDEX al.score_width (al.score_width - 1) y) →
      (forRange 1 (last_col_step al is_sw) n s).gap_a_scores p = s.gap_a_scores p) ∧
    (∀ y, 1 ≤ y → y ≤ n →
      (forRange 1 (last_col_step al is_sw) n s).gap_a_scores
          (ARR_2D_INDEX al.score_width (al.score_width - 1) y)
        = combine is_sw
            (s.match_scores (ARR_2D_INDEX al.score_width (al.score_width - 1) (y - 1))
              + toScore (al.scoring.gap_extend + al.scoring.gap_open))
            ((forRange 1 (last_col_step al is_sw) n s).gap_a_scores
                (ARR_2D_INDEX al.score_width (al.score_width - 1) (y - 1))
              + al.scoring.gap_extend)
            (fill_min is_sw)) := by
  refine forRange_induct
    (fun k t => t.match_scores = s.match_scores ∧ t.gap_b_scores = s.gap_b_scores ∧
      (∀ p, (∀ y, 1 ≤ y → y ≤ k → p ≠ ARR_2D_INDEX al.score_width (al.score_width - 1) y) →
        t.gap_a_scores p = s.gap_a_scores p) ∧
      (∀ y, 1 ≤ y → y ≤ k →
        t.gap_a_scores (ARR_2D_INDEX al.score_width (al.score_width - 1) y)
          = combine is_sw
              (s.match_scores (ARR_2D_INDEX al.score_width (al.score_width - 1) (y - 1))
                + toScore (al.scoring.gap_extend + al.scoring.gap_open))
              (t.gap_a_scores (ARR_2D_INDEX al.score_width (al.score_width - 1) (y - 1))
                + al.scoring.gap_extend)
              (fill_min is_sw)))
    1 _ n s ⟨rfl, rfl, fun p _ => rfl, fun x h1 h2 => absurd h1 (by omega)⟩ ?_
  intro k t _ ⟨hm, hb, hf, hp⟩
  have hlt : al.score_width - 1 < al.score_width := by omega
  refine ⟨hm, hb, fun p hq => ?_, fun y h1 h2 => ?_⟩
  · have hne := hq (1 + k) (by omega) (by omega)
    exact (bufSet_other _ _ hne).trans (hf p (fun y h1 h2 => hq y h1 (by omega)))
  · have hprev : ARR_2D_INDEX al.score_width (al.score_width - 1) (y - 1)
        ≠ ARR_2D_INDEX al.score_width (al.score_width - 1) (1 + k) :=
      idx_ne hlt hlt (by omega)
    show bufSet _ _ _ _ = combine is_sw _ (bufSet _ _ _ _ + _) _
    rw [bufSet_other _ _ hprev]
    by_cases hy : y = 1 + k
    · subst hy
      rw [bufSet_same, hm]
    · have hne : ARR_2D_INDEX al.score_width (al.score_width - 1) y
          ≠ ARR_2D_INDEX al.score_width (al.score_width - 1) (1 + k) :=
        idx_ne hlt hlt (by omega)
      rw [bufSet_other _ _ hne]
      exact hp y h1 (by omega)

theorem last_row_loop (al : Aligner) (is_sw : Bool) (n : Nat)
    (hn : n < al.score_width) (s : Mats) :
    (forRange 1 (last_row_step al is_sw) n s).match_scores = s.match_scores ∧
    (forRange 1 (last_row_step al is_sw) n s).gap_a_scores = s.gap_a_scores ∧
    (∀ p, (∀ x, 1 ≤ x → x ≤ n → p ≠ ARR_2D_INDEX al.score_width x (al.score_height - 1)) →
      (forRange 1 (last_row_step al is_sw) n s).gap_b_scores p = s.gap_b_scores p) ∧
    (∀ x, 1 ≤ x → x ≤ n →
      (forRange 1 (last_row_step al is_sw) n s).gap_b_scores
          (ARR_2D_INDEX al.score_width x (al.score_height - 1))
        = combine is_sw
            (s.match_scores (ARR_2D_INDEX al.score_width (x - 1) (al.score_height - 1))
              + toScore (al.scoring.gap_extend + al.scoring.gap_open))
            ((forRange 1 (last_row_step al is_sw) n s).gap_b_scores
                (ARR_2D_INDEX al.score_width (x - 1) (al.score_height - 1))
              + al.scoring.gap_extend)
            (fill_min is_sw)) := by
  refine forRange_induct
    (fun k t => t.match_scores = s.match_scores ∧ t.gap_a_scores = s.gap_a_scores ∧
      (∀ p, (∀ x, 1 ≤ x → x ≤ k → p ≠ ARR_2D_INDEX al.score_width x (al.score_height - 1)) →
        t.gap_b_scores p = s.gap_b_scores p) ∧
      (∀ x, 1 ≤ x → x ≤ k →
        t.gap_b_scores (ARR_2D_INDEX al.score_width x (al.score_height - 1))
          = combine is_sw
              (s.match_scores (ARR_2D_INDEX al.score_width (x - 1) (al.score_height - 1))
                + toScore (al.scoring.gap_extend + al.scoring.gap_open))
              (t.gap_b_scores (ARR_2D_INDEX al.score_width (x - 1) (al.score_height - 1))
                + al.scoring.gap_extend)
              (fill_min is_sw)))
    1 _ n s ⟨rfl, rfl, fun p _ => rfl, fun x h1 h2 => absurd h1 (by omega)⟩ ?_
  intro k t hk ⟨hm, ha, hf, hp⟩
  have hkW : 1 + k < al.score_width := by omega
  refine ⟨hm, ha, fun p hq => ?_, fun x h1 h2 => ?_⟩
  · have hne := hq (1 + k) (by omega) (by omega)
    exact (bufSet_other _ _ hne).trans (hf p (fun y h1 h2 => hq y h1 (by omega)))
  · have hprev : ARR_2D_INDEX al.score_width (x - 1) (al.score_height - 1)
        ≠ ARR_2D_INDEX al.score_width (1 + k) (al.score_height - 1) :=
      idx_ne (by omega) hkW (by omega)
    show bufSet _ _ _ _ = combine is_sw _ (bufSet _ _ _ _ + _) _
    rw [bufSet_other _ _ hprev]
    by_cases hx : x = 1 + k
    · subst hx
      rw [bufSet_same, hm]
    · have hne : ARR_2D_INDEX al.score_width x (al.score_height - 1)
          ≠ ARR_2D_INDEX al.score_width (1 + k) (al.score_height - 1) :=
        idx_ne (by omega) hkW (by omega)
      rw [bufSet_other _ _ hne]
      exact hp x h1 (by omega)

/-! ## The phases of the fill -/

theorem fill_edges_match (al : Aligner) (is_sw : Bool) (hW : 0 < al.score_width) (s : Mats) :
    (fill_edges al is_sw s).match_scores = s.match_scores := by
  unfold fill_edges
  split_ifs
  · rw [(last_row_loop al is_sw _ (by omega) _).1, (last_col_loop al is_sw hW _ _).1]
  · rw [(last_col_loop al is_sw hW _ _).1]
  · rw [(last_row_loop al is_sw _ (by omega) _).1]
  · rfl

theorem fill_edges_gap_a (al : Aligner) (is_sw : Bool) (hW : 0 < al.score_width) (s : Mats)
    (p : Nat)
    (h : al.scoring.no_gaps_in_a = false ∨ ∀ y, 1 ≤ y → y ≤ al.score_height - 1 →
      p ≠ ARR_2D_INDEX al.score_width (al.score_width - 1) y) :
    (fill_edges al is_sw s).gap_a_scores p = s.gap_a_scores p := by
  unfold fill_edges
  split_ifs with ha hb hb
  · rw [(last_row_loop al is_sw _ (by omega) _).2.1]
    exact (last_col_loop al is_sw hW _ _).2.2.1 p (h.resolve_left (by simp [ha]))
  · exact (last_col_loop al is_sw hW _ _).2.2.1 p (h.resolve_left (by simp [ha]))
  · rw [(last_row_loop al is_sw _ (by omega) _).2.1]
  · rfl

theorem fill_edges_gap_b (al : Aligner) (is_sw : Bool) (hW : 0 < al.score_width) (s : Mats)
    (p : Nat)
    (h : al.scoring.no_gaps_in_b = false ∨ ∀ x, 1 ≤ x → x ≤ al.score_width - 1 →
      p ≠ ARR_2D_INDEX al.score_width x (al.score_height - 1)) :
    (fill_edges al is_sw s).gap_b_scores p = s.gap_b_scores p := by
  unfold fill_edges
  split_ifs with ha hb hb
  · rw [(last_row_loop al is_sw _ (by omega) _).2.2.1 p (h.resolve_left (by simp [hb])),
      (last_col_loop al is_sw hW _ _).2.1]
  · rw [(last_col_loop al is_sw hW _ _).2.1]
  · exact (last_row_loop al is_sw _ (by omega) _).2.2.1 p (h.resolve_left (by simp [hb]))
  · rfl

/-- Under `no_gaps_in_a` the last column of `gap_a_scores` is the chain of lines 197-207. -/
theorem fill_edges_chain_a (al : Aligner) (is_sw : Bool) (hW : 0 < al.score_width) (s : Mats)
    (ha : al.scoring.no_gaps_in_a = true) (y : Nat) (h1 : 1 ≤ y)
    (h2 : y ≤ al.score_height - 1) :
    (fill_edges al is_sw s).gap_a_scores (ARR_2D_INDEX al.score_width (al.score_width - 1) y)
      = combine is_sw
          ((fill_edges al is_sw s).match_scores
              (ARR_2D_INDEX al.score_width (al.score_width - 1) (y - 1))
            + toScore (al.scoring.gap_extend + al.scoring.gap_open))
          ((fill_edges al is_sw s).gap_a_scores
              (ARR_2D_INDEX al.score_width (al.score_width - 1) (y - 1))
            + al.scoring.gap_extend)
          (fill_min is_sw) := by
  rw [fill_edges_match al is_sw hW]
  unfold fill_edges
  rw [if_pos ha]
  split_ifs
  · rw [(last_row_loop al is_sw _ (by omega) _).2.1]
    exact (last_col_loop al is_sw hW _ _).2.2.2 y h1 h2
  · exact (last_col_loop al is_sw hW _ _).2.2.2 y h1 h2

/-- Under `no_gaps_in_b` the last row of `gap_b_scores` is the chain of lines 215-225. -/
theorem fill_edges_chain_b (al : Aligner) (is_sw : Bool) (hW : 0 < al.score_width) (s : Mats)
    (hb : al.scoring.no_gaps_in_b = true) (x : Nat) (h1 : 1 ≤ x)
    (h2 : x ≤ al.score_width - 1) :
    (fill_edges al is_sw s).gap_b_scores (ARR_2D_INDEX al.score_width x (al.score_height - 1))
      = combine is_sw
          ((fill_edges al is_sw s).match_scores
              (ARR_2D_INDEX al.score_width (x - 1) (al.score_height - 1))
            + toScore (al.scoring.gap_extend + al.scoring.gap_open))
          ((fill_edges al is_sw s).gap_b_scores
              (ARR_2D_INDEX al.score_width (x - 1) (al.score_height - 1))
            + al.scoring.gap_extend)
          (fill_min is_sw) := by
  rw [fill_edges_match al is_sw hW]
  unfold fill_edges
  rw [if_pos hb]
  have e := (last_row_loop al is_sw (al.score_width - 1) (by omega)
    (if al.scoring.no_gaps_in_a = true then
      forRange 1 (last_col_step al is_sw) (al.score_height - 1) s else s)).2.2.2 x h1 h2
  rw [e]
  split_ifs
  · rw [(last_col_loop al is_sw hW _ _).1]
  · rfl

theorem fill_main_frame (al : Aligner) (is_sw : Bool) (hW : 0 < al.score_width) (s : Mats)
    (p : Nat)
    (h : ∀ x y, 1 ≤ x → x ≤ al.score_width - 1 → 1 ≤ y → y ≤ al.score_height - 1 →
      p ≠ ARR_2D_INDEX al.score_width x y) :
    AgreeAt (fill_main al is_sw s) s p :=
  (fill_columns al is_sw (al.score_width - 1) (by omega) s).1 p h

theorem fill_main_ok (al : Aligner) (is_sw : Bool) (hW : 0 < al.score_width) (s : Mats)
    (x y : Nat) (hx1 : 1 ≤ x) (hx : x < al.score_width) (hy1 : 1 ≤ y)
    (hy : y < al.score_height) : CellOK al is_sw (fill_main al is_sw s) x y :=
  (fill_columns al is_sw (al.score_width - 1) (by omega) s).2 x y hx1 (by omega) hy1 (by omega)

theorem fill_main_gap_a (al : Aligner) (is_sw : Bool) (h : al.scoring.no_gaps_in_a = true)
    (s : Mats) : (fill_main al is_sw s).gap_a_scores = s.gap_a_scores := by
  unfold fill_main
  refine forRange_preserve (fun t : Mats => t.gap_a_scores) 1 _ (fun i t => ?_) _ s
  exact forRange_preserve (fun t : Mats => t.gap_a_scores) 1 _
    (fun j u => fill_cell_gap_a al is_sw h i j u) _ t

theorem fill_main_gap_b (al : Aligner) (is_sw : Bool) (h : al.scoring.no_gaps_in_b = true)
    (s : Mats) : (fill_main al is_sw s).gap_b_scores = s.gap_b_scores := by
  unfold fill_main
  refine forRange_preserve (fun t : Mats => t.gap_b_scores) 1 _ (fun i t => ?_) _ s
  exact forRange_preserve (fun t : Mats => t.gap_b_scores) 1 _
    (fun j u => fill_cell_gap_b al is_sw h i j u) _ t

theorem idx_row (W x : Nat) : ARR_2D_INDEX W x 0 = x := by
  simp [ARR_2D_INDEX]

theorem fill_edges_agree (al : Aligner) (is_sw : Bool) (hW : 0 < al.score_width) (s : Mats)
    (p : Nat)
    (ha : al.scoring.no_gaps_in_a = false ∨ ∀ y, 1 ≤ y → y ≤ al.score_height - 1 →
      p ≠ ARR_2D_INDEX al.score_width (al.score_width - 1) y)
    (hb : al.scoring.no_gaps_in_b = false ∨ ∀ x, 1 ≤ x → x ≤ al.score_width - 1 →
      p ≠ ARR_2D_INDEX al.score_width x (al.score_height - 1)) :
    AgreeAt (fill_edges al is_sw s) s p :=
  ⟨by rw [fill_edges_match al is_sw hW], fill_edges_gap_a al is_sw hW s p ha,
    fill_edges_gap_b al is_sw hW s p hb⟩

/-- The two border loops touch only `[x][0]`, `x ≥ 1`, and `[0][y]`, `y ≥ 1`. -/
theorem fill_borders_frame (al : Aligner) (is_sw : Bool) (hW : 0 < al.score_width) (s : Mats)
    (x y : Nat) (hx : x < al.score_width) (h : (x = 0 ∧ y = 0) ∨ (1 ≤ x ∧ 1 ≤ y)) :
    AgreeAt (fill_borders al is_sw s) s (ARR_2D_INDEX al.score_width x y) := by
  unfold fill_borders
  refine ((first_col_loop al.scoring _ al.score_width _ hW _ _).1 _ ?_).trans'
    ((first_row_loop al.scoring _ _ s).1 _ ?_)
  · intro y' h1 _
    exact idx_ne hx hW (by omega)
  · intro x' h1 h2
    rw [← idx_row al.score_width x']
    exact idx_ne hx (by omega) (by omega)

theorem fill_borders_row (al : Aligner) (is_sw : Bool) (hW : 0 < al.score_width) (s : Mats)
    (x : Nat) (hx1 : 1 ≤ x) (hx : x < al.score_width) :
    (fill_borders al is_sw s).match_scores (ARR_2D_INDEX al.score_width x 0) = fill_min is_sw ∧
    (fill_borders al is_sw s).gap_a_scores (ARR_2D_INDEX al.score_width x 0) = fill_min is_sw ∧
    (fill_borders al is_sw s).gap_b_scores (ARR_2D_INDEX al.score_width x 0)
      = if al.scoring.no_start_gap_penalty then 0
        else toScore (al.scoring.gap_open + (x : Int) * al.scoring.gap_extend) := by
  have hc : AgreeAt (fill_borders al is_sw s)
      (forRange 1 (first_row_step al.scoring (fill_min is_sw)) (al.score_width - 1) s)
      (ARR_2D_INDEX al.score_width x 0) := by
    unfold fill_borders
    exact (first_col_loop al.scoring _ al.score_width _ hW _ _).1 _
      (fun y' h1 _ => idx_ne hx hW (by omega))
  obtain ⟨a, b, c⟩ := (first_row_loop al.scoring (fill_min is_sw) (al.score_width - 1) s).2 x hx1
    (by omega)
  rw [idx_row] at hc ⊢
  exact ⟨hc.1.trans a, hc.2.1.trans b, hc.2.2.trans c⟩

/-- The first column: the gap value is computed from the stale loop variable
`i = score_width`, not from `j`. -/
theorem fill_borders_col (al : Aligner) (is_sw : Bool) (hW : 0 < al.score_width) (s : Mats)
    (y : Nat) (hy1 : 1 ≤ y) (hy : y < al.score_height) :
    (fill_borders al is_sw s).match_scores (ARR_2D_INDEX al.score_width 0 y) = fill_min is_sw ∧
    (fill_borders al is_sw s).gap_a_scores (ARR_2D_INDEX al.score_width 0 y)
      = (if al.scoring.no_start_gap_penalty then 0
         else toScore (al.scoring.gap_open + (al.score_width : Int) * al.scoring.gap_extend)) ∧
    (fill_borders al is_sw s).gap_b_scores (ARR_2D_INDEX al.score_width 0 y) = fill_min is_sw := by
  have hi : (if 1 < al.score_width then al.score_width else 1) = al.score_width := by
    split_ifs <;> omega
  unfold fill_borders
  have h := (first_col_loop al.scoring (fill_min is_sw) al.score_width
    (if 1 < al.score_width then al.score_width else 1) hW (al.score_height - 1)
    (forRange 1 (first_row_step al.scoring (fill_min is_sw)) (al.score_width - 1) s)).2 y hy1
    (by omega)
  rw [hi] at h ⊢
  exact h

theorem fill_init_origin (al : Aligner) (is_sw : Bool) :
    (fill_init al is_sw).match_scores 0 = 0 ∧ (fill_init al is_sw).gap_a_scores 0 = 0 ∧
    (fill_init al is_sw).gap_b_scores 0 = 0 := by
  simp [fill_init]

theorem fill_init_gap_a (al : Aligner) (is_sw : Bool) (h : al.scoring.no_gaps_in_a = true)
    (p : Nat) (hp0 : p ≠ 0) (hp : p < al.score_width * al.score_height) :
    (fill_init al is_sw).gap_a_scores p = fill_min is_sw := by
  unfold fill_init
  simp only [h, if_true]
  rw [bufSet_other _ _ hp0, fill_all_apply, if_pos hp]

theorem fill_init_gap_b (al : Aligner) (is_sw : Bool) (h : al.scoring.no_gaps_in_b = true)
    (p : Nat) (hp0 : p ≠ 0) (hp : p < al.score_width * al.score_height) :
    (fill_init al is_sw).gap_b_scores p = fill_min is_sw := by
  unfold fill_init
  simp only [h, if_true]
  rw [bufSet_other _ _ hp0, fill_all_apply, if_pos hp]

theorem fill_main_frame_cell (al : Aligner) (is_sw : Bool) (hW : 0 < al.score_width)
    (s : Mats) (x y : Nat) (hx : x < al.score_width) (h : x = 0 ∨ y = 0) :
    AgreeAt (fill_main al is_sw s) s (ARR_2D_INDEX al.score_width x y) :=
  fill_main_frame al is_sw hW s _ (fun x' y' h1 h2 _ _ => idx_ne hx (by omega) (by omega))

/-! ## The filled matrices -/

/-- Every interior cell of the filled matrices satisfies the equations of the
loop body on the filled matrices themselves. -/
theorem fill_mats_ok (al : Aligner) (is_sw : Bool) (hW : 0 < al.score_width) (x y : Nat)
    (hx1 : 1 ≤ x) (hx : x < al.score_width) (hy1 : 1 ≤ y) (hy : y < al.score_height) :
    CellOK al is_sw (fill_mats al is_sw) x y := by
  unfold fill_mats
  have hlt : al.score_width - 1 < al.score_width := by omega
  obtain ⟨a, b, c⟩ := fill_main_ok al is_sw hW (fill_borders al is_sw (fill_init al is_sw))
    x y hx1 hx hy1 hy
  refine ⟨?_, fun hn => ?_, fun hn => ?_⟩
  · rw [fill_edges_match al is_sw hW, a]
    refine matchVal_congr al is_sw x y (fill_edges_agree al is_sw hW _ _ (Or.inr ?_)
      (Or.inr ?_)).symm'
    · exact fun y' _ _ => idx_ne (by omega) hlt (by omega)
    · exact fun x' _ _ => idx_ne (by omega) (by omega) (by omega)
  · rw [fill_edges_gap_a al is_sw hW _ _ (Or.inl hn), b hn]
    refine gapAVal_congr al is_sw x y (fill_edges_agree al is_sw hW _ _ (Or.inl hn)
      (Or.inr ?_)).symm'
    exact fun x' _ _ => idx_ne hx (by omega) (by omega)
  · rw [fill_edges_gap_b al is_sw hW _ _ (Or.inl hn), c hn]
    refine gapBVal_congr al is_sw x y (fill_edges_agree al is_sw hW _ _ (Or.inr ?_)
      (Or.inl hn)).symm'
    exact fun y' _ _ => idx_ne (by omega) hlt (by omega)

theorem fill_mats_match (al : Aligner) (is_sw : Bool) (hW : 0 < al.score_width) :
    (fill_mats al is_sw).match_scores
      = (fill_main al is_sw (fill_borders al is_sw (fill_init al is_sw))).match_scores := by
  unfold fill_mats
  exact fill_edges_match al is_sw hW _

/-- The origin `[0][0]` of the three filled matrices. -/
theorem fill_mats_origin (al : Aligner) (is_sw : Bool) (hW : 0 < al.score_width) :
    (fill_mats al is_sw).match_scores 0 = 0 ∧ (fill_mats al is_sw).gap_a_scores 0 = 0 ∧
    (fill_mats al is_sw).gap_b_scores 0 = 0 := by
  have e : ARR_2D_INDEX al.score_width 0 0 = 0 := idx_row _ 0
  have h1 : AgreeAt (fill_mats al is_sw)
      (fill_main al is_sw (fill_borders al is_sw (fill_init al is_sw))) 0 := by
    unfold fill_mats
    refine fill_edges_agree al is_sw hW _ _ (Or.inr ?_) (Or.inr ?_)
    · intro y h1 _
      have := idx_ge (W := al.score_width) (x := al.score_width - 1) h1
      omega
    · intro x h1 _
      unfold ARR_2D_INDEX
      omega
  have h2 := fill_main_frame_cell al is_sw hW (fill_borders al is_sw (fill_init al is_sw)) 0 0
    hW (Or.inl rfl)
  have h3 := fill_borders_frame al is_sw hW (fill_init al is_sw) 0 0 hW (Or.inl ⟨rfl, rfl⟩)
  rw [e] at h2 h3
  obtain ⟨a, b, c⟩ := fill_init_origin al is_sw
  obtain ⟨p, q, r⟩ := (h1.trans' h2).trans' h3
  exact ⟨p.trans a, q.trans b, r.trans c⟩

/-- The first row `[x][0]`, `x ≥ 1`; the gap value is the one of lines 86-87 unless
the pass over the last row of `gap_b_scores` rewrote it (`no_gaps_in_b` with a
matrix of height one). -/
theorem fill_mats_row (al : Aligner) (is_sw : Bool) (hW : 0 < al.score_width) (x : Nat)
    (hx1 : 1 ≤ x) (hx : x < al.score_width) :
    (fill_mats al is_sw).match_scores (ARR_2D_INDEX al.score_width x 0) = fill_min is_sw ∧
    (fill_mats al is_sw).gap_a_scores (ARR_2D_INDEX al.score_width x 0) = fill_min is_sw ∧
    (al.scoring.no_gaps_in_b = false ∨ 1 < al.score_height →
      (fill_mats al is_sw).gap_b_scores (ARR_2D_INDEX al.score_width x 0)
        = if al.scoring.no_start_gap_penalty then 0
          else toScore (al.scoring.gap_open + (x : Int) * al.scoring.gap_extend)) := by
  have hlt : al.score_width - 1 < al.score_width := by omega
  have h2 := fill_main_frame_cell al is_sw hW (fill_borders al is_sw (fill_init al is_sw)) x 0
    hx (Or.inr rfl)
  obtain ⟨a, b, c⟩ := fill_borders_row al is_sw hW (fill_init al is_sw) x hx1 hx
  refine ⟨?_, ?_, fun h => ?_⟩
  · rw [fill_mats_match al is_sw hW, h2.1, a]
  · unfold fill_mats
    rw [fill_edges_gap_a al is_sw hW _ _ (Or.inr ?_), h2.2.1, b]
    exact fun y' _ _ => idx_ne hx hlt (by omega)
  · unfold fill_mats
    rw [fill_edges_gap_b al is_sw hW _ _ ?_, h2.2.2, c]
    rcases h with h | h
    · exact Or.inl h
    · exact Or.inr (fun x' _ _ => idx_ne hx (by omega) (by omega))

/-- The first column `[0][y]`, `y ≥ 1`; the gap value is the one of lines 97-99
(computed from `score_width`) unless the pass over the last column of
`gap_a_scores` rewrote it (`no_gaps_in_a` with a matrix of width one). -/
theorem fill_mats_col (al : Aligner) (is_sw : Bool) (hW : 0 < al.score_width) (y : Nat)
    (hy1 : 1 ≤ y) (hy : y < al.score_height) :
    (fill_mats al is_sw).match_scores (ARR_2D_INDEX al.score_width 0 y) = fill_min is_sw ∧
    (fill_mats al is_sw).gap_b_scores (ARR_2D_INDEX al.score_width 0 y) = fill_min is_sw ∧
    (al.scoring.no_gaps_in_a = false ∨ 1 < al.score_width →
      (fill_mats al is_sw).gap_a_scores (ARR_2D_INDEX al.score_width 0 y)
        = if al.scoring.no_start_gap_penalty then 0
          else toScore (al.scoring.gap_open
            + (al.score_width : Int) * al.scoring.gap_extend)) := by
  have hlt : al.score_width - 1 < al.score_width := by omega
  have h2 := fill_main_frame_cell al is_sw hW (fill_borders al is_sw (fill_init al is_sw)) 0 y
    hW (Or.inl rfl)
  obtain ⟨a, b, c⟩ := fill_borders_col al is_sw hW (fill_init al is_sw) y hy1 hy
  refine ⟨?_, ?_, fun h => ?_⟩
  · rw [fill_mats_match al is_sw hW, h2.1, a]
  · unfold fill_mats
    rw [fill_edges_gap_b al is_sw hW _ _ (Or.inr ?_), h2.2.2, c]
    exact fun x' _ _ => idx_ne hW (by omega) (by omega)
  · unfold fill_mats
    rw [fill_edges_gap_a al is_sw hW _ _ ?_, h2.2.1, b]
    rcases h with h | h
    · exact Or.inl h
    · exact Or.inr (fun y' _ _ => idx_ne hW hlt (by omega))

/-- Under `no_gaps_in_a` the cells of `gap_a_scores` off the borders and off the
last column keep the floor written by the flood of line 67. -/
theorem fill_mats_gap_a_floor (al : Aligner) (is_sw : Bool) (hW : 0 < al.score_width)
    (h : al.scoring.no_gaps_in_a = true) (x y : Nat) (hx1 : 1 ≤ x)
    (hx : x < al.score_width - 1) (hy1 : 1 ≤ y) (hy : y < al.score_height) :
    (fill_mats al is_sw).gap_a_scores (ARR_2D_INDEX al.score_width x y) = fill_min is_sw := by
  have hlt : al.score_width - 1 < al.score_width := by omega
  have hxW : x < al.score_width := by omega
  unfold fill_mats
  rw [fill_edges_gap_a al is_sw hW _ _ (Or.inr (fun y' _ _ => idx_ne hxW hlt (by omega))),
    fill_main_gap_a al is_sw h,
    (fill_borders_frame al is_sw hW _ x y hxW (Or.inr ⟨hx1, hy1⟩)).2.1]
  refine fill_init_gap_a al is_sw h _ ?_ (idx_lt hxW hy)
  have := idx_ge (W := al.score_width) (x := x) hy1
  omega

/-- Under `no_gaps_in_b` the cells of `gap_b_scores` off the borders and off the
last row keep the floor written by the flood of line 71. -/
theorem fill_mats_gap_b_floor (al : Aligner) (is_sw : Bool) (hW : 0 < al.score_width)
    (h : al.scoring.no_gaps_in_b = true) (x y : Nat) (hx1 : 1 ≤ x)
    (hx : x < al.score_width) (hy1 : 1 ≤ y) (hy : y < al.score_height - 1) :
    (fill_mats al is_sw).gap_b_scores (ARR_2D_INDEX al.score_width x y) = fill_min is_sw := by
  have hyH : y < al.score_height := by omega
  unfold fill_mats
  rw [fill_edges_gap_b al is_sw hW _ _
      (Or.inr (fun x' _ _ => idx_ne hx (by omega) (by omega))),
    fill_main_gap_b al is_sw h,
    (fill_borders_frame al is_sw hW _ x y hx (Or.inr ⟨hx1, hy1⟩)).2.2]
  refine fill_init_gap_b al is_sw h _ ?_ (idx_lt hx hyH)
  have := idx_ge (W := al.score_width) (x := x) hy1
  omega

theorem fill_mats_chain_a (al : Aligner) (is_sw : Bool) (hW : 0 < al.score_width)
    (ha : al.scoring.no_gaps_in_a = true) (y : Nat) (h1 : 1 ≤ y) (h2 : y < al.score_height) :
    (fill_mats al is_sw).gap_a_scores (ARR_2D_INDEX al.score_width (al.score_width - 1) y)
      = combine is_sw
          ((fill_mats al is_sw).match_scores
              (ARR_2D_INDEX al.score_width (al.score_width - 1) (y - 1))
            + toScore (al.scoring.gap_extend + al.scoring.gap_open))
          ((fill_mats al is_sw).gap_a_scores
              (ARR_2D_INDEX al.score_width (al.score_width - 1) (y - 1))
            + al.scoring.gap_extend)
          (fill_min is_sw) := by
  unfold fill_mats
  exact fill_edges_chain_a al is_sw hW _ ha y h1 (by omega)

theorem fill_mats_chain_b (al : Aligner) (is_sw : Bool) (hW : 0 < al.score_width)
    (hb : al.scoring.no_gaps_in_b = true) (x : Nat) (h1 : 1 ≤ x) (h2 : x < al.score_width) :
    (fill_mats al is_sw).gap_b_scores (ARR_2D_INDEX al.score_width x (al.score_height - 1))
      = combine is_sw
          ((fill_mats al is_sw).match_scores
              (ARR_2D_INDEX al.score_width (x - 1) (al.score_height - 1))
            + toScore (al.scoring.gap_extend + al.scoring.gap_open))
          ((fill_mats al is_sw).gap_b_scores
              (ARR_2D_INDEX al.score_width (x - 1) (al.score_height - 1))
            + al.scoring.gap_extend)
          (fill_min is_sw) := by
  unfold fill_mats
  exact fill_edges_chain_b al is_sw hW _ hb x h1 (by omega)

theorem matchVal_inRange (al : Aligner) (is_sw : Bool) (t : Mats) (x y : Nat) :
    inRange (matchVal al is_sw t x y) := by
  unfold matchVal
  simp only []
  split_ifs
  · exact fill_min_inRange is_sw
  · exact toScore_inRange _

theorem gapAVal_inRange (al : Aligner) (is_sw : Bool) (t : Mats) (x y : Nat) :
    inRange (gapAVal al is_sw t x y) := by
  unfold gapAVal
  simp only []
  split_ifs <;> exact combine_inRange _ _ _ _

theorem gapBVal_inRange (al : Aligner) (is_sw : Bool) (t : Mats) (x y : Nat) :
    inRange (gapBVal al is_sw t x y) := by
  unfold gapBVal
  simp only []
  split_ifs <;> exact combine_inRange _ _ _ _

theorem first_value_inRange (b : Bool) (v : Int) : inRange (if b then 0 else toScore v) := by
  split_ifs
  · simp [inRange, INT_MIN, INT_MAX]
  · exact toScore_inRange v

theorem zero_inRange : inRange 0 := by
  simp [inRange, INT_MIN, INT_MAX]

/-- Every cell of the three filled matrices holds a value of `score_t`, whatever
the buffers held before. -/
theorem fill_mats_inRange (al : Aligner) (is_sw : Bool) (hW : 0 < al.score_width) (x y : Nat)
    (hx : x < al.score_width) (hy : y < al.score_height) :
    inRange ((fill_mats al is_sw).match_scores (ARR_2D_INDEX al.score_width x y)) ∧
    inRange ((fill_mats al is_sw).gap_a_scores (ARR_2D_INDEX al.score_width x y)) ∧
    inRange ((fill_mats al is_sw).gap_b_scores (ARR_2D_INDEX al.score_width x y)) := by
  rcases Nat.eq_zero_or_pos y with hy0 | hy1
  · subst hy0
    rcases Nat.eq_zero_or_pos x with hx0 | hx1
    · subst hx0
      obtain ⟨a, b, c⟩ := fill_mats_origin al is_sw hW
      rw [idx_row, a, b, c]
      exact ⟨zero_inRange, zero_inRange, zero_inRange⟩
    · obtain ⟨a, b, c⟩ := fill_mats_row al is_sw hW x hx1 hx
      rw [a, b]
      refine ⟨fill_min_inRange _, fill_min_inRange _, ?_⟩
      by_cases h : al.scoring.no_gaps_in_b = false ∨ 1 < al.score_height
      · rw [c h]
        exact first_value_inRange _ _
      · have hb : al.scoring.no_gaps_in_b = true := by
          cases hn : al.scoring.no_gaps_in_b
          · exact absurd (Or.inl hn) h
          · rfl
        have hH : 0 = al.score_height - 1 := by omega
        have e := fill_mats_chain_b al is_sw hW hb x hx1 hx
        rw [← hH] at e
        rw [e]
        exact combine_inRange _ _ _ _
  · rcases Nat.eq_zero_or_pos x with hx0 | hx1
    · subst hx0
      obtain ⟨a, b, c⟩ := fill_mats_col al is_sw hW y hy1 hy
      rw [a, b]
      refine ⟨fill_min_inRange _, ?_, fill_min_inRange _⟩
      by_cases h : al.scoring.no_gaps_in_a = false ∨ 1 < al.score_width
      · rw [c h]
        exact first_value_inRange _ _
      · have ha : al.scoring.no_gaps_in_a = true := by
          cases hn : al.scoring.no_gaps_in_a
          · exact absurd (Or.inl hn) h
          · rfl
        have hWe : 0 = al.score_width - 1 := by omega
        have e := fill_mats_chain_a al is_sw hW ha y hy1 hy
        rw [← hWe] at e
        rw [e]
        exact combine_inRange _ _ _ _
    · obtain ⟨a, b, c⟩ := fill_mats_ok al is_sw hW x y hx1 hx hy1 hy
      refine ⟨?_, ?_, ?_⟩
      · rw [a]
        exact matchVal_inRange _ _ _ _ _
      · cases hn : al.scoring.no_gaps_in_a
        · rw [b hn]
          exact gapAVal_inRange _ _ _ _ _
        · by_cases hl : x < al.score_width - 1
          · rw [fill_mats_gap_a_floor al is_sw hW hn x y hx1 hl hy1 hy]
            exact fill_min_inRange _
          · have hxe : x = al.score_width - 1 := by omega
            rw [hxe, fill_mats_chain_a al is_sw hW hn y hy1 hy]
            exact combine_inRange _ _ _ _
      · cases hn : al.scoring.no_gaps_in_b
        · rw [c hn]
          exact gapBVal_inRange _ _ _ _ _
        · by_cases hl : y < al.score_height - 1
          · rw [fill_mats_gap_b_floor al is_sw hW hn x y hx1 hx hy1 hl]
            exact fill_min_inRange _
          · have hye : y = al.score_height - 1 := by omega
            rw [hye, fill_mats_chain_b al is_sw hW hn x hx1 hx]
            exact combine_inRange _ _ _ _

/-! ## The claims -/

theorem combine_eq_spec_of_max (is_sw : Bool) {a b c : Int} (h : inRange (MAX3 a b c)) :
    combine is_sw a b c = spec_combine is_sw a b c := by
  cases is_sw
  · simp only [combine, nw_combine, spec_combine, Bool.false_eq_true, if_false]
    exact toScore_of_inRange h
  · simp only [combine, sw_combine, spec_combine, if_true, MAX2]
    rw [toScore_of_inRange h]
    rfl

theorem combine_eq_spec (is_sw : Bool) {a b c : Int} (ha : inRange a) (hb : inRange b)
    (hc : inRange c) : combine is_sw a b c = spec_combine is_sw a b c :=
  combine_eq_spec_of_max is_sw (inRange_MAX3 ha hb hc)

theorem fill_result_match (al : Aligner) (is_sw : Bool) :
    (alignment_fill_matrices al is_sw).match_scores = (fill_mats al is_sw).match_scores := rfl

theorem fill_result_gap_a (al : Aligner) (is_sw : Bool) :
    (alignment_fill_matrices al is_sw).gap_a_scores = (fill_mats al is_sw).gap_a_scores := rfl

theorem fill_result_gap_b (al : Aligner) (is_sw : Bool) :
    (alignment_fill_matrices al is_sw).gap_b_scores = (fill_mats al is_sw).gap_b_scores := rfl

/-- C1: after `alignment_fill_matrices`, every interior cell `[x][y]`
(`1 ≤ x ≤ |A|`, `1 ≤ y ≤ |B|`) of the final match matrix is the floor
(`0` in LOCAL, `INT_MIN` in GLOBAL mode) when `no_mismatches` is set and the
lookup of `(A[x-1], B[y-1])` reports a non-match, and otherwise is
`combine(match[x-1][y-1], gap_a[x-1][y-1], gap_b[x-1][y-1]) + sub_penalty` on the
final matrices, with `combine` the maximum (floored at zero in LOCAL mode),
provided that sum does not overflow 32 bits. -/
theorem match_cell_recurrence (al : Aligner) (is_sw : Bool) (x y : Nat)
    (hW : al.score_width = al.seq_a.length + 1) (hH : al.score_height = al.seq_b.length + 1)
    (hx1 : 1 ≤ x) (hx : x ≤ al.seq_a.length) (hy1 : 1 ≤ y) (hy : y ≤ al.seq_b.length) :
    (al.scoring.no_mismatches = true ∧
        (al.scoring.scoring_lookup (seqAt al.seq_a (x - 1)) (seqAt al.seq_b (y - 1))).2 = false →
      (alignment_fill_matrices al is_sw).match_scores (ARR_2D_INDEX (al.seq_a.length + 1) x y)
        = if is_sw then 0 else INT_MIN) ∧
    (¬ (al.scoring.no_mismatches = true ∧
        (al.scoring.scoring_lookup (seqAt al.seq_a (x - 1)) (seqAt al.seq_b (y - 1))).2 = false) →
      inRange (spec_combine is_sw
          ((alignment_fill_matrices al is_sw).match_scores
            (ARR_2D_INDEX (al.seq_a.length + 1) (x - 1) (y - 1)))
          ((alignment_fill_matrices al is_sw).gap_a_scores
            (ARR_2D_INDEX (al.seq_a.length + 1) (x - 1) (y - 1)))
          ((alignment_fill_matrices al is_sw).gap_b_scores
            (ARR_2D_INDEX (al.seq_a.length + 1) (x - 1) (y - 1)))
        + (al.scoring.scoring_lookup (seqAt al.seq_a (x - 1)) (seqAt al.seq_b (y - 1))).1) →
      (alignment_fill_matrices al is_sw).match_scores (ARR_2D_INDEX (al.seq_a.length + 1) x y)
        = spec_combine is_sw
            ((alignment_fill_matrices al is_sw).match_scores
              (ARR_2D_INDEX (al.seq_a.length + 1) (x - 1) (y - 1)))
            ((alignment_fill_matrices al is_sw).gap_a_scores
              (ARR_2D_INDEX (al.seq_a.length + 1) (x - 1) (y - 1)))
            ((alignment_fill_matrices al is_sw).gap_b_scores
              (ARR_2D_INDEX (al.seq_a.length + 1) (x - 1) (y - 1)))
          + (al.scoring.scoring_lookup (seqAt al.seq_a (x - 1)) (seqAt al.seq_b (y - 1))).1) := by
  have hW0 : 0 < al.score_width := by omega
  have hm := (fill_mats_ok al is_sw hW0 x y hx1 (by omega) hy1 (by omega)).1
  obtain ⟨r1, r2, r3⟩ := fill_mats_inRange al is_sw hW0 (x - 1) (y - 1) (by omega) (by omega)
  rw [fill_result_match, fill_result_gap_a, fill_result_gap_b, ← hW, hm]
  unfold matchVal
  simp only []
  rw [combine_eq_spec is_sw r1 r2 r3]
  refine ⟨fun h => ?_, fun h hr => ?_⟩
  · rw [if_pos (by simp [h.1, h.2])]
    rfl
  · rw [if_neg (by simpa using h)]
    exact toScore_of_inRange hr

/-- C1, at a concrete input: the cell `[1][1]` of the GATTACA/GCATGCU fill in
GLOBAL mode. -/
theorem match_cell_recurrence_witness :
    (alignment_fill_matrices gattaca_aligner false).match_scores
        (ARR_2D_INDEX (gattaca_aligner.seq_a.length + 1) 1 1)
      = spec_combine false
          ((alignment_fill_matrices gattaca_aligner false).match_scores
            (ARR_2D_INDEX (gattaca_aligner.seq_a.length + 1) (1 - 1) (1 - 1)))
          ((alignment_fill_matrices gattaca_aligner false).gap_a_scores
            (ARR_2D_INDEX (gattaca_aligner.seq_a.length + 1) (1 - 1) (1 - 1)))
          ((alignment_fill_matrices gattaca_aligner false).gap_b_scores
            (ARR_2D_INDEX (gattaca_aligner.seq_a.length + 1) (1 - 1) (1 - 1)))
        + (gattaca_aligner.scoring.scoring_lookup (seqAt gattaca_aligner.seq_a (1 - 1))
            (seqAt gattaca_aligner.seq_b (1 - 1))).1 :=
  (match_cell_recurrence gattaca_aligner false 1 1 rfl rfl (by decide) (by decide) (by decide)
    (by decide)).2 (by decide) (by decide)

/-- C2: with `no_gaps_in_a` and `no_gaps_in_b` unset (and `gap_extend + gap_open`
representable as an `int`), every interior cell off a waived trailing edge
satisfies the affine gap recurrence on the final matrices:
`gap_a[x][y] = combine(match[x][y-1] + gap_open + gap_extend, gap_a[x][y-1] +
gap_extend, gap_b[x][y-1] + gap_open + gap_extend)` unless `x = |A|` under
`no_end_gap_penalty`, and `gap_b[x][y] = combine(match[x-1][y] + gap_open +
gap_extend, gap_a[x-1][y] + gap_open + gap_extend, gap_b[x-1][y] + gap_extend)`
unless `y = |B|` under `no_end_gap_penalty`, the three sums being exact
integers; `combine` is the code's function, and it is the plain maximum
(floored at zero in LOCAL mode) whenever that maximum is a `score_t`. -/
theorem gap_cell_recurrence (al : Aligner) (is_sw : Bool) (x y : Nat)
    (hW : al.score_width = al.seq_a.length + 1) (hH : al.score_height = al.seq_b.length + 1)
    (ha : al.scoring.no_gaps_in_a = false) (hb : al.scoring.no_gaps_in_b = false)
    (hpen : inRange (al.scoring.gap_extend + al.scoring.gap_open))
    (hx1 : 1 ≤ x) (hx : x ≤ al.seq_a.length) (hy1 : 1 ≤ y) (hy : y ≤ al.seq_b.length) :
    (¬ (x = al.seq_a.length ∧ al.scoring.no_end_gap_penalty = true) →
      (alignment_fill_matrices al is_sw).gap_a_scores (ARR_2D_INDEX (al.seq_a.length + 1) x y)
        = combine is_sw
            ((alignment_fill_matrices al is_sw).match_scores
                (ARR_2D_INDEX (al.seq_a.length + 1) x (y - 1))
              + al.scoring.gap_open + al.scoring.gap_extend)
            ((alignment_fill_matrices al is_sw).gap_a_scores
                (ARR_2D_INDEX (al.seq_a.length + 1) x (y - 1))
              + al.scoring.gap_extend)
            ((alignment_fill_matrices al is_sw).gap_b_scores
                (ARR_2D_INDEX (al.seq_a.length + 1) x (y - 1))
              + al.scoring.gap_open + al.scoring.gap_extend) ∧
      (inRange (MAX3
            ((alignment_fill_matrices al is_sw).match_scores
                (ARR_2D_INDEX (al.seq_a.length + 1) x (y - 1))
              + al.scoring.gap_open + al.scoring.gap_extend)
            ((alignment_fill_matrices al is_sw).gap_a_scores
                (ARR_2D_INDEX (al.seq_a.length + 1) x (y - 1))
              + al.scoring.gap_extend)
            ((alignment_fill_matrices al is_sw).gap_b_scores
                (ARR_2D_INDEX (al.seq_a.length + 1) x (y - 1))
              + al.scoring.gap_open + al.scoring.gap_extend)) →
        (alignment_fill_matrices al is_sw).gap_a_scores (ARR_2D_INDEX (al.seq_a.length + 1) x y)
          = spec_combine is_sw
              ((alignment_fill_matrices al is_sw).match_scores
                  (ARR_2D_INDEX (al.seq_a.length + 1) x (y - 1))
                + al.scoring.gap_open + al.scoring.gap_extend)
              ((alignment_fill_matrices al is_sw).gap_a_scores
                  (ARR_2D_INDEX (al.seq_a.length + 1) x (y - 1))
                + al.scoring.gap_extend)
              ((alignment_fill_matrices al is_sw).gap_b_scores
                  (ARR_2D_INDEX (al.seq_a.length + 1) x (y - 1))
                + al.scoring.gap_open + al.scoring.gap_extend))) ∧
    (¬ (y = al.seq_b.length ∧ al.scoring.no_end_gap_penalty = true) →
      (alignment_fill_matrices al is_sw).gap_b_scores (ARR_2D_INDEX (al.seq_a.length + 1) x y)
        = combine is_sw
            ((alignment_fill_matrices al is_sw).match_scores
                (ARR_2D_INDEX (al.seq_a.length + 1) (x - 1) y)
              + al.scoring.gap_open + al.scoring.gap_extend)
            ((alignment_fill_matrices al is_sw).gap_a_scores
                (ARR_2D_INDEX (al.seq_a.length + 1) (x - 1) y)
              + al.scoring.gap_open + al.scoring.gap_extend)
            ((alignment_fill_matrices al is_sw).gap_b_scores
                (ARR_2D_INDEX (al.seq_a.length + 1) (x - 1) y)
              + al.scoring.gap_extend) ∧
      (inRange (MAX3
            ((alignment_fill_matrices al is_sw).match_scores
                (ARR_2D_INDEX (al.seq_a.length + 1) (x - 1) y)
              + al.scoring.gap_open + al.scoring.gap_extend)
            ((alignment_fill_matrices al is_sw).gap_a_scores
                (ARR_2D_INDEX (al.seq_a.length + 1) (x - 1) y)
              + al.scoring.gap_open + al.scoring.gap_extend)
            ((alignment_fill_matrices al is_sw).gap_b_scores
                (ARR_2D_INDEX (al.seq_a.length + 1) (x - 1) y)
              + al.scoring.gap_extend)) →
        (alignment_fill_matrices al is_sw).gap_b_scores (ARR_2D_INDEX (al.seq_a.length + 1) x y)
          = spec_combine is_sw
              ((alignment_fill_matrices al is_sw).match_scores
                  (ARR_2D_INDEX (al.seq_a.length + 1) (x - 1) y)
                + al.scoring.gap_open + al.scoring.gap_extend)
              ((alignment_fill_matrices al is_sw).gap_a_scores
                  (ARR_2D_INDEX (al.seq_a.length + 1) (x - 1) y)
                + al.scoring.gap_open + al.scoring.gap_extend)
              ((alignment_fill_matrices al is_sw).gap_b_scores
                  (ARR_2D_INDEX (al.seq_a.length + 1) (x - 1) y)
                + al.scoring.gap_extend))) := by
  have hW0 : 0 < al.score_width := by omega
  obtain ⟨-, ga, gb⟩ := fill_mats_ok al is_sw hW0 x y hx1 (by omega) hy1 (by omega)
  have hp : toScore (al.scoring.gap_extend + al.scoring.gap_open)
      = al.scoring.gap_extend + al.scoring.gap_open := toScore_of_inRange hpen
  have e : ∀ v : Int, v + al.scoring.gap_open + al.scoring.gap_extend
      = v + (al.scoring.gap_extend + al.scoring.gap_open) := fun v => by ring
  rw [fill_result_match, fill_result_gap_a, fill_result_gap_b, ← hW]
  simp only [e]
  constructor
  · intro hn
    have hc : (decide (x = al.score_width - 1) && al.scoring.no_end_gap_penalty) = false := by
      rcases Bool.eq_false_or_eq_true al.scoring.no_end_gap_penalty with h | h
      · have : x ≠ al.score_width - 1 := fun hxe => hn ⟨by omega, h⟩
        simp [this]
      · simp [h]
    have hv := ga ha
    unfold gapAVal at hv
    simp only [hc, hp, Bool.false_eq_true, if_false] at hv
    exact ⟨hv, fun hr => hv.trans (combine_eq_spec_of_max is_sw hr)⟩
  · intro hn
    have hc : (decide (y = al.score_height - 1) && al.scoring.no_end_gap_penalty) = false := by
      rcases Bool.eq_false_or_eq_true al.scoring.no_end_gap_penalty with h | h
      · have : y ≠ al.score_height - 1 := fun hye => hn ⟨by omega, h⟩
        simp [this]
      · simp [h]
    have hv := gb hb
    unfold gapBVal at hv
    simp only [hc, hp, Bool.false_eq_true, if_false] at hv
    exact ⟨hv, fun hr => hv.trans (combine_eq_spec_of_max is_sw hr)⟩

/-- C2, at a concrete input: the cell `[1][1]` of `gap_a_scores` in the
GATTACA/GCATGCU fill in GLOBAL mode. -/
theorem gap_cell_recurrence_witness :
    (alignment_fill_matrices gattaca_aligner false).gap_a_scores
        (ARR_2D_INDEX (gattaca_aligner.seq_a.length + 1) 1 1)
      = combine false
          ((alignment_fill_matrices gattaca_aligner false).match_scores
              (ARR_2D_INDEX (gattaca_aligner.seq_a.length + 1) 1 (1 - 1))
            + gattaca_aligner.scoring.gap_open + gattaca_aligner.scoring.gap_extend)
          ((alignment_fill_matrices gattaca_aligner false).gap_a_scores
              (ARR_2D_INDEX (gattaca_aligner.seq_a.length + 1) 1 (1 - 1))
            + gattaca_aligner.scoring.gap_extend)
          ((alignment_fill_matrices gattaca_aligner false).gap_b_scores
              (ARR_2D_INDEX (gattaca_aligner.seq_a.length + 1) 1 (1 - 1))
            + gattaca_aligner.scoring.gap_open + gattaca_aligner.scoring.gap_extend) :=
  ((gap_cell_recurrence gattaca_aligner false 1 1 rfl rfl rfl rfl (by decide) (by decide)
    (by decide) (by decide) (by decide)).1 (by decide)).1

/-- C3 (code defect): for `seqA = "A"`, `seqB = "A"`, `gap_open = 0`,
`gap_extend = -1`, all flags off, GLOBAL mode, the fill stores
`gap_a_scores[0][1] = -2`, the value `gap_open + score_width * gap_extend`
computed from the stale loop variable `i` of lines 97-99, where the rule
symmetric to the first row gives `gap_open + 1 * gap_extend = -1`. -/
theorem first_column_stale_index :
    (alignment_fill_matrices (mk_aligner classic_scoring ['A'] ['A']) false).gap_a_scores
        (ARR_2D_INDEX 2 0 1) = -2 ∧
    classic_scoring.gap_open + 1 * classic_scoring.gap_extend = -1 := by
  decide

/-- C4, refuted as stated: with `no_gaps_in_b` set, `seqA = "A"` and an empty
`seqB` (`gap_open = -5`, `gap_extend = -1`, `no_start_gap_penalty` unset, GLOBAL
mode) the pass over the last row, which here is the first row, leaves
`gap_b_scores[1][0] = -1`, not `gap_open + 1 * gap_extend = -6`. -/
theorem first_row_overwritten :
    (alignment_fill_matrices
        (mk_aligner (Scoring.mk (-5) (-1) false false false true false unit_lookup) ['A'] [])
        false).gap_b_scores (ARR_2D_INDEX 2 1 0) = -1 ∧
    (-5 : Int) + 1 * (-1) = -6 := by
  decide

/-- C4, amended: in GLOBAL mode, for every A, B and scoring configuration, the
origin of the three matrices is `0` and, for `1 ≤ x ≤ |A|`, `match[x][0] =
INT_MIN`, `gap_a[x][0] = INT_MIN` and, unless `no_gaps_in_b` is set and B is
empty, `gap_b[x][0]` is `0` under `no_start_gap_penalty` and otherwise
`gap_open + x * gap_extend` as a `score_t` (exactly that value whenever it is
representable). -/
theorem first_row_global (al : Aligner)
    (hW : al.score_width = al.seq_a.length + 1) (hH : al.score_height = al.seq_b.length + 1) :
    ((alignment_fill_matrices al false).match_scores (ARR_2D_INDEX (al.seq_a.length + 1) 0 0) = 0 ∧
     (alignment_fill_matrices al false).gap_a_scores (ARR_2D_INDEX (al.seq_a.length + 1) 0 0) = 0 ∧
     (alignment_fill_matrices al false).gap_b_scores (ARR_2D_INDEX (al.seq_a.length + 1) 0 0) = 0) ∧
    ∀ x, 1 ≤ x → x ≤ al.seq_a.length →
      (alignment_fill_matrices al false).match_scores (ARR_2D_INDEX (al.seq_a.length + 1) x 0)
        = INT_MIN ∧
      (alignment_fill_matrices al false).gap_a_scores (ARR_2D_INDEX (al.seq_a.length + 1) x 0)
        = INT_MIN ∧
      (¬ (al.scoring.no_gaps_in_b = true ∧ al.seq_b.length = 0) →
        (alignment_fill_matrices al false).gap_b_scores (ARR_2D_INDEX (al.seq_a.length + 1) x 0)
          = (if al.scoring.no_start_gap_penalty then 0
             else toScore (al.scoring.gap_open + (x : Int) * al.scoring.gap_extend)) ∧
        (inRange (al.scoring.gap_open + (x : Int) * al.scoring.gap_extend) →
          (alignment_fill_matrices al false).gap_b_scores (ARR_2D_INDEX (al.seq_a.length + 1) x 0)
            = if al.scoring.no_start_gap_penalty then 0
              else al.scoring.gap_open + (x : Int) * al.scoring.gap_extend)) := by
  have hW0 : 0 < al.score_width := by omega
  rw [fill_result_match, fill_result_gap_a, fill_result_gap_b, ← hW]
  refine ⟨?_, fun x hx1 hx => ?_⟩
  · rw [idx_row]
    exact fill_mats_origin al false hW0
  · obtain ⟨a, b, c⟩ := fill_mats_row al false hW0 x hx1 (by omega)
    refine ⟨a, b, fun h => ?_⟩
    have hc := c (by
      by_cases hb : al.scoring.no_gaps_in_b = true
      · exact Or.inr (by have : al.seq_b.length ≠ 0 := fun e => h ⟨hb, e⟩; omega)
      · exact Or.inl (by simpa using hb))
    refine ⟨hc, fun hr => ?_⟩
    rw [hc, toScore_of_inRange hr]

/-- C4 amended, at a concrete input: the first row of the GATTACA/GCATGCU fill. -/
theorem first_row_global_witness :
    (alignment_fill_matrices gattaca_aligner false).gap_b_scores
        (ARR_2D_INDEX (gattaca_aligner.seq_a.length + 1) 3 0)
      = if gattaca_aligner.scoring.no_start_gap_penalty then 0
        else gattaca_aligner.scoring.gap_open + ((3 : Nat) : Int) * gattaca_aligner.scoring.gap_extend :=
  (((first_row_global gattaca_aligner rfl rfl).2 3 (by decide) (by decide)).2.2
    (by decide)).2 (by decide)

/-- C5 (code defect): for `seqA = "AC"`, `seqB = "AA"`, `gap_open = 0`,
`gap_extend = -1`, `no_end_gap_penalty` set, the other flags off, GLOBAL mode,
the trailing-edge cell `gap_a_scores[2][2]` is `-1`: line 158 added
`gap_open_penalty` to the `gap_b` candidate because `j ≠ 1`, where the combine
of the three unpenalised candidates `(-2, -2, 0)` is `0`; the traceback step
from that cell in state GAP_A, which adds no penalty to any candidate, takes
the fatal branch. -/
theorem trailing_edge_not_waived :
    (alignment_fill_matrices
        (mk_aligner (Scoring.mk 0 (-1) false true false false false unit_lookup)
          ['A', 'C'] ['A', 'A']) false).gap_a_scores (ARR_2D_INDEX 3 2 2) = -1 ∧
    combine false
      ((alignment_fill_matrices
        (mk_aligner (Scoring.mk 0 (-1) false true false false false unit_lookup)
          ['A', 'C'] ['A', 'A']) false).match_scores (ARR_2D_INDEX 3 2 1))
      ((alignment_fill_matrices
        (mk_aligner (Scoring.mk 0 (-1) false true false false false unit_lookup)
          ['A', 'C'] ['A', 'A']) false).gap_a_scores (ARR_2D_INDEX 3 2 1))
      ((alignment_fill_matrices
        (mk_aligner (Scoring.mk 0 (-1) false true false false false unit_lookup)
          ['A', 'C'] ['A', 'A']) false).gap_b_scores (ARR_2D_INDEX 3 2 1)) = 0 ∧
    alignment_reverse_move
        (Cursor.mk Matrix.GAP_A
          ((alignment_fill_matrices
            (mk_aligner (Scoring.mk 0 (-1) false true false false false unit_lookup)
              ['A', 'C'] ['A', 'A']) false).gap_a_scores (ARR_2D_INDEX 3 2 2)) 2 2 0)
        (alignment_fill_matrices
          (mk_aligner (Scoring.mk 0 (-1) false true false false false unit_lookup)
            ['A', 'C'] ['A', 'A']) false) = none := by
  decide

/-- C6: in GLOBAL mode with `no_gaps_in_a` set (and `gap_extend + gap_open`
representable as an `int`), for `1 ≤ y ≤ |B|`: `gap_a[x][y] = INT_MIN` for every
`1 ≤ x < |A|`, and the last column is the chain `gap_a[|A|][y] =
max(match[|A|][y-1] + gap_open + gap_extend, gap_a[|A|][y-1] + gap_extend,
INT_MIN)` as a `score_t`, exactly that maximum whenever it does not exceed
`INT_MAX`; it reads `gap_a_scores` only inside the last column. -/
theorem no_gaps_in_a_last_column (al : Aligner) (y : Nat)
    (hW : al.score_width = al.seq_a.length + 1) (hH : al.score_height = al.seq_b.length + 1)
    (ha : al.scoring.no_gaps_in_a = true)
    (hpen : inRange (al.scoring.gap_extend + al.scoring.gap_open))
    (hy1 : 1 ≤ y) (hy : y ≤ al.seq_b.length) :
    (∀ x, 1 ≤ x → x < al.seq_a.length →
      (alignment_fill_matrices al false).gap_a_scores (ARR_2D_INDEX (al.seq_a.length + 1) x y)
        = INT_MIN) ∧
    (alignment_fill_matrices al false).gap_a_scores
        (ARR_2D_INDEX (al.seq_a.length + 1) al.seq_a.length y)
      = toScore (max (max
          ((alignment_fill_matrices al false).match_scores
              (ARR_2D_INDEX (al.seq_a.length + 1) al.seq_a.length (y - 1))
            + al.scoring.gap_open + al.scoring.gap_extend)
          ((alignment_fill_matrices al false).gap_a_scores
              (ARR_2D_INDEX (al.seq_a.length + 1) al.seq_a.length (y - 1))
            + al.scoring.gap_extend))
          INT_MIN) ∧
    (max (max
          ((alignment_fill_matrices al false).match_scores
              (ARR_2D_INDEX (al.seq_a.length + 1) al.seq_a.length (y - 1))
            + al.scoring.gap_open + al.scoring.gap_extend)
          ((alignment_fill_matrices al false).gap_a_scores
              (ARR_2D_INDEX (al.seq_a.length + 1) al.seq_a.length (y - 1))
            + al.scoring.gap_extend))
          INT_MIN ≤ INT_MAX →
      (alignment_fill_matrices al false).gap_a_scores
          (ARR_2D_INDEX (al.seq_a.length + 1) al.seq_a.length y)
        = max (max
          ((alignment_fill_matrices al false).match_scores
              (ARR_2D_INDEX (al.seq_a.length + 1) al.seq_a.length (y - 1))
            + al.scoring.gap_open + al.scoring.gap_extend)
          ((alignment_fill_matrices al false).gap_a_scores
              (ARR_2D_INDEX (al.seq_a.length + 1) al.seq_a.length (y - 1))
            + al.scoring.gap_extend))
          INT_MIN) := by
  have hW0 : 0 < al.score_width := by omega
  have hp : toScore (al.scoring.gap_extend + al.scoring.gap_open)
      = al.scoring.gap_extend + al.scoring.gap_open := toScore_of_inRange hpen
  have e : ∀ v : Int, v + al.scoring.gap_open + al.scoring.gap_extend
      = v + (al.scoring.gap_extend + al.scoring.gap_open) := fun v => by ring
  have hA : al.seq_a.length = al.score_width - 1 := by omega
  have hc := fill_mats_chain_a al false hW0 ha y hy1 (by omega)
  rw [hp] at hc
  rw [fill_result_match, fill_result_gap_a, ← hW]
  simp only [e]
  rw [hA]
  refine ⟨fun x hx1 hx => ?_, hc, fun hr => ?_⟩
  · exact fill_mats_gap_a_floor al false hW0 ha x y hx1 (by omega) hy1 (by omega)
  · rw [hc]
    exact toScore_of_inRange ⟨le_max_right _ _, hr⟩

/-- C6, at a concrete input: `seqA = "AC"`, `seqB = "AA"` with `no_gaps_in_a`. -/
theorem no_gaps_in_a_last_column_witness :
    (alignment_fill_matrices
        (mk_aligner (Scoring.mk 0 (-1) false false true false false unit_lookup)
          ['A', 'C'] ['A', 'A']) false).gap_a_scores (ARR_2D_INDEX (1 + 1 + 1) 1 2) = INT_MIN :=
  (no_gaps_in_a_last_column
    (mk_aligner (Scoring.mk 0 (-1) false false true false false unit_lookup)
      ['A', 'C'] ['A', 'A']) 2 rfl rfl rfl (by decide) (by decide) (by decide)).1 1
    (by decide) (by decide)

theorem reverse_cell_eq (m : Matrix) (x y : Nat) : reverse_cell m x y = spec_predecessor m x y := by
  cases m <;> rfl

/-- The if-chain of lines 372-401 with the tests as the code writes them: GAP_A
if its test holds; otherwise GAP_B if its test holds; otherwise MATCH if the
test of line 385 holds, whose `is_match` is that of the current cell; and the
fatal branch if and only if none of the three tests holds. -/
theorem reverse_move_if_chain (c : Cursor) (al : Aligner)
    (hW : al.score_width = al.seq_a.length + 1) (hH : al.score_height = al.seq_b.length + 1) :
    (spec_gap_a_matches c al →
      (alignment_reverse_move c al).map Cursor.curr_matrix = some Matrix.GAP_A) ∧
    (¬ spec_gap_a_matches c al → spec_gap_b_matches c al →
      (alignment_reverse_move c al).map Cursor.curr_matrix = some Matrix.GAP_B) ∧
    (¬ spec_gap_a_matches c al → ¬ spec_gap_b_matches c al → code_match_matches c al →
      (alignment_reverse_move c al).map Cursor.curr_matrix = some Matrix.MATCH) ∧
    (alignment_reverse_move c al = none ↔
      ¬ spec_gap_a_matches c al ∧ ¬ spec_gap_b_matches c al ∧ ¬ code_match_matches c al) := by
  have hWa : al.score_width - 1 = al.seq_a.length := by omega
  have hHb : al.score_height - 1 = al.seq_b.length := by omega
  have ea : ((!al.scoring.no_gaps_in_a ||
        (reverse_cell c.curr_matrix c.score_x c.score_y).1 == 0 ||
        (reverse_cell c.curr_matrix c.score_x c.score_y).1 == al.score_width - 1) &&
      al.gap_a_scores (ARR_2D_INDEX al.score_width
          (reverse_cell c.curr_matrix c.score_x c.score_y).1
          (reverse_cell c.curr_matrix c.score_x c.score_y).2)
        + (reverse_penalties al c.curr_matrix c.score_x c.score_y).2.1 == c.curr_score) = true
      ↔ spec_gap_a_matches c al := by
    unfold spec_gap_a_matches
    rw [hWa, hW, reverse_cell_eq]
    simp [or_assoc]
  have eb : ((!al.scoring.no_gaps_in_b ||
        (reverse_cell c.curr_matrix c.score_x c.score_y).2 == 0 ||
        (reverse_cell c.curr_matrix c.score_x c.score_y).2 == al.score_height - 1) &&
      al.gap_b_scores (ARR_2D_INDEX al.score_width
          (reverse_cell c.curr_matrix c.score_x c.score_y).1
          (reverse_cell c.curr_matrix c.score_x c.score_y).2)
        + (reverse_penalties al c.curr_matrix c.score_x c.score_y).2.2 == c.curr_score) = true
      ↔ spec_gap_b_matches c al := by
    unfold spec_gap_b_matches
    rw [hHb, hW, reverse_cell_eq]
    simp [or_assoc]
  have em : ((!al.scoring.no_mismatches ||
        (al.scoring.scoring_lookup (seqAt al.seq_a (c.score_x - 1))
          (seqAt al.seq_b (c.score_y - 1))).2) &&
      al.match_scores (ARR_2D_INDEX al.score_width
          (reverse_cell c.curr_matrix c.score_x c.score_y).1
          (reverse_cell c.curr_matrix c.score_x c.score_y).2)
        + (reverse_penalties al c.curr_matrix c.score_x c.score_y).1 == c.curr_score) = true
      ↔ code_match_matches c al := by
    unfold code_match_matches
    rw [hW, reverse_cell_eq]
    simp
  unfold alignment_reverse_move
  simp only []
  by_cases h1 : spec_gap_a_matches c al
  · rw [if_pos (ea.2 h1)]
    simp [h1]
  · rw [if_neg (fun h => h1 (ea.1 h))]
    by_cases h2 : spec_gap_b_matches c al
    · rw [if_pos (eb.2 h2)]
      simp [h1, h2]
    · rw [if_neg (fun h => h2 (eb.1 h))]
      by_cases h3 : code_match_matches c al
      · rw [if_pos (em.2 h3)]
        simp [h1, h2, h3]
      · rw [if_neg (fun h => h3 (em.1 h))]
        simp [h1, h2, h3]

/-- The if-chain at a concrete input: a step from state MATCH at the terminal
cell `[7][7]` of the filled GATTACA/GCATGCU matrices with the stored score. -/
theorem reverse_move_if_chain_gattaca :
    alignment_reverse_move
        (Cursor.mk Matrix.MATCH
          ((alignment_fill_matrices gattaca_aligner false).match_scores (ARR_2D_INDEX 8 7 7))
          7 7 0)
        (alignment_fill_matrices gattaca_aligner false) = none ↔
      ¬ spec_gap_a_matches
          (Cursor.mk Matrix.MATCH
            ((alignment_fill_matrices gattaca_aligner false).match_scores (ARR_2D_INDEX 8 7 7))
            7 7 0)
          (alignment_fill_matrices gattaca_aligner false) ∧
      ¬ spec_gap_b_matches
          (Cursor.mk Matrix.MATCH
            ((alignment_fill_matrices gattaca_aligner false).match_scores (ARR_2D_INDEX 8 7 7))
            7 7 0)
          (alignment_fill_matrices gattaca_aligner false) ∧
      ¬ code_match_matches
          (Cursor.mk Matrix.MATCH
            ((alignment_fill_matrices gattaca_aligner false).match_scores (ARR_2D_INDEX 8 7 7))
            7 7 0)
          (alignment_fill_matrices gattaca_aligner false) :=
  (reverse_move_if_chain _ (alignment_fill_matrices gattaca_aligner false) rfl rfl).2.2.2

/-- With `no_mismatches` unset every MATCH candidate is legal, and the test of
line 385 is the MATCH candidate of the specification. -/
theorem code_match_matches_iff_spec (c : Cursor) (al : Aligner)
    (hnm : al.scoring.no_mismatches = false) :
    code_match_matches c al ↔ spec_match_matches c al := by
  unfold code_match_matches spec_match_matches
  simp [hnm]

/-- With `no_mismatches` unset `alignment_reverse_move` follows the priority
order of the specification: GAP_A, then GAP_B, then MATCH, each if legal and
satisfying its equation, and the fatal branch if and only if none does. -/
theorem reverse_move_priority_mismatches_allowed (c : Cursor) (al : Aligner)
    (hW : al.score_width = al.seq_a.length + 1) (hH : al.score_height = al.seq_b.length + 1)
    (hnm : al.scoring.no_mismatches = false) :
    (spec_gap_a_matches c al →
      (alignment_reverse_move c al).map Cursor.curr_matrix = some Matrix.GAP_A) ∧
    (¬ spec_gap_a_matches c al → spec_gap_b_matches c al →
      (alignment_reverse_move c al).map Cursor.curr_matrix = some Matrix.GAP_B) ∧
    (¬ spec_gap_a_matches c al → ¬ spec_gap_b_matches c al → spec_match_matches c al →
      (alignment_reverse_move c al).map Cursor.curr_matrix = some Matrix.MATCH) ∧
    (alignment_reverse_move c al = none ↔
      ¬ spec_gap_a_matches c al ∧ ¬ spec_gap_b_matches c al ∧ ¬ spec_match_matches c al) := by
  rw [← code_match_matches_iff_spec c al hnm]
  exact reverse_move_if_chain c al hW hH

/-- C7 (code defect): for `seqA = "A"`, `seqB = "AC"`, match `+1`, mismatch `-1`,
`gap_open = -5`, `gap_extend = -1`, `no_mismatches` set, GLOBAL mode, the step
from GAP_A at the terminal cell `[1][2]` with the stored score `-5` has the
predecessor `[1][1]`; the GAP_A and GAP_B candidates do not satisfy their
equations, the MATCH candidate is legal (the symbols `A[0]`, `B[0]` of `[1][1]`
match) and satisfies `match[1][1] + p_match = score`, and yet
`alignment_reverse_move` takes the fatal branch instead of returning MATCH. -/
theorem reverse_move_fails_with_legal_match :
    spec_predecessor Matrix.GAP_A 1 2 = (1, 1) ∧
    ¬ spec_gap_a_matches
        (Cursor.mk Matrix.GAP_A
          ((alignment_fill_matrices
            (mk_aligner (Scoring.mk (-5) (-1) false false false false true unit_lookup)
              ['A'] ['A', 'C']) false).gap_a_scores (ARR_2D_INDEX 2 1 2)) 1 2 0)
        (alignment_fill_matrices
          (mk_aligner (Scoring.mk (-5) (-1) false false false false true unit_lookup)
            ['A'] ['A', 'C']) false) ∧
    ¬ spec_gap_b_matches
        (Cursor.mk Matrix.GAP_A
          ((alignment_fill_matrices
            (mk_aligner (Scoring.mk (-5) (-1) false false false false true unit_lookup)
              ['A'] ['A', 'C']) false).gap_a_scores (ARR_2D_INDEX 2 1 2)) 1 2 0)
        (alignment_fill_matrices
          (mk_aligner (Scoring.mk (-5) (-1) false false false false true unit_lookup)
            ['A'] ['A', 'C']) false) ∧
    spec_match_matches
        (Cursor.mk Matrix.GAP_A
          ((alignment_fill_matrices
            (mk_aligner (Scoring.mk (-5) (-1) false false false false true unit_lookup)
              ['A'] ['A', 'C']) false).gap_a_scores (ARR_2D_INDEX 2 1 2)) 1 2 0)
        (alignment_fill_matrices
          (mk_aligner (Scoring.mk (-5) (-1) false false false false true unit_lookup)
            ['A'] ['A', 'C']) false) ∧
    (alignment_reverse_move
        (Cursor.mk Matrix.GAP_A
          ((alignment_fill_matrices
            (mk_aligner (Scoring.mk (-5) (-1) false false false false true unit_lookup)
              ['A'] ['A', 'C']) false).gap_a_scores (ARR_2D_INDEX 2 1 2)) 1 2 0)
        (alignment_fill_matrices
          (mk_aligner (Scoring.mk (-5) (-1) false false false false true unit_lookup)
            ['A'] ['A', 'C']) false)).map Cursor.curr_matrix ≠ some Matrix.MATCH ∧
    alignment_reverse_move
        (Cursor.mk Matrix.GAP_A
          ((alignment_fill_matrices
            (mk_aligner (Scoring.mk (-5) (-1) false false false false true unit_lookup)
              ['A'] ['A', 'C']) false).gap_a_scores (ARR_2D_INDEX 2 1 2)) 1 2 0)
        (alignment_fill_matrices
          (mk_aligner (Scoring.mk (-5) (-1) false false false false true unit_lookup)
            ['A'] ['A', 'C']) false) = none := by
  decide

/-- C8: a call of `alignment_reverse_move` from `(state, x, y, score)` with
`x ≥ 1`, `y ≥ 1` that does not take the fatal branch moves the coordinates to
the predecessor dictated by the old state, returns the array index
`y' * (|A|+1) + x'`, returns as score the value stored at that index in the
matrix of the returned state, and that value plus the penalty of the
(old state, new state) transition is the old score. -/
theorem reverse_move_step (c r : Cursor) (al : Aligner)
    (hW : al.score_width = al.seq_a.length + 1)
    (_hx : 1 ≤ c.score_x) (_hy : 1 ≤ c.score_y)
    (h : alignment_reverse_move c al = some r) :
    (r.score_x, r.score_y) = spec_predecessor c.curr_matrix c.score_x c.score_y ∧
    r.arr_index = r.score_y * (al.seq_a.length + 1) + r.score_x ∧
    r.curr_score = matrix_at al r.curr_matrix r.arr_index ∧
    matrix_at al r.curr_matrix r.arr_index
      + pick_penalty (reverse_penalties al c.curr_matrix c.score_x c.score_y) r.curr_matrix
      = c.curr_score := by
  unfold alignment_reverse_move at h
  simp only [reverse_cell_eq, hW] at h
  split_ifs at h with h1 h2 h3
  · injection h with h
    subst h
    simp only [Bool.and_eq_true, beq_iff_eq] at h1
    exact ⟨rfl, rfl, rfl, h1.2⟩
  · injection h with h
    subst h
    simp only [Bool.and_eq_true, beq_iff_eq] at h2
    exact ⟨rfl, rfl, rfl, h2.2⟩
  · injection h with h
    subst h
    simp only [Bool.and_eq_true, beq_iff_eq] at h3
    exact ⟨rfl, rfl, rfl, h3.2⟩

set_option maxRecDepth 100000 in
/-- C8, at a concrete input: the step from state MATCH at `[7][7]` of the filled
GATTACA/GCATGCU matrices goes to `[6][6]`. -/
theorem reverse_move_step_witness :
    ((6 : Nat), (6 : Nat)) = spec_predecessor Matrix.MATCH 7 7 ∧
    (54 : Nat) = 6 * ((alignment_fill_matrices gattaca_aligner false).seq_a.length + 1) + 6 :=
  have h := reverse_move_step
    (Cursor.mk Matrix.MATCH
      ((alignment_fill_matrices gattaca_aligner false).match_scores (ARR_2D_INDEX 8 7 7)) 7 7 0)
    (Cursor.mk Matrix.MATCH
      ((alignment_fill_matrices gattaca_aligner false).match_scores (ARR_2D_INDEX 8 6 6)) 6 6 54)
    (alignment_fill_matrices gattaca_aligner false) rfl (by decide) (by decide) (by decide)
  ⟨h.1, h.2.1⟩

theorem gapAVal_eq_penalties (al : Aligner) (is_sw : Bool) (t : Mats) (x y : Nat) :
    gapAVal al is_sw t x y
      = combine is_sw
          (t.match_scores (ARR_2D_INDEX al.score_width x (y - 1))
            + (fill_gap_a_penalties al x y).1)
          (t.gap_a_scores (ARR_2D_INDEX al.score_width x (y - 1))
            + (fill_gap_a_penalties al x y).2.1)
          (t.gap_b_scores (ARR_2D_INDEX al.score_width x (y - 1))
            + (fill_gap_a_penalties al x y).2.2) := by
  unfold gapAVal fill_gap_a_penalties
  simp only []
  split_ifs <;> simp

theorem gapBVal_eq_penalties (al : Aligner) (is_sw : Bool) (t : Mats) (x y : Nat) :
    gapBVal al is_sw t x y
      = combine is_sw
          (t.match_scores (ARR_2D_INDEX al.score_width (x - 1) y)
            + (fill_gap_b_penalties al x y).1)
          (t.gap_a_scores (ARR_2D_INDEX al.score_width (x - 1) y)
            + (fill_gap_b_penalties al x y).2.1)
          (t.gap_b_scores (ARR_2D_INDEX al.score_width (x - 1) y)
            + (fill_gap_b_penalties al x y).2.2) := by
  unfold gapBVal fill_gap_b_penalties
  simp only []
  split_ifs <;> simp

/-- C9 (code defect): for `seqA = "AA"`, `seqB = "A"`, `gap_open = -5`,
`gap_extend = -1`, `no_end_gap_penalty` set, at the interior cell `[1][1]` in
state GAP_A (`x = 1 ≠ |A| = 2`): the fill added `(-6, -1, -6)` to the three
candidates, `alignment_reverse_move` adds `(0, 0, 0)` because `y = |B|`, and
the step from the stored score takes the fatal branch. -/
theorem reverse_penalties_differ :
    fill_gap_a_penalties
        (mk_aligner (Scoring.mk (-5) (-1) false true false false false unit_lookup)
          ['A', 'A'] ['A']) 1 1 = (-6, -1, -6) ∧
    reverse_penalties
        (mk_aligner (Scoring.mk (-5) (-1) false true false false false unit_lookup)
          ['A', 'A'] ['A']) Matrix.GAP_A 1 1 = (0, 0, 0) ∧
    alignment_reverse_move
        (Cursor.mk Matrix.GAP_A
          ((alignment_fill_matrices
            (mk_aligner (Scoring.mk (-5) (-1) false true false false false unit_lookup)
              ['A', 'A'] ['A']) false).gap_a_scores (ARR_2D_INDEX 3 1 1)) 1 1 0)
        (alignment_fill_matrices
          (mk_aligner (Scoring.mk (-5) (-1) false true false false false unit_lookup)
            ['A', 'A'] ['A']) false) = none := by
  decide

/-- The filled cells do not depend on what the buffers (or `capacity`) held
before the fill. -/
theorem fill_mats_indep (sc : Scoring) (a b : List Char) (W H cap cap' : Nat)
    (m ga gb m' ga' gb' : Buf) (is_sw : Bool) (hW : 0 < W) :
    ∀ n x y, x + y ≤ n → x < W → y < H →
      AgreeAt (fill_mats (Aligner.mk sc a b W H cap m ga gb) is_sw)
        (fill_mats (Aligner.mk sc a b W H cap' m' ga' gb') is_sw) (ARR_2D_INDEX W x y) := by
  intro n
  induction n with
  | zero =>
    intro x y hn hx hy
    have hx0 : x = 0 := by omega
    have hy0 : y = 0 := by omega
    subst hx0; subst hy0
    obtain ⟨p, q, r⟩ := fill_mats_origin (Aligner.mk sc a b W H cap m ga gb) is_sw hW
    obtain ⟨p', q', r'⟩ := fill_mats_origin (Aligner.mk sc a b W H cap' m' ga' gb') is_sw hW
    rw [idx_row]
    exact ⟨p.trans p'.symm, q.trans q'.symm, r.trans r'.symm⟩
  | succ n ih =>
    intro x y hn hx hy
    rcases Nat.eq_zero_or_pos y with hy0 | hy1
    · subst hy0
      rcases Nat.eq_zero_or_pos x with hx0 | hx1
      · subst hx0
        exact ih 0 0 (by omega) hx hy
      · obtain ⟨p, q, r⟩ := fill_mats_row (Aligner.mk sc a b W H cap m ga gb) is_sw hW x hx1 hx
        obtain ⟨p', q', r'⟩ :=
          fill_mats_row (Aligner.mk sc a b W H cap' m' ga' gb') is_sw hW x hx1 hx
        refine ⟨p.trans p'.symm, q.trans q'.symm, ?_⟩
        by_cases h : sc.no_gaps_in_b = false ∨ 1 < H
        · exact (r h).trans (r' h).symm
        · have hb : sc.no_gaps_in_b = true := by
            cases hn : sc.no_gaps_in_b
            · exact absurd (Or.inl hn) h
            · rfl
          have hH : H - 1 = 0 := by omega
          have e := fill_mats_chain_b (Aligner.mk sc a b W H cap m ga gb) is_sw hW hb x hx1 hx
          have e' := fill_mats_chain_b (Aligner.mk sc a b W H cap' m' ga' gb') is_sw hW hb x hx1 hx
          simp only [hH] at e e'
          obtain ⟨i1, -, i3⟩ := ih (x - 1) 0 (by omega) (by omega) hy
          rw [e, e', i1, i3]
    · rcases Nat.eq_zero_or_pos x with hx0 | hx1
      · subst hx0
        obtain ⟨p, q, r⟩ := fill_mats_col (Aligner.mk sc a b W H cap m ga gb) is_sw hW y hy1 hy
        obtain ⟨p', q', r'⟩ :=
          fill_mats_col (Aligner.mk sc a b W H cap' m' ga' gb') is_sw hW y hy1 hy
        refine ⟨p.trans p'.symm, ?_, q.trans q'.symm⟩
        by_cases h : sc.no_gaps_in_a = false ∨ 1 < W
        · exact (r h).trans (r' h).symm
        · have ha : sc.no_gaps_in_a = true := by
            cases hn : sc.no_gaps_in_a
            · exact absurd (Or.inl hn) h
            · rfl
          have hWe : W - 1 = 0 := by omega
          have e := fill_mats_chain_a (Aligner.mk sc a b W H cap m ga gb) is_sw hW ha y hy1 hy
          have e' := fill_mats_chain_a (Aligner.mk sc a b W H cap' m' ga' gb') is_sw hW ha y hy1 hy
          simp only [hWe] at e e'
          obtain ⟨i1, i2, -⟩ := ih 0 (y - 1) (by omega) hW (by omega)
          rw [e, e', i1, i2]
      · obtain ⟨p, q, r⟩ :=
          fill_mats_ok (Aligner.mk sc a b W H cap m ga gb) is_sw hW x y hx1 hx hy1 hy
        obtain ⟨p', q', r'⟩ :=
          fill_mats_ok (Aligner.mk sc a b W H cap' m' ga' gb') is_sw hW x y hx1 hx hy1 hy
        have i0 := ih (x - 1) (y - 1) (by omega) (by omega) (by omega)
        have i1 := ih x (y - 1) (by omega) hx (by omega)
        have i2 := ih (x - 1) y (by omega) (by omega) hy
        refine ⟨?_, ?_, ?_⟩
        · exact p.trans ((matchVal_congr _ is_sw x y i0).trans p'.symm)
        · cases hn : sc.no_gaps_in_a
          · exact (q hn).trans ((gapAVal_congr _ is_sw x y i1).trans (q' hn).symm)
          · by_cases hl : x < W - 1
            · exact (fill_mats_gap_a_floor (Aligner.mk sc a b W H cap m ga gb) is_sw hW hn x y
                hx1 hl hy1 hy).trans
                (fill_mats_gap_a_floor (Aligner.mk sc a b W H cap' m' ga' gb') is_sw hW hn x y
                  hx1 hl hy1 hy).symm
            · have hxe : x = W - 1 := by omega
              have e := fill_mats_chain_a (Aligner.mk sc a b W H cap m ga gb) is_sw hW hn y
                hy1 hy
              have e' := fill_mats_chain_a (Aligner.mk sc a b W H cap' m' ga' gb') is_sw hW hn y
                hy1 hy
              simp only [← hxe] at e e'
              rw [e, e', i1.1, i1.2.1]
        · cases hn : sc.no_gaps_in_b
          · exact (r hn).trans ((gapBVal_congr _ is_sw x y i2).trans (r' hn).symm)
          · by_cases hl : y < H - 1
            · exact (fill_mats_gap_b_floor (Aligner.mk sc a b W H cap m ga gb) is_sw hW hn x y
                hx1 hx hy1 hl).trans
                (fill_mats_gap_b_floor (Aligner.mk sc a b W H cap' m' ga' gb') is_sw hW hn x y
                  hx1 hx hy1 hl).symm
            · have hye : y = H - 1 := by omega
              have e := fill_mats_chain_b (Aligner.mk sc a b W H cap m ga gb) is_sw hW hn x
                hx1 hx
              have e' := fill_mats_chain_b (Aligner.mk sc a b W H cap' m' ga' gb') is_sw hW hn x
                hx1 hx
              simp only [← hye] at e e'
              rw [e, e', i2.1, i2.2.2]

set_option maxRecDepth 100000 in
/-- C10: for `seqA = "GATTACA"`, `seqB = "GCATGCU"`, lookup `+1`/`-1`,
`gap_open = 0`, `gap_extend = -1`, all flags off, GLOBAL mode, whatever the
buffers held before the fill, the optimal score
`max(match[7][7], gap_a[7][7], gap_b[7][7])` read from the filled matrices is `0`. -/
theorem gattaca_score (cap : Nat) (m ga gb : Buf) :
    MAX3
      ((alignment_fill_matrices
        (Aligner.mk classic_scoring ['G', 'A', 'T', 'T', 'A', 'C', 'A']
          ['G', 'C', 'A', 'T', 'G', 'C', 'U'] 8 8 cap m ga gb) false).match_scores
        (ARR_2D_INDEX 8 7 7))
      ((alignment_fill_matrices
        (Aligner.mk classic_scoring ['G', 'A', 'T', 'T', 'A', 'C', 'A']
          ['G', 'C', 'A', 'T', 'G', 'C', 'U'] 8 8 cap m ga gb) false).gap_a_scores
        (ARR_2D_INDEX 8 7 7))
      ((alignment_fill_matrices
        (Aligner.mk classic_scoring ['G', 'A', 'T', 'T', 'A', 'C', 'A']
          ['G', 'C', 'A', 'T', 'G', 'C', 'U'] 8 8 cap m ga gb) false).gap_b_scores
        (ARR_2D_INDEX 8 7 7)) = 0 := by
  obtain ⟨h1, h2, h3⟩ := fill_mats_indep classic_scoring ['G', 'A', 'T', 'T', 'A', 'C', 'A']
    ['G', 'C', 'A', 'T', 'G', 'C', 'U'] 8 8 cap 0 m ga gb (fun _ => 0) (fun _ => 0) (fun _ => 0)
    false (by decide) 14 7 7 (by decide) (by decide) (by decide)
  rw [fill_result_match, fill_result_gap_a, fill_result_gap_b, h1, h2, h3]
  decide

theorem le_max_upto (f : Nat → Int) (n k : Nat) (hk : k ≤ n) : f k ≤ max_upto f n := by
  induction n with
  | zero =>
    have : k = 0 := by omega
    subst this
    exact le_refl _
  | succ m ih =>
    by_cases h : k = m + 1
    · subst h
      exact le_max_right _ _
    · exact le_trans (ih (by omega)) (le_max_left _ _)

/-- C13: in LOCAL mode, for every A, B and scoring configuration, the maximum
over all cells of the three filled matrices is at least `0`. -/
theorem local_score_nonneg (al : Aligner)
    (hW : al.score_width = al.seq_a.length + 1) :
    0 ≤ local_optimal_score (alignment_fill_matrices al true) := by
  have hW0 : 0 < al.score_width := by omega
  obtain ⟨a, b, c⟩ := fill_mats_origin al true hW0
  have h0 : (0 : Int) = MAX3
      ((alignment_fill_matrices al true).match_scores
        (ARR_2D_INDEX (alignment_fill_matrices al true).score_width 0 0))
      ((alignment_fill_matrices al true).gap_a_scores
        (ARR_2D_INDEX (alignment_fill_matrices al true).score_width 0 0))
      ((alignment_fill_matrices al true).gap_b_scores
        (ARR_2D_INDEX (alignment_fill_matrices al true).score_width 0 0)) := by
    rw [idx_row, fill_result_match, fill_result_gap_a, fill_result_gap_b, a, b, c]
    rfl
  unfold local_optimal_score
  refine le_trans ?_ (le_max_upto _ _ 0 (Nat.zero_le _))
  refine le_trans ?_ (le_max_upto _ _ 0 (Nat.zero_le _))
  exact le_of_eq h0

/-- C13, at a concrete input: the LOCAL fill of GATTACA/GCATGCU. -/
theorem local_score_nonneg_witness :
    0 ≤ local_optimal_score (alignment_fill_matrices gattaca_aligner true) :=
  local_score_nonneg gattaca_aligner rfl

/-- C12: for non-empty A and empty B in GLOBAL mode with `no_gaps_in_b` unset,
the optimal score `max(match[|A|][0], gap_a[|A|][0], gap_b[|A|][0])` is held by
`gap_b_scores` and is `gap_open + |A| * gap_extend` when `no_start_gap_penalty`
is unset (that value being a `score_t`) and `0` when it is set. -/
theorem empty_b_score (al : Aligner)
    (hW : al.score_width = al.seq_a.length + 1) (hH : al.score_height = al.seq_b.length + 1)
    (hA : 1 ≤ al.seq_a.length) (hB : al.seq_b.length = 0)
    (hb : al.scoring.no_gaps_in_b = false) :
    global_optimal_score (alignment_fill_matrices al false)
      = (alignment_fill_matrices al false).gap_b_scores
          (ARR_2D_INDEX (al.seq_a.length + 1) al.seq_a.length 0) ∧
    (al.scoring.no_start_gap_penalty = false →
      inRange (al.scoring.gap_open + (al.seq_a.length : Int) * al.scoring.gap_extend) →
      global_optimal_score (alignment_fill_matrices al false)
        = al.scoring.gap_open + (al.seq_a.length : Int) * al.scoring.gap_extend) ∧
    (al.scoring.no_start_gap_penalty = true →
      global_optimal_score (alignment_fill_matrices al false) = 0) := by
  have hW0 : 0 < al.score_width := by omega
  obtain ⟨a, b, c⟩ := fill_mats_row al false hW0 al.seq_a.length hA (by omega)
  have c' := c (Or.inl hb)
  obtain ⟨-, -, r⟩ := fill_mats_inRange al false hW0 al.seq_a.length 0 (by omega) (by omega)
  have hs : global_optimal_score (alignment_fill_matrices al false)
      = (fill_mats al false).gap_b_scores (ARR_2D_INDEX al.score_width al.seq_a.length 0) := by
    show MAX3 _ _ _ = _
    have e1 : (alignment_fill_matrices al false).seq_b.length = 0 := hB
    have e2 : (alignment_fill_matrices al false).seq_a.length = al.seq_a.length := rfl
    have e3 : (alignment_fill_matrices al false).score_width = al.score_width := rfl
    rw [e1, e2, e3, fill_result_match, fill_result_gap_a, fill_result_gap_b, a, b]
    unfold inRange at r
    simp only [MAX3, fill_min, Bool.false_eq_true, if_false, max_self]
    exact max_eq_right r.1
  rw [hs, fill_result_gap_b, ← hW, c']
  refine ⟨rfl, fun h hr => ?_, fun h => ?_⟩
  · rw [if_neg (by simp [h]), toScore_of_inRange hr]
  · rw [if_pos h]

/-- C12, at a concrete input: `seqA = "GATTACA"` against the empty sequence with
`gap_open = -5`, `gap_extend = -1` scores `-5 - 7 = -12`. -/
theorem empty_b_score_witness :
    global_optimal_score
        (alignment_fill_matrices
          (mk_aligner (Scoring.mk (-5) (-1) false false false false false unit_lookup)
            ['G', 'A', 'T', 'T', 'A', 'C', 'A'] []) false)
      = (-5 : Int) + ((7 : Nat) : Int) * (-1) :=
  (empty_b_score
    (mk_aligner (Scoring.mk (-5) (-1) false false false false false unit_lookup)
      ['G', 'A', 'T', 'T', 'A', 'C', 'A'] []) rfl rfl (by decide) rfl rfl).2.1 rfl (by decide)

/-- The fill writes only inside the matrix: an index at or above
`score_width * score_height` keeps its three values. -/
theorem fill_mats_frame (al : Aligner) (is_sw : Bool) (hW : 0 < al.score_width)
    (hH : 0 < al.score_height) (k : Nat) (hk : al.score_width * al.score_height ≤ k) :
    (fill_mats al is_sw).match_scores k = al.match_scores k ∧
    (fill_mats al is_sw).gap_a_scores k = al.gap_a_scores k ∧
    (fill_mats al is_sw).gap_b_scores k = al.gap_b_scores k := by
  have hpos : 0 < al.score_width * al.score_height := Nat.mul_pos hW hH
  have hWk : al.score_width ≤ k := by
    have : al.score_width * 1 ≤ al.score_width * al.score_height := Nat.mul_le_mul_left _ hH
    omega
  have hne : ∀ x y, x < al.score_width → y < al.score_height →
      k ≠ ARR_2D_INDEX al.score_width x y := by
    intro x y hx hy
    have := idx_lt hx hy
    omega
  have h4 : AgreeAt (fill_mats al is_sw)
      (fill_main al is_sw (fill_borders al is_sw (fill_init al is_sw))) k := by
    unfold fill_mats
    refine fill_edges_agree al is_sw hW _ k (Or.inr ?_) (Or.inr ?_)
    · exact fun y _ _ => hne _ y (by omega) (by omega)
    · exact fun x _ _ => hne x _ (by omega) (by omega)
  have h3 : AgreeAt (fill_main al is_sw (fill_borders al is_sw (fill_init al is_sw)))
      (fill_borders al is_sw (fill_init al is_sw)) k :=
    fill_main_frame al is_sw hW _ k (fun x y _ _ _ _ => hne x y (by omega) (by omega))
  have h2 : AgreeAt (fill_borders al is_sw (fill_init al is_sw)) (fill_init al is_sw) k := by
    unfold fill_borders
    refine ((first_col_loop al.scoring _ al.score_width _ hW _ _).1 k ?_).trans'
      ((first_row_loop al.scoring _ _ _).1 k ?_)
    · exact fun y _ _ => hne 0 y hW (by omega)
    · intro x _ _
      omega
  obtain ⟨a, b, c⟩ := (h4.trans' h3).trans' h2
  have hk0 : k ≠ 0 := by omega
  have hnot : ¬ k < al.score_width * al.score_height := by omega
  refine ⟨a.trans ?_, b.trans ?_, c.trans ?_⟩
  · unfold fill_init
    exact bufSet_other _ _ hk0
  · unfold fill_init
    simp only []
    rw [bufSet_other _ _ hk0]
    split_ifs
    · rw [fill_all_apply, if_neg hnot]
    · rfl
  · unfold fill_init
    simp only []
    rw [bufSet_other _ _ hk0]
    split_ifs
    · rw [fill_all_apply, if_neg hnot]
    · rfl

theorem aligner_prepare_shape (R : Nat → Nat) (fresh : Mats) (aligner : Aligner)
    (a b : List Char) (sc : Scoring) :
    ∃ cap m ga gb, aligner_prepare R fresh aligner a b sc
      = Aligner.mk sc a b (a.length + 1) (b.length + 1) cap m ga gb := by
  unfold aligner_prepare
  simp only []
  split_ifs
  · exact ⟨_, _, _, _, rfl⟩
  · exact ⟨_, _, _, _, rfl⟩
  · exact ⟨_, _, _, _, rfl⟩

/-- C19: the result of the fill does not depend on what the buffers held
before: for every A, B, scoring configuration and mode, for any two initial
contents of the three buffers (and any two capacities), every cell `[x][y]`
with `x ≤ |A|`, `y ≤ |B|` of the three matrices holds the same value after
`alignment_fill_matrices`; the same holds for two calls of `aligner_align`
on any two engines with any two contents of the newly allocated memory. -/
theorem fill_ignores_prior_contents (sc : Scoring) (a b : List Char) (is_sw : Bool)
    (x y : Nat) (hx : x ≤ a.length) (hy : y ≤ b.length) :
    (∀ (cap cap' : Nat) (m ga gb m' ga' gb' : Buf),
      (alignment_fill_matrices
          (Aligner.mk sc a b (a.length + 1) (b.length + 1) cap m ga gb) is_sw).match_scores
          (ARR_2D_INDEX (a.length + 1) x y)
        = (alignment_fill_matrices
          (Aligner.mk sc a b (a.length + 1) (b.length + 1) cap' m' ga' gb') is_sw).match_scores
          (ARR_2D_INDEX (a.length + 1) x y) ∧
      (alignment_fill_matrices
          (Aligner.mk sc a b (a.length + 1) (b.length + 1) cap m ga gb) is_sw).gap_a_scores
          (ARR_2D_INDEX (a.length + 1) x y)
        = (alignment_fill_matrices
          (Aligner.mk sc a b (a.length + 1) (b.length + 1) cap' m' ga' gb') is_sw).gap_a_scores
          (ARR_2D_INDEX (a.length + 1) x y) ∧
      (alignment_fill_matrices
          (Aligner.mk sc a b (a.length + 1) (b.length + 1) cap m ga gb) is_sw).gap_b_scores
          (ARR_2D_INDEX (a.length + 1) x y)
        = (alignment_fill_matrices
          (Aligner.mk sc a b (a.length + 1) (b.length + 1) cap' m' ga' gb') is_sw).gap_b_scores
          (ARR_2D_INDEX (a.length + 1) x y)) ∧
    (∀ (R : Nat → Nat) (fresh fresh' : Mats) (al al' : Aligner),
      (aligner_align R fresh al a b sc is_sw).match_scores (ARR_2D_INDEX (a.length + 1) x y)
        = (aligner_align R fresh' al' a b sc is_sw).match_scores
            (ARR_2D_INDEX (a.length + 1) x y) ∧
      (aligner_align R fresh al a b sc is_sw).gap_a_scores (ARR_2D_INDEX (a.length + 1) x y)
        = (aligner_align R fresh' al' a b sc is_sw).gap_a_scores
            (ARR_2D_INDEX (a.length + 1) x y) ∧
      (aligner_align R fresh al a b sc is_sw).gap_b_scores (ARR_2D_INDEX (a.length + 1) x y)
        = (aligner_align R fresh' al' a b sc is_sw).gap_b_scores
            (ARR_2D_INDEX (a.length + 1) x y)) := by
  have key : ∀ (cap cap' : Nat) (m ga gb m' ga' gb' : Buf),
      AgreeAt (fill_mats (Aligner.mk sc a b (a.length + 1) (b.length + 1) cap m ga gb) is_sw)
        (fill_mats (Aligner.mk sc a b (a.length + 1) (b.length + 1) cap' m' ga' gb') is_sw)
        (ARR_2D_INDEX (a.length + 1) x y) :=
    fun cap cap' m ga gb m' ga' gb' =>
      fill_mats_indep sc a b (a.length + 1) (b.length + 1) cap cap' m ga gb m' ga' gb' is_sw
        (Nat.succ_pos _) (x + y) x y (le_refl _) (by omega) (by omega)
  refine ⟨fun cap cap' m ga gb m' ga' gb' => key cap cap' m ga gb m' ga' gb', ?_⟩
  intro R fresh fresh' al al'
  obtain ⟨c1, m1, ga1, gb1, e1⟩ := aligner_prepare_shape R fresh al a b sc
  obtain ⟨c2, m2, ga2, gb2, e2⟩ := aligner_prepare_shape R fresh' al' a b sc
  unfold aligner_align
  rw [e1, e2]
  exact key c1 c2 m1 ga1 gb1 m2 ga2 gb2

/-- C19, at a concrete input: the terminal cell of the match matrix for
`seqA = "AC"`, `seqB = "CA"` after a fill over zeroed buffers and after a fill
over buffers full of sevens. -/
theorem fill_ignores_prior_contents_witness :
    (alignment_fill_matrices
        (Aligner.mk classic_scoring ['A', 'C'] ['C', 'A'] (['A', 'C'].length + 1)
          (['C', 'A'].length + 1) 0 (fun _ => 0) (fun _ => 0) (fun _ => 0)) false).match_scores
        (ARR_2D_INDEX (['A', 'C'].length + 1) 2 2)
      = (alignment_fill_matrices
        (Aligner.mk classic_scoring ['A', 'C'] ['C', 'A'] (['A', 'C'].length + 1)
          (['C', 'A'].length + 1) 64 (fun _ => 7) (fun _ => 7) (fun _ => 7)) false).match_scores
        (ARR_2D_INDEX (['A', 'C'].length + 1) 2 2) :=
  ((fill_ignores_prior_contents classic_scoring ['A', 'C'] ['C', 'A'] false 2 2 (by decide)
    (by decide)).1 0 64 (fun _ => 0) (fun _ => 0) (fun _ => 0) (fun _ => 7) (fun _ => 7)
    (fun _ => 7)).1

theorem fill_result_capacity (al : Aligner) (is_sw : Bool) :
    (alignment_fill_matrices al is_sw).capacity = al.capacity := rfl

/-- C14: `aligner_align` never shrinks the engine.  With `required =
(|A|+1) * (|B|+1)`: if the old capacity is non-zero and at least `required`, the
capacity is kept and the fill runs on the old three buffers (whose contents at
and above `required` survive the call); otherwise the capacity becomes
`ROUNDUP2POW(required)`.  In both cases afterwards `capacity ≥ required`,
`capacity ≥` the old capacity, `score_width = |A|+1` and `score_height = |B|+1`
(assuming `ROUNDUP2POW(n) ≥ n`). -/
theorem aligner_align_capacity (R : Nat → Nat) (fresh : Mats) (aligner : Aligner)
    (a b : List Char) (sc : Scoring) (is_sw : Bool) (hR : ∀ n, n ≤ R n) :
    (aligner.capacity ≠ 0 ∧ (a.length + 1) * (b.length + 1) ≤ aligner.capacity →
      (aligner_align R fresh aligner a b sc is_sw).capacity = aligner.capacity ∧
      (aligner_prepare R fresh aligner a b sc).match_scores = aligner.match_scores ∧
      (aligner_prepare R fresh aligner a b sc).gap_a_scores = aligner.gap_a_scores ∧
      (aligner_prepare R fresh aligner a b sc).gap_b_scores = aligner.gap_b_scores ∧
      ∀ k, (a.length + 1) * (b.length + 1) ≤ k →
        (aligner_align R fresh aligner a b sc is_sw).match_scores k = aligner.match_scores k ∧
        (aligner_align R fresh aligner a b sc is_sw).gap_a_scores k = aligner.gap_a_scores k ∧
        (aligner_align R fresh aligner a b sc is_sw).gap_b_scores k = aligner.gap_b_scores k) ∧
    (¬ (aligner.capacity ≠ 0 ∧ (a.length + 1) * (b.length + 1) ≤ aligner.capacity) →
      (aligner_align R fresh aligner a b sc is_sw).capacity
        = R ((a.length + 1) * (b.length + 1))) ∧
    (a.length + 1) * (b.length + 1) ≤ (aligner_align R fresh aligner a b sc is_sw).capacity ∧
    aligner.capacity ≤ (aligner_align R fresh aligner a b sc is_sw).capacity ∧
    (aligner_align R fresh aligner a b sc is_sw).score_width = a.length + 1 ∧
    (aligner_align R fresh aligner a b sc is_sw).score_height = b.length + 1 := by
  have hreq := hR ((a.length + 1) * (b.length + 1))
  by_cases hc : aligner.capacity = 0 ∨ aligner.capacity < (a.length + 1) * (b.length + 1)
  · have hp : aligner_prepare R fresh aligner a b sc
          = Aligner.mk sc a b (a.length + 1) (b.length + 1) (R ((a.length + 1) * (b.length + 1)))
              fresh.match_scores fresh.gap_a_scores fresh.gap_b_scores ∨
        aligner_prepare R fresh aligner a b sc
          = Aligner.mk sc a b (a.length + 1) (b.length + 1) (R ((a.length + 1) * (b.length + 1)))
              (realloc_buf aligner.match_scores aligner.capacity fresh.match_scores)
              (realloc_buf aligner.gap_a_scores aligner.capacity fresh.gap_a_scores)
              (realloc_buf aligner.gap_b_scores aligner.capacity fresh.gap_b_scores) := by
      unfold aligner_prepare
      simp only []
      rw [if_pos hc]
      split_ifs
      · exact Or.inl rfl
      · exact Or.inr rfl
    have hcap : (aligner_align R fresh aligner a b sc is_sw).capacity
        = R ((a.length + 1) * (b.length + 1)) := by
      unfold aligner_align
      rw [fill_result_capacity]
      rcases hp with hp | hp <;> rw [hp]
    have hw : (aligner_align R fresh aligner a b sc is_sw).score_width = a.length + 1 ∧
        (aligner_align R fresh aligner a b sc is_sw).score_height = b.length + 1 := by
      unfold aligner_align
      rcases hp with hp | hp <;> rw [hp] <;> exact ⟨rfl, rfl⟩
    refine ⟨fun h => absurd hc (by omega), fun _ => hcap, ?_, ?_, hw.1, hw.2⟩
    · rw [hcap]; exact hreq
    · rw [hcap]
      rcases hc with hc | hc <;> omega
  · have hp : aligner_prepare R fresh aligner a b sc
        = Aligner.mk sc a b (a.length + 1) (b.length + 1) aligner.capacity
            aligner.match_scores aligner.gap_a_scores aligner.gap_b_scores := by
      unfold aligner_prepare
      simp only []
      rw [if_neg hc]
    have hcap : (aligner_align R fresh aligner a b sc is_sw).capacity = aligner.capacity := by
      unfold aligner_align
      rw [fill_result_capacity, hp]
    have hfr : ∀ k, (a.length + 1) * (b.length + 1) ≤ k →
        (aligner_align R fresh aligner a b sc is_sw).match_scores k = aligner.match_scores k ∧
        (aligner_align R fresh aligner a b sc is_sw).gap_a_scores k = aligner.gap_a_scores k ∧
        (aligner_align R fresh aligner a b sc is_sw).gap_b_scores k = aligner.gap_b_scores k := by
      intro k hk
      unfold aligner_align
      rw [hp, fill_result_match, fill_result_gap_a, fill_result_gap_b]
      exact fill_mats_frame _ is_sw (Nat.succ_pos _) (Nat.succ_pos _) k hk
    refine ⟨fun _ => ⟨hcap, by rw [hp], by rw [hp], by rw [hp], hfr⟩,
      fun h => absurd (show aligner.capacity ≠ 0 ∧ _ from ⟨by omega, by omega⟩) h, ?_, ?_, ?_, ?_⟩
    · rw [hcap]; omega
    · rw [hcap]
    · unfold aligner_align; rw [hp]; rfl
    · unfold aligner_align; rw [hp]; rfl

/-- C14, at a concrete input: a fresh engine (capacity 0) aligned on
GATTACA/GCATGCU with `ROUNDUP2POW = roundup2pow` gets capacity `64`. -/
theorem aligner_align_capacity_witness :
    (aligner_align roundup2pow (Mats.mk (fun _ => 0) (fun _ => 0) (fun _ => 0))
        (Aligner.mk classic_scoring [] [] 0 0 0 (fun _ => 0) (fun _ => 0) (fun _ => 0))
        ['G', 'A', 'T', 'T', 'A', 'C', 'A'] ['G', 'C', 'A', 'T', 'G', 'C', 'U']
        classic_scoring false).capacity
      = roundup2pow ((['G', 'A', 'T', 'T', 'A', 'C', 'A'].length + 1)
          * (['G', 'C', 'A', 'T', 'G', 'C', 'U'].length + 1)) :=
  (aligner_align_capacity roundup2pow (Mats.mk (fun _ => 0) (fun _ => 0) (fun _ => 0))
    (Aligner.mk classic_scoring [] [] 0 0 0 (fun _ => 0) (fun _ => 0) (fun _ => 0))
    ['G', 'A', 'T', 'T', 'A', 'C', 'A'] ['G', 'C', 'A', 'T', 'G', 'C', 'U'] classic_scoring false
    (fun n => Nat.le_pow_clog (by decide) n)).2.1 (by decide)

/-- C15: `alignment_ensure_capacity(result, n)` leaves the result unchanged when
`capacity ≥ n+1`; otherwise, when both `realloc` calls succeed, it sets the
capacity to `ROUNDUP2POW(n+1)` and keeps the old contents of both buffers; and
whenever it returns, `capacity ≥ n+1`, `capacity ≥` the old capacity, and
`length` and `score` are unchanged (assuming `ROUNDUP2POW(m) ≥ m`). -/
theorem ensure_capacity_grows (R : Nat → Nat) (fresh_a fresh_b : Option (Nat → Char))
    (result : Alignment) (n : Nat) (hR : ∀ m, m ≤ R m) :
    (n + 1 ≤ result.capacity →
      alignment_ensure_capacity R fresh_a fresh_b result n = some result) ∧
    (result.capacity < n + 1 → ∀ fa fb, fresh_a = some fa → fresh_b = some fb →
      ∃ r, alignment_ensure_capacity R fresh_a fresh_b result n = some r ∧
        r.capacity = R (n + 1) ∧
        (∀ k, k < result.capacity →
          r.result_a k = result.result_a k ∧ r.result_b k = result.result_b k)) ∧
    (∀ r, alignment_ensure_capacity R fresh_a fresh_b result n = some r →
      n + 1 ≤ r.capacity ∧ result.capacity ≤ r.capacity ∧ r.length = result.length ∧
      r.score = result.score) := by
  refine ⟨fun h => ?_, fun h fa fb ha hb => ?_, fun r hr => ?_⟩
  · unfold alignment_ensure_capacity
    simp only []
    rw [if_neg (by omega)]
  · subst ha; subst hb
    refine ⟨Alignment.mk (realloc_chars result.result_a result.capacity fa)
      (realloc_chars result.result_b result.capacity fb) (R (n + 1)) result.length
      result.pos_a result.pos_b result.len_a result.len_b result.score, ?_, rfl,
      fun k hk => ?_⟩
    · unfold alignment_ensure_capacity
      simp only []
      rw [if_pos h]
    · simp [realloc_chars, hk]
  · unfold alignment_ensure_capacity at hr
    simp only [] at hr
    split_ifs at hr with h
    · have hn := hR (n + 1)
      cases fresh_a <;> cases fresh_b <;> simp at hr
      subst hr
      exact ⟨hn, by show result.capacity ≤ R (n + 1); omega, rfl, rfl⟩
    · injection hr with hr
      subst hr
      exact ⟨by omega, le_refl _, rfl, rfl⟩

/-- C15, at a concrete input: a result of capacity 4 asked to hold 10 characters,
with `ROUNDUP2POW = roundup2pow`. -/
theorem ensure_capacity_grows_witness :
    ∃ r, alignment_ensure_capacity roundup2pow (some (fun _ => 'x')) (some (fun _ => 'y'))
        (Alignment.mk (fun _ => 'a') (fun _ => 'b') 4 3 0 0 0 0 0) 10 = some r ∧
      r.capacity = roundup2pow (10 + 1) ∧
      (∀ k, k < (Alignment.mk (fun _ => 'a') (fun _ => 'b') 4 3 0 0 0 0 0).capacity →
        r.result_a k = (Alignment.mk (fun _ => 'a') (fun _ => 'b') 4 3 0 0 0 0 0).result_a k ∧
        r.result_b k = (Alignment.mk (fun _ => 'a') (fun _ => 'b') 4 3 0 0 0 0 0).result_b k) :=
  (ensure_capacity_grows roundup2pow (some (fun _ => 'x')) (some (fun _ => 'y'))
    (Alignment.mk (fun _ => 'a') (fun _ => 'b') 4 3 0 0 0 0 0) 10
    (fun n => Nat.le_pow_clog (by decide) n)).2.1 (by decide) _ _ rfl rfl

/-- C16 (code defect): for `seqA = "AA"`, `seqB = "CA"`, every substitution score
`-1`, `gap_open = -5`, `gap_extend = -1`, `no_gaps_in_a`, `no_gaps_in_b` and
`no_mismatches` set, GLOBAL mode, the three predecessors of the cell `[2][2]`
are the sentinel, the symbols match, and line 138-142 adds the substitution
score to `combine(...)` in `int`: `INT_MIN + (-1)` is not a 32-bit value, and
the cell (and so the optimal score) holds `INT_MAX`. -/
theorem match_sum_overflows :
    nw_combine
      ((alignment_fill_matrices
        (mk_aligner (Scoring.mk (-5) (-1) false false true true true flat_lookup)
          ['A', 'A'] ['C', 'A']) false).match_scores (ARR_2D_INDEX 3 1 1))
      ((alignment_fill_matrices
        (mk_aligner (Scoring.mk (-5) (-1) false false true true true flat_lookup)
          ['A', 'A'] ['C', 'A']) false).gap_a_scores (ARR_2D_INDEX 3 1 1))
      ((alignment_fill_matrices
        (mk_aligner (Scoring.mk (-5) (-1) false false true true true flat_lookup)
          ['A', 'A'] ['C', 'A']) false).gap_b_scores (ARR_2D_INDEX 3 1 1)) = INT_MIN ∧
    flat_lookup 'A' 'A' = (-1, true) ∧
    ¬ inRange (INT_MIN + (-1)) ∧
    (alignment_fill_matrices
        (mk_aligner (Scoring.mk (-5) (-1) false false true true true flat_lookup)
          ['A', 'A'] ['C', 'A']) false).match_scores (ARR_2D_INDEX 3 2 2) = INT_MAX ∧
    global_optimal_score
      (alignment_fill_matrices
        (mk_aligner (Scoring.mk (-5) (-1) false false true true true flat_lookup)
          ['A', 'A'] ['C', 'A']) false) = INT_MAX := by
  decide

/-- C18 (code defect): for `seqA = "A"`, `seqB = "AC"`, match `+1`, mismatch `-1`,
`gap_open = -5`, `gap_extend = -1`, `no_mismatches` set, GLOBAL mode: the
terminal cell `[1][2]` holds `gap_a = -5`, which is `match[1][1] + gap_open +
gap_extend` with `[1][1]` a matching cell, but `alignment_reverse_move` gates
the MATCH candidate by the lookup of the current cell `(A[0], B[1])`, a
non-match, and the step from GAP_A at `[1][2]` takes the fatal branch. -/
theorem reverse_move_gate_wrong_cell :
    (alignment_fill_matrices
        (mk_aligner (Scoring.mk (-5) (-1) false false false false true unit_lookup)
          ['A'] ['A', 'C']) false).gap_a_scores (ARR_2D_INDEX 2 1 2) = -5 ∧
    (alignment_fill_matrices
        (mk_aligner (Scoring.mk (-5) (-1) false false false false true unit_lookup)
          ['A'] ['A', 'C']) false).match_scores (ARR_2D_INDEX 2 1 1) + (-5) + (-1) = -5 ∧
    (unit_lookup 'A' 'A').2 = true ∧
    (unit_lookup 'A' 'C').2 = false ∧
    alignment_reverse_move
        (Cursor.mk Matrix.GAP_A
          ((alignment_fill_matrices
            (mk_aligner (Scoring.mk (-5) (-1) false false false false true unit_lookup)
              ['A'] ['A', 'C']) false).gap_a_scores (ARR_2D_INDEX 2 1 2)) 1 2 0)
        (alignment_fill_matrices
          (mk_aligner (Scoring.mk (-5) (-1) false false false false true unit_lookup)
            ['A'] ['A', 'C']) false) = none := by
  decide

/-- C20 (code defect): for `seqA = "A"`, `seqB = "CA"`, lookup `+1`/`-1`,
`gap_open = 0`, `gap_extend = -1`, all flags off, GLOBAL mode: the fill of
`(A, B)` has `gap_a[0][1] = -2` where the fill of `(B, A)` has `gap_b[1][0] =
-1`, and the optimal scores are `-1` and `0`. -/
theorem global_score_asymmetric :
    (alignment_fill_matrices (mk_aligner classic_scoring ['A'] ['C', 'A']) false).gap_a_scores
        (ARR_2D_INDEX 2 0 1) = -2 ∧
    (alignment_fill_matrices (mk_aligner classic_scoring ['C', 'A'] ['A']) false).gap_b_scores
        (ARR_2D_INDEX 3 1 0) = -1 ∧
    global_optimal_score
      (alignment_fill_matrices (mk_aligner classic_scoring ['A'] ['C', 'A']) false) = -1 ∧
    global_optimal_score
      (alignment_fill_matrices (mk_aligner classic_scoring ['C', 'A'] ['A']) false) = 0 := by
  decide

theorem MAX3_cases (a b c : Int) : MAX3 a b c = a ∨ MAX3 a b c = b ∨ MAX3 a b c = c := by
  unfold MAX3
  rcases max_choice (max a b) c with h | h
  · rcases max_choice a b with h' | h'
    · exact Or.inl (h.trans h')
    · exact Or.inr (Or.inl (h.trans h'))
  · exact Or.inr (Or.inr h)

/-- The match cell of a GLOBAL fill without `no_mismatches`, with the narrowing
of line 138 explicit. -/
theorem fill_match_plain (al : Aligner) (hW : 0 < al.score_width) (x y : Nat)
    (hx1 : 1 ≤ x) (hx : x < al.score_width) (hy1 : 1 ≤ y) (hy : y < al.score_height)
    (hm : al.scoring.no_mismatches = false) :
    (fill_mats al false).match_scores (ARR_2D_INDEX al.score_width x y)
      = toScore (MAX3
          ((fill_mats al false).match_scores (ARR_2D_INDEX al.score_width (x - 1) (y - 1)))
          ((fill_mats al false).gap_a_scores (ARR_2D_INDEX al.score_width (x - 1) (y - 1)))
          ((fill_mats al false).gap_b_scores (ARR_2D_INDEX al.score_width (x - 1) (y - 1)))
        + (al.scoring.scoring_lookup (seqAt al.seq_a (x - 1)) (seqAt al.seq_b (y - 1))).1) := by
  obtain ⟨r1, r2, r3⟩ := fill_mats_inRange al false hW (x - 1) (y - 1) (by omega) (by omega)
  rw [(fill_mats_ok al false hW x y hx1 hx hy1 hy).1]
  unfold matchVal
  simp only [hm, Bool.false_and, Bool.false_eq_true, if_false]
  rw [combine_eq_spec false r1 r2 r3]
  rfl

/-- The `gap_a` cell of a GLOBAL fill with `no_gaps_in_a` and
`no_end_gap_penalty` unset. -/
theorem fill_gap_a_plain (al : Aligner) (hW : 0 < al.score_width) (x y : Nat)
    (hx1 : 1 ≤ x) (hx : x < al.score_width) (hy1 : 1 ≤ y) (hy : y < al.score_height)
    (ha : al.scoring.no_gaps_in_a = false) (he : al.scoring.no_end_gap_penalty = false) :
    (fill_mats al false).gap_a_scores (ARR_2D_INDEX al.score_width x y)
      = toScore (MAX3
          ((fill_mats al false).match_scores (ARR_2D_INDEX al.score_width x (y - 1))
            + toScore (al.scoring.gap_extend + al.scoring.gap_open))
          ((fill_mats al false).gap_a_scores (ARR_2D_INDEX al.score_width x (y - 1))
            + al.scoring.gap_extend)
          ((fill_mats al false).gap_b_scores (ARR_2D_INDEX al.score_width x (y - 1))
            + toScore (al.scoring.gap_extend + al.scoring.gap_open))) := by
  rw [(fill_mats_ok al false hW x y hx1 hx hy1 hy).2.1 ha]
  unfold gapAVal
  simp only [he, Bool.and_false, Bool.false_eq_true, if_false]
  rfl

/-- The `gap_b` cell of a GLOBAL fill with `no_gaps_in_b` and
`no_end_gap_penalty` unset. -/
theorem fill_gap_b_plain (al : Aligner) (hW : 0 < al.score_width) (x y : Nat)
    (hx1 : 1 ≤ x) (hx : x < al.score_width) (hy1 : 1 ≤ y) (hy : y < al.score_height)
    (hb : al.scoring.no_gaps_in_b = false) (he : al.scoring.no_end_gap_penalty = false) :
    (fill_mats al false).gap_b_scores (ARR_2D_INDEX al.score_width x y)
      = toScore (MAX3
          ((fill_mats al false).match_scores (ARR_2D_INDEX al.score_width (x - 1) y)
            + toScore (al.scoring.gap_extend + al.scoring.gap_open))
          ((fill_mats al false).gap_a_scores (ARR_2D_INDEX al.score_width (x - 1) y)
            + toScore (al.scoring.gap_extend + al.scoring.gap_open))
          ((fill_mats al false).gap_b_scores (ARR_2D_INDEX al.score_width (x - 1) y)
            + al.scoring.gap_extend)) := by
  rw [(fill_mats_ok al false hW x y hx1 hx hy1 hy).2.2 hb]
  unfold gapBVal
  simp only [he, Bool.and_false, Bool.false_eq_true, if_false]
  rfl

/-- The three cells at `[x][y]` of a GLOBAL fill with every flag but
`no_start_gap_penalty` unset, when no overflow occurs there: the recurrence
over the integers. -/
theorem fill_cell_exact (al : Aligner) (hW : 0 < al.score_width) (x y : Nat)
    (hx1 : 1 ≤ x) (hx : x < al.score_width) (hy1 : 1 ≤ y) (hy : y < al.score_height)
    (hm : al.scoring.no_mismatches = false) (ha : al.scoring.no_gaps_in_a = false)
    (hb : al.scoring.no_gaps_in_b = false) (he : al.scoring.no_end_gap_penalty = false)
    (hov : cell_no_overflow (alignment_fill_matrices al false) x y) :
    (fill_mats al false).match_scores (ARR_2D_INDEX al.score_width x y)
      = MAX3
          ((fill_mats al false).match_scores (ARR_2D_INDEX al.score_width (x - 1) (y - 1)))
          ((fill_mats al false).gap_a_scores (ARR_2D_INDEX al.score_width (x - 1) (y - 1)))
          ((fill_mats al false).gap_b_scores (ARR_2D_INDEX al.score_width (x - 1) (y - 1)))
        + (al.scoring.scoring_lookup (seqAt al.seq_a (x - 1)) (seqAt al.seq_b (y - 1))).1 ∧
    (fill_mats al false).gap_a_scores (ARR_2D_INDEX al.score_width x y)
      = MAX3
          ((fill_mats al false).match_scores (ARR_2D_INDEX al.score_width x (y - 1))
            + (al.scoring.gap_extend + al.scoring.gap_open))
          ((fill_mats al false).gap_a_scores (ARR_2D_INDEX al.score_width x (y - 1))
            + al.scoring.gap_extend)
          ((fill_mats al false).gap_b_scores (ARR_2D_INDEX al.score_width x (y - 1))
            + (al.scoring.gap_extend + al.scoring.gap_open)) ∧
    (fill_mats al false).gap_b_scores (ARR_2D_INDEX al.score_width x y)
      = MAX3
          ((fill_mats al false).match_scores (ARR_2D_INDEX al.score_width (x - 1) y)
            + (al.scoring.gap_extend + al.scoring.gap_open))
          ((fill_mats al false).gap_a_scores (ARR_2D_INDEX al.score_width (x - 1) y)
            + (al.scoring.gap_extend + al.scoring.gap_open))
          ((fill_mats al false).gap_b_scores (ARR_2D_INDEX al.score_width (x - 1) y)
            + al.scoring.gap_extend) := by
  obtain ⟨h0, h1, h2, h3⟩ := hov
  have e : ∀ v : Int, v + al.scoring.gap_open + al.scoring.gap_extend
      = v + (al.scoring.gap_extend + al.scoring.gap_open) := fun v => by ring
  have hp : toScore (al.scoring.gap_extend + al.scoring.gap_open)
      = al.scoring.gap_extend + al.scoring.gap_open := toScore_of_inRange h0
  replace h1 : inRange (MAX3
      ((fill_mats al false).match_scores (ARR_2D_INDEX al.score_width (x - 1) (y - 1)))
      ((fill_mats al false).gap_a_scores (ARR_2D_INDEX al.score_width (x - 1) (y - 1)))
      ((fill_mats al false).gap_b_scores (ARR_2D_INDEX al.score_width (x - 1) (y - 1)))
    + (al.scoring.scoring_lookup (seqAt al.seq_a (x - 1)) (seqAt al.seq_b (y - 1))).1) := h1
  replace h2 : inRange (MAX3
      ((fill_mats al false).match_scores (ARR_2D_INDEX al.score_width x (y - 1))
        + al.scoring.gap_open + al.scoring.gap_extend)
      ((fill_mats al false).gap_a_scores (ARR_2D_INDEX al.score_width x (y - 1))
        + al.scoring.gap_extend)
      ((fill_mats al false).gap_b_scores (ARR_2D_INDEX al.score_width x (y - 1))
        + al.scoring.gap_open + al.scoring.gap_extend)) := h2
  replace h3 : inRange (MAX3
      ((fill_mats al false).match_scores (ARR_2D_INDEX al.score_width (x - 1) y)
        + al.scoring.gap_open + al.scoring.gap_extend)
      ((fill_mats al false).gap_a_scores (ARR_2D_INDEX al.score_width (x - 1) y)
        + al.scoring.gap_open + al.scoring.gap_extend)
      ((fill_mats al false).gap_b_scores (ARR_2D_INDEX al.score_width (x - 1) y)
        + al.scoring.gap_extend)) := h3
  simp only [e] at h2 h3
  refine ⟨?_, ?_, ?_⟩
  · rw [fill_match_plain al hW x y hx1 hx hy1 hy hm]
    exact toScore_of_inRange h1
  · rw [fill_gap_a_plain al hW x y hx1 hx hy1 hy ha he, hp]
    exact toScore_of_inRange h2
  · rw [fill_gap_b_plain al hW x y hx1 hx hy1 hy hb he, hp]
    exact toScore_of_inRange h3

/-- With the three legality flags unset, a traceback step succeeds as soon as one
of the three candidates satisfies its equation. -/
theorem reverse_move_ne_none (c : Cursor) (al : Aligner)
    (hm : al.scoring.no_mismatches = false) (ha : al.scoring.no_gaps_in_a = false)
    (hb : al.scoring.no_gaps_in_b = false)
    (h : al.match_scores (ARR_2D_INDEX al.score_width
            (reverse_cell c.curr_matrix c.score_x c.score_y).1
            (reverse_cell c.curr_matrix c.score_x c.score_y).2)
          + (reverse_penalties al c.curr_matrix c.score_x c.score_y).1 = c.curr_score ∨
        al.gap_a_scores (ARR_2D_INDEX al.score_width
            (reverse_cell c.curr_matrix c.score_x c.score_y).1
            (reverse_cell c.curr_matrix c.score_x c.score_y).2)
          + (reverse_penalties al c.curr_matrix c.score_x c.score_y).2.1 = c.curr_score ∨
        al.gap_b_scores (ARR_2D_INDEX al.score_width
            (reverse_cell c.curr_matrix c.score_x c.score_y).1
            (reverse_cell c.curr_matrix c.score_x c.score_y).2)
          + (reverse_penalties al c.curr_matrix c.score_x c.score_y).2.2 = c.curr_score) :
    alignment_reverse_move c al ≠ none := by
  unfold alignment_reverse_move
  simp only [hm, ha, hb, Bool.not_false, Bool.true_or, Bool.true_and, beq_iff_eq]
  split_ifs with h1 h2 h3
  · simp
  · simp
  · simp
  · rcases h with h | h | h
    · exact absurd h h3
    · exact absurd h h1
    · exact absurd h h2

theorem reverse_gap_penalties_plain (al : Aligner) (x y : Nat)
    (he : al.scoring.no_end_gap_penalty = false) :
    reverse_gap_penalties al x y
      = (toScore (al.scoring.gap_extend + al.scoring.gap_open), al.scoring.gap_extend) := by
  unfold reverse_gap_penalties
  simp only [he, Bool.false_and, Bool.false_eq_true, if_false]

/-- C17: in GLOBAL mode with `no_mismatches`, `no_gaps_in_a`, `no_gaps_in_b` and
`no_end_gap_penalty` unset, for every interior cell `[x][y]` at which no 32-bit
overflow occurred and every state `S`, the call of `alignment_reverse_move`
from state `S` at `(x,y)` with the score the fill stored in the matrix of `S`
does not take the fatal traceback-failure branch. -/
theorem reverse_move_never_fails (al : Aligner) (S : Matrix) (x y k : Nat)
    (hW : al.score_width = al.seq_a.length + 1) (hH : al.score_height = al.seq_b.length + 1)
    (hm : al.scoring.no_mismatches = false) (ha : al.scoring.no_gaps_in_a = false)
    (hb : al.scoring.no_gaps_in_b = false) (he : al.scoring.no_end_gap_penalty = false)
    (hx1 : 1 ≤ x) (hx : x ≤ al.seq_a.length) (hy1 : 1 ≤ y) (hy : y ≤ al.seq_b.length)
    (hov : cell_no_overflow (alignment_fill_matrices al false) x y) :
    alignment_reverse_move
        (Cursor.mk S
          (matrix_at (alignment_fill_matrices al false) S (ARR_2D_INDEX (al.seq_a.length + 1) x y))
          x y k)
        (alignment_fill_matrices al false) ≠ none := by
  have hW0 : 0 < al.score_width := by omega
  obtain ⟨em, ea, eb⟩ := fill_cell_exact al hW0 x y hx1 (by omega) hy1 (by omega) hm ha hb he hov
  have hp : toScore (al.scoring.gap_extend + al.scoring.gap_open)
      = al.scoring.gap_extend + al.scoring.gap_open := toScore_of_inRange hov.1
  have hg : reverse_gap_penalties (alignment_fill_matrices al false) x y
      = (al.scoring.gap_extend + al.scoring.gap_open, al.scoring.gap_extend) := by
    rw [← hp]
    exact reverse_gap_penalties_plain (alignment_fill_matrices al false) x y he
  refine reverse_move_ne_none _ _ hm ha hb ?_
  rw [← hW]
  cases S
  · show (fill_mats al false).match_scores (ARR_2D_INDEX al.score_width (x - 1) (y - 1))
          + (al.scoring.scoring_lookup (seqAt al.seq_a (x - 1)) (seqAt al.seq_b (y - 1))).1
          = (fill_mats al false).match_scores (ARR_2D_INDEX al.score_width x y) ∨
        (fill_mats al false).gap_a_scores (ARR_2D_INDEX al.score_width (x - 1) (y - 1))
          + (al.scoring.scoring_lookup (seqAt al.seq_a (x - 1)) (seqAt al.seq_b (y - 1))).1
          = (fill_mats al false).match_scores (ARR_2D_INDEX al.score_width x y) ∨
        (fill_mats al false).gap_b_scores (ARR_2D_INDEX al.score_width (x - 1) (y - 1))
          + (al.scoring.scoring_lookup (seqAt al.seq_a (x - 1)) (seqAt al.seq_b (y - 1))).1
          = (fill_mats al false).match_scores (ARR_2D_INDEX al.score_width x y)
    rw [em]
    rcases MAX3_cases
      ((fill_mats al false).match_scores (ARR_2D_INDEX al.score_width (x - 1) (y - 1)))
      ((fill_mats al false).gap_a_scores (ARR_2D_INDEX al.score_width (x - 1) (y - 1)))
      ((fill_mats al false).gap_b_scores (ARR_2D_INDEX al.score_width (x - 1) (y - 1)))
      with h | h | h <;> rw [h] <;> simp
  · show (fill_mats al false).match_scores (ARR_2D_INDEX al.score_width x (y - 1))
          + (reverse_gap_penalties (alignment_fill_matrices al false) x y).1
          = (fill_mats al false).gap_a_scores (ARR_2D_INDEX al.score_width x y) ∨
        (fill_mats al false).gap_a_scores (ARR_2D_INDEX al.score_width x (y - 1))
          + (reverse_gap_penalties (alignment_fill_matrices al false) x y).2
          = (fill_mats al false).gap_a_scores (ARR_2D_INDEX al.score_width x y) ∨
        (fill_mats al false).gap_b_scores (ARR_2D_INDEX al.score_width x (y - 1))
          + (reverse_gap_penalties (alignment_fill_matrices al false) x y).1
          = (fill_mats al false).gap_a_scores (ARR_2D_INDEX al.score_width x y)
    rw [ea, hg]
    rcases MAX3_cases
      ((fill_mats al false).match_scores (ARR_2D_INDEX al.score_width x (y - 1))
        + (al.scoring.gap_extend + al.scoring.gap_open))
      ((fill_mats al false).gap_a_scores (ARR_2D_INDEX al.score_width x (y - 1))
        + al.scoring.gap_extend)
      ((fill_mats al false).gap_b_scores (ARR_2D_INDEX al.score_width x (y - 1))
        + (al.scoring.gap_extend + al.scoring.gap_open))
      with h | h | h <;> rw [h] <;> simp
  · show (fill_mats al false).match_scores (ARR_2D_INDEX al.score_width (x - 1) y)
          + (reverse_gap_penalties (alignment_fill_matrices al false) x y).1
          = (fill_mats al false).gap_b_scores (ARR_2D_INDEX al.score_width x y) ∨
        (fill_mats al false).gap_a_scores (ARR_2D_INDEX al.score_width (x - 1) y)
          + (reverse_gap_penalties (alignment_fill_matrices al false) x y).1
          = (fill_mats al false).gap_b_scores (ARR_2D_INDEX al.score_width x y) ∨
        (fill_mats al false).gap_b_scores (ARR_2D_INDEX al.score_width (x - 1) y)
          + (reverse_gap_penalties (alignment_fill_matrices al false) x y).2
          = (fill_mats al false).gap_b_scores (ARR_2D_INDEX al.score_width x y)
    rw [eb, hg]
    rcases MAX3_cases
      ((fill_mats al false).match_scores (ARR_2D_INDEX al.score_width (x - 1) y)
        + (al.scoring.gap_extend + al.scoring.gap_open))
      ((fill_mats al false).gap_a_scores (ARR_2D_INDEX al.score_width (x - 1) y)
        + (al.scoring.gap_extend + al.scoring.gap_open))
      ((fill_mats al false).gap_b_scores (ARR_2D_INDEX al.score_width (x - 1) y)
        + al.scoring.gap_extend)
      with h | h | h <;> rw [h] <;> simp

set_option maxRecDepth 100000 in
/-- C17, at a concrete input: the step from state GAP_B at the cell `[3][5]` of
the GATTACA/GCATGCU fill. -/
theorem reverse_move_never_fails_witness :
    alignment_reverse_move
        (Cursor.mk Matrix.GAP_B
          (matrix_at (alignment_fill_matrices gattaca_aligner false) Matrix.GAP_B
            (ARR_2D_INDEX (gattaca_aligner.seq_a.length + 1) 3 5))
          3 5 0)
        (alignment_fill_matrices gattaca_aligner false) ≠ none :=
  reverse_move_never_fails gattaca_aligner Matrix.GAP_B 3 5 0 rfl rfl rfl rfl rfl rfl
    (by decide) (by decide) (by decide) (by decide) (by decide)

/-- Upper bound of a GLOBAL fill with all flags off, substitution scores at most
`1` and non-positive gap penalties, when no overflow occurs: every cell
`[x][y]` of the three matrices is at most `x` and at most `y`. -/
theorem fill_cells_le (al : Aligner)
    (hW : al.score_width = al.seq_a.length + 1) (hH : al.score_height = al.seq_b.length + 1)
    (hs : al.scoring.no_start_gap_penalty = false)
    (hm : al.scoring.no_mismatches = false) (ha : al.scoring.no_gaps_in_a = false)
    (hb : al.scoring.no_gaps_in_b = false) (he : al.scoring.no_end_gap_penalty = false)
    (hsub : ∀ c d, (al.scoring.scoring_lookup c d).1 ≤ 1)
    (hgo : al.scoring.gap_open ≤ 0) (hge : al.scoring.gap_extend < 0)
    (hbd : inRange (al.scoring.gap_open + ((al.seq_a.length + 1 : Nat) : Int) * al.scoring.gap_extend))
    (hov : fill_no_overflow (alignment_fill_matrices al false)) :
    ∀ n x y, x + y ≤ n → x ≤ al.seq_a.length → y ≤ al.seq_b.length →
      ((fill_mats al false).match_scores (ARR_2D_INDEX al.score_width x y) ≤ x ∧
        (fill_mats al false).match_scores (ARR_2D_INDEX al.score_width x y) ≤ y) ∧
      ((fill_mats al false).gap_a_scores (ARR_2D_INDEX al.score_width x y) ≤ x ∧
        (fill_mats al false).gap_a_scores (ARR_2D_INDEX al.score_width x y) ≤ y) ∧
      ((fill_mats al false).gap_b_scores (ARR_2D_INDEX al.score_width x y) ≤ x ∧
        (fill_mats al false).gap_b_scores (ARR_2D_INDEX al.score_width x y) ≤ y) := by
  have hW0 : 0 < al.score_width := by omega
  have hmin : fill_min false = INT_MIN := rfl
  have hbound : ∀ t : Nat, t ≤ al.seq_a.length + 1 →
      inRange (al.scoring.gap_open + (t : Int) * al.scoring.gap_extend) ∧
      al.scoring.gap_open + (t : Int) * al.scoring.gap_extend ≤ 0 := by
    intro t ht
    have h0 : (t : Int) * al.scoring.gap_extend ≤ 0 :=
      mul_nonpos_of_nonneg_of_nonpos (Int.ofNat_nonneg t) (le_of_lt hge)
    have h1 : ((al.seq_a.length + 1 : Nat) : Int) * al.scoring.gap_extend
        ≤ (t : Int) * al.scoring.gap_extend :=
      mul_le_mul_of_nonpos_right (by exact_mod_cast ht) (le_of_lt hge)
    unfold inRange INT_MIN INT_MAX at *
    omega
  intro n
  induction n with
  | zero =>
    intro x y hn hx hy
    have hx0 : x = 0 := by omega
    have hy0 : y = 0 := by omega
    subst hx0; subst hy0
    obtain ⟨p, q, r⟩ := fill_mats_origin al false hW0
    rw [idx_row, p, q, r]
    simp
  | succ n ih =>
    intro x y hn hx hy
    rcases Nat.eq_zero_or_pos y with hy0 | hy1
    · subst hy0
      rcases Nat.eq_zero_or_pos x with hx0 | hx1
      · subst hx0
        exact ih 0 0 (by omega) hx hy
      · obtain ⟨p, q, r⟩ := fill_mats_row al false hW0 x hx1 (by omega)
        obtain ⟨r1, r2⟩ := hbound x (by omega)
        rw [p, q, r (Or.inl hb), hmin, if_neg (by simp [hs]), toScore_of_inRange r1]
        unfold INT_MIN
        refine ⟨⟨by omega, by omega⟩, ⟨by omega, by omega⟩, ⟨by omega, by simpa using r2⟩⟩
    · rcases Nat.eq_zero_or_pos x with hx0 | hx1
      · subst hx0
        obtain ⟨p, q, r⟩ := fill_mats_col al false hW0 y hy1 (by omega)
        obtain ⟨r1, r2⟩ := hbound al.score_width (by omega)
        rw [p, q, r (Or.inl ha), hmin, if_neg (by simp [hs]), toScore_of_inRange r1]
        unfold INT_MIN
        refine ⟨⟨by simp, by omega⟩, ⟨by simpa using r2, by omega⟩, ⟨by simp, by omega⟩⟩
      · obtain ⟨em, ea, eb⟩ := fill_cell_exact al hW0 x y hx1 (by omega) hy1 (by omega) hm ha hb he
          (hov x hx y hy hx1 hy1)
        obtain ⟨⟨a1, a2⟩, ⟨a3, a4⟩, ⟨a5, a6⟩⟩ := ih (x - 1) (y - 1) (by omega) (by omega) (by omega)
        obtain ⟨⟨b1, b2⟩, ⟨b3, b4⟩, ⟨b5, b6⟩⟩ := ih x (y - 1) (by omega) hx (by omega)
        obtain ⟨⟨c1, c2⟩, ⟨c3, c4⟩, ⟨c5, c6⟩⟩ := ih (x - 1) y (by omega) (by omega) hy
        have hsub' := hsub (seqAt al.seq_a (x - 1)) (seqAt al.seq_b (y - 1))
        rw [em, ea, eb]
        unfold MAX3
        refine ⟨⟨by omega, by omega⟩, ⟨by omega, by omega⟩, ⟨by omega, by omega⟩⟩

/-- The diagonal of a self-alignment: `match[k][k] = k`. -/
theorem self_diagonal (al : Aligner)
    (hW : al.score_width = al.seq_a.length + 1) (hH : al.score_height = al.seq_b.length + 1)
    (hAB : al.seq_b = al.seq_a)
    (hs : al.scoring.no_start_gap_penalty = false)
    (hm : al.scoring.no_mismatches = false) (ha : al.scoring.no_gaps_in_a = false)
    (hb : al.scoring.no_gaps_in_b = false) (he : al.scoring.no_end_gap_penalty = false)
    (heq : ∀ c, (al.scoring.scoring_lookup c c).1 = 1)
    (hne : ∀ c d, c ≠ d → (al.scoring.scoring_lookup c d).1 < 0)
    (hgo : al.scoring.gap_open ≤ 0) (hge : al.scoring.gap_extend < 0)
    (hbd : inRange (al.scoring.gap_open + ((al.seq_a.length + 1 : Nat) : Int) * al.scoring.gap_extend))
    (hov : fill_no_overflow (alignment_fill_matrices al false)) :
    ∀ k, k ≤ al.seq_a.length →
      (fill_mats al false).match_scores (ARR_2D_INDEX al.score_width k k) = k := by
  have hW0 : 0 < al.score_width := by omega
  have hlen : al.seq_b.length = al.seq_a.length := by rw [hAB]
  have hsub : ∀ c d, (al.scoring.scoring_lookup c d).1 ≤ 1 := by
    intro c d
    by_cases h : c = d
    · subst h
      exact le_of_eq (heq c)
    · exact le_trans (le_of_lt (hne c d h)) (by decide)
  have hle := fill_cells_le al hW hH hs hm ha hb he hsub hgo hge hbd hov
  intro k
  induction k with
  | zero =>
    intro _
    rw [idx_row, (fill_mats_origin al false hW0).1]
    rfl
  | succ j ih =>
    intro hj
    have em := (fill_cell_exact al hW0 (j + 1) (j + 1) (by omega) (by omega) (by omega) (by omega)
      hm ha hb he (hov (j + 1) hj (j + 1) (show j + 1 ≤ al.seq_b.length by omega) (by omega)
      (by omega))).1
    obtain ⟨-, ⟨a3, -⟩, ⟨a5, -⟩⟩ := hle (j + j) j j (le_refl _) (by omega) (by omega)
    have hd := ih (by omega)
    simp only [Nat.add_sub_cancel] at em
    rw [em, hAB, heq, hd]
    rw [hd] at *
    unfold MAX3
    push_cast
    omega

/-- C11: for every sequence `s` aligned against itself in GLOBAL mode with
lookup `+1` for equal symbols and a negative score for different symbols,
`gap_open ≤ 0`, `gap_extend < 0`, all flags off, and no 32-bit overflow (the
border value `gap_open + (|s|+1) * gap_extend` is a `score_t` and no interior
cell overflows), the optimal score `max(match[|s|][|s|], gap_a[|s|][|s|],
gap_b[|s|][|s|])` is `|s|` and is attained by the match matrix. -/
theorem self_alignment_score (al : Aligner)
    (hW : al.score_width = al.seq_a.length + 1) (hH : al.score_height = al.seq_b.length + 1)
    (hAB : al.seq_b = al.seq_a)
    (hs : al.scoring.no_start_gap_penalty = false)
    (hm : al.scoring.no_mismatches = false) (ha : al.scoring.no_gaps_in_a = false)
    (hb : al.scoring.no_gaps_in_b = false) (he : al.scoring.no_end_gap_penalty = false)
    (heq : ∀ c, (al.scoring.scoring_lookup c c).1 = 1)
    (hne : ∀ c d, c ≠ d → (al.scoring.scoring_lookup c d).1 < 0)
    (hgo : al.scoring.gap_open ≤ 0) (hge : al.scoring.gap_extend < 0)
    (hbd : inRange (al.scoring.gap_open + ((al.seq_a.length + 1 : Nat) : Int) * al.scoring.gap_extend))
    (hov : fill_no_overflow (alignment_fill_matrices al false)) :
    global_optimal_score (alignment_fill_matrices al false) = (al.seq_a.length : Int) ∧
    (alignment_fill_matrices al false).match_scores
        (ARR_2D_INDEX (al.seq_a.length + 1) al.seq_a.length al.seq_a.length)
      = (al.seq_a.length : Int) := by
  have hlen : al.seq_b.length = al.seq_a.length := by rw [hAB]
  have hsub : ∀ c d, (al.scoring.scoring_lookup c d).1 ≤ 1 := by
    intro c d
    by_cases h : c = d
    · subst h
      exact le_of_eq (heq c)
    · exact le_trans (le_of_lt (hne c d h)) (by decide)
  obtain ⟨-, ⟨a3, -⟩, ⟨a5, -⟩⟩ := fill_cells_le al hW hH hs hm ha hb he hsub hgo hge hbd hov
    (al.seq_a.length + al.seq_a.length) al.seq_a.length al.seq_a.length (le_refl _) (le_refl _)
    (by omega)
  have hd := self_diagonal al hW hH hAB hs hm ha hb he heq hne hgo hge hbd hov al.seq_a.length
    (le_refl _)
  have hg : global_optimal_score (alignment_fill_matrices al false)
      = MAX3
          ((fill_mats al false).match_scores
            (ARR_2D_INDEX al.score_width al.seq_a.length al.seq_a.length))
          ((fill_mats al false).gap_a_scores
            (ARR_2D_INDEX al.score_width al.seq_a.length al.seq_a.length))
          ((fill_mats al false).gap_b_scores
            (ARR_2D_INDEX al.score_width al.seq_a.length al.seq_a.length)) := by
    show MAX3 _ _ _ = _
    have e1 : (alignment_fill_matrices al false).seq_b.length = al.seq_a.length := hlen
    have e2 : (alignment_fill_matrices al false).seq_a.length = al.seq_a.length := rfl
    rw [e1, e2]
    rfl
  rw [hg, fill_result_match, ← hW, hd]
  refine ⟨?_, rfl⟩
  unfold MAX3
  omega

/-- C11, at the instance of the specification: `s = "AAA"` scores `3`. -/
theorem self_alignment_score_witness :
    global_optimal_score
        (alignment_fill_matrices (mk_aligner classic_scoring ['A', 'A', 'A'] ['A', 'A', 'A'])
          false) = ((['A', 'A', 'A'].length : Nat) : Int) ∧
    (alignment_fill_matrices (mk_aligner classic_scoring ['A', 'A', 'A'] ['A', 'A', 'A'])
        false).match_scores
        (ARR_2D_INDEX (['A', 'A', 'A'].length + 1) ['A', 'A', 'A'].length ['A', 'A', 'A'].length)
      = ((['A', 'A', 'A'].length : Nat) : Int) :=
  self_alignment_score (mk_aligner classic_scoring ['A', 'A', 'A'] ['A', 'A', 'A']) rfl rfl rfl
    rfl rfl rfl rfl rfl (fun c => by simp [mk_aligner, classic_scoring, unit_lookup])
    (fun c d h => by simp [mk_aligner, classic_scoring, unit_lookup, h]) (by decide) (by decide)
    (by decide) (by decide)

theorem border_value_bounded (go ge : Int) (t : Nat) (ht : t ≤ 1001)
    (hgo : -1000 ≤ go ∧ go ≤ 1000) (hge : -1000 ≤ ge ∧ ge ≤ 1000) :
    -1002000 ≤ go + (t : Int) * ge ∧ go + (t : Int) * ge ≤ 1002000 := by
  have ht0 : (0 : Int) ≤ (t : Int) := Int.ofNat_nonneg t
  have ht1 : (t : Int) ≤ 1001 := by exact_mod_cast ht
  have h1 : (t : Int) * ge ≤ (t : Int) * 1000 := mul_le_mul_of_nonneg_left hge.2 ht0
  have h2 : (t : Int) * (-1000) ≤ (t : Int) * ge := mul_le_mul_of_nonneg_left hge.1 ht0
  constructor <;> omega

theorem MAX3_add_bounds {a b c pa pb pc U L : Int} (ha : a ≤ U) (hb : b ≤ U) (hc : c ≤ U)
    (hl : L ≤ MAX3 a b c) (hpa : -2000 ≤ pa ∧ pa ≤ 2000) (hpb : -2000 ≤ pb ∧ pb ≤ 2000)
    (hpc : -2000 ≤ pc ∧ pc ≤ 2000) :
    L - 2000 ≤ MAX3 (a + pa) (b + pb) (c + pc) ∧ MAX3 (a + pa) (b + pb) (c + pc) ≤ U + 2000 := by
  unfold MAX3 at *
  omega

theorem MAX3_ge_each (a b c : Int) : a ≤ MAX3 a b c ∧ b ≤ MAX3 a b c ∧ c ≤ MAX3 a b c := by
  unfold MAX3
  omega

theorem MAX3_le_of {a b c U : Int} (ha : a ≤ U) (hb : b ≤ U) (hc : c ≤ U) : MAX3 a b c ≤ U := by
  unfold MAX3
  omega

set_option maxHeartbeats 1000000 in
/-- Bounds on the cells of a GLOBAL fill with `no_mismatches`, `no_gaps_in_a`,
`no_gaps_in_b` and `no_end_gap_penalty` unset, for `|A| + |B| ≤ 1000` and
penalties and substitution scores of absolute value at most `1000`: every cell
is at most `1002000 + 2000 * (x + y)`, the largest of the three is at least
`-(1002000 + 2000 * (x + y))`, and no overflow occurs at an interior cell. -/
theorem fill_bounded (al : Aligner)
    (hW : al.score_width = al.seq_a.length + 1) (hH : al.score_height = al.seq_b.length + 1)
    (hm : al.scoring.no_mismatches = false) (ha : al.scoring.no_gaps_in_a = false)
    (hb : al.scoring.no_gaps_in_b = false) (he : al.scoring.no_end_gap_penalty = false)
    (hlen : al.seq_a.length + al.seq_b.length ≤ 1000)
    (hgo : -1000 ≤ al.scoring.gap_open ∧ al.scoring.gap_open ≤ 1000)
    (hge : -1000 ≤ al.scoring.gap_extend ∧ al.scoring.gap_extend ≤ 1000)
    (hsub : ∀ c d, -1000 ≤ (al.scoring.scoring_lookup c d).1 ∧
      (al.scoring.scoring_lookup c d).1 ≤ 1000) :
    ∀ n x y, x + y ≤ n → x ≤ al.seq_a.length → y ≤ al.seq_b.length →
      ((fill_mats al false).match_scores (ARR_2D_INDEX al.score_width x y)
          ≤ 1002000 + 2000 * ((x + y : Nat) : Int) ∧
        (fill_mats al false).gap_a_scores (ARR_2D_INDEX al.score_width x y)
          ≤ 1002000 + 2000 * ((x + y : Nat) : Int) ∧
        (fill_mats al false).gap_b_scores (ARR_2D_INDEX al.score_width x y)
          ≤ 1002000 + 2000 * ((x + y : Nat) : Int) ∧
        -1002000 - 2000 * ((x + y : Nat) : Int)
          ≤ MAX3 ((fill_mats al false).match_scores (ARR_2D_INDEX al.score_width x y))
              ((fill_mats al false).gap_a_scores (ARR_2D_INDEX al.score_width x y))
              ((fill_mats al false).gap_b_scores (ARR_2D_INDEX al.score_width x y))) ∧
      (1 ≤ x → 1 ≤ y → cell_no_overflow (alignment_fill_matrices al false) x y) := by
  have hW0 : 0 < al.score_width := by omega
  have hmin : fill_min false = -2147483648 := rfl
  have hbv : ∀ t : Nat, t ≤ 1001 →
      (-1002000 ≤ (if al.scoring.no_start_gap_penalty = true then (0 : Int)
          else toScore (al.scoring.gap_open + (t : Int) * al.scoring.gap_extend)) ∧
        (if al.scoring.no_start_gap_penalty = true then (0 : Int)
          else toScore (al.scoring.gap_open + (t : Int) * al.scoring.gap_extend)) ≤ 1002000) := by
    intro t ht
    split_ifs
    · constructor <;> decide
    · obtain ⟨b1, b2⟩ := border_value_bounded _ _ t ht hgo hge
      rw [toScore_of_inRange (by unfold inRange INT_MIN INT_MAX; omega)]
      exact ⟨b1, b2⟩
  intro n
  induction n with
  | zero =>
    intro x y hn hx hy
    have hx0 : x = 0 := by omega
    have hy0 : y = 0 := by omega
    subst hx0; subst hy0
    obtain ⟨p, q, r⟩ := fill_mats_origin al false hW0
    rw [idx_row, p, q, r]
    refine ⟨⟨by simp, by simp, by simp, by simp [MAX3]⟩, fun h => absurd h (by omega)⟩
  | succ n ih =>
    intro x y hn hx hy
    rcases Nat.eq_zero_or_pos y with hy0 | hy1
    · subst hy0
      rcases Nat.eq_zero_or_pos x with hx0 | hx1
      · subst hx0
        exact ih 0 0 (by omega) hx hy
      · obtain ⟨p, q, r⟩ := fill_mats_row al false hW0 x hx1 (by omega)
        obtain ⟨b1, b2⟩ := hbv x (by omega)
        rw [p, q, r (Or.inl hb), hmin]
        refine ⟨⟨by omega, by omega, by omega, ?_⟩, fun _ h => absurd h (by omega)⟩
        unfold MAX3
        omega
    · rcases Nat.eq_zero_or_pos x with hx0 | hx1
      · subst hx0
        obtain ⟨p, q, r⟩ := fill_mats_col al false hW0 y hy1 (by omega)
        obtain ⟨b1, b2⟩ := hbv al.score_width (by omega)
        rw [p, q, r (Or.inl ha), hmin]
        refine ⟨⟨by omega, by omega, by omega, ?_⟩, fun h => absurd h (by omega)⟩
        unfold MAX3
        omega
      · obtain ⟨⟨a1, a2, a3, a4⟩, -⟩ := ih (x - 1) (y - 1) (by omega) (by omega) (by omega)
        obtain ⟨⟨b1, b2, b3, b4⟩, -⟩ := ih x (y - 1) (by omega) hx (by omega)
        obtain ⟨⟨c1, c2, c3, c4⟩, -⟩ := ih (x - 1) y (by omega) (by omega) hy
        obtain ⟨s1, s2⟩ := hsub (seqAt al.seq_a (x - 1)) (seqAt al.seq_b (y - 1))
        have hxy : ((x - 1 + (y - 1) : Nat) : Int) + 2 = ((x + y : Nat) : Int) := by omega
        have hxy1 : ((x + (y - 1) : Nat) : Int) + 1 = ((x + y : Nat) : Int) := by omega
        have hxy2 : ((x - 1 + y : Nat) : Int) + 1 = ((x + y : Nat) : Int) := by omega
        have hxyb : ((x + y : Nat) : Int) ≤ 1000 := by omega
        have hgop : -2000 ≤ al.scoring.gap_extend + al.scoring.gap_open ∧
            al.scoring.gap_extend + al.scoring.gap_open ≤ 2000 := by omega
        have hgep : -2000 ≤ al.scoring.gap_extend ∧ al.scoring.gap_extend ≤ 2000 := by omega
        have e : ∀ v : Int, v + al.scoring.gap_open + al.scoring.gap_extend
            = v + (al.scoring.gap_extend + al.scoring.gap_open) := fun v => by ring
        have k1u := MAX3_le_of a1 a2 a3
        obtain ⟨k2l, k2u⟩ := MAX3_add_bounds b1 b2 b3 b4 hgop hgep hgop
        obtain ⟨k3l, k3u⟩ := MAX3_add_bounds c1 c2 c3 c4 hgop hgop hgep
        have h0 : inRange (al.scoring.gap_extend + al.scoring.gap_open) := by
          unfold inRange INT_MIN INT_MAX
          omega
        have h1 : inRange (MAX3
            ((fill_mats al false).match_scores (ARR_2D_INDEX al.score_width (x - 1) (y - 1)))
            ((fill_mats al false).gap_a_scores (ARR_2D_INDEX al.score_width (x - 1) (y - 1)))
            ((fill_mats al false).gap_b_scores (ARR_2D_INDEX al.score_width (x - 1) (y - 1)))
          + (al.scoring.scoring_lookup (seqAt al.seq_a (x - 1)) (seqAt al.seq_b (y - 1))).1) := by
          unfold inRange INT_MIN INT_MAX
          omega
        have h2 : inRange (MAX3
            ((fill_mats al false).match_scores (ARR_2D_INDEX al.score_width x (y - 1))
              + al.scoring.gap_open + al.scoring.gap_extend)
            ((fill_mats al false).gap_a_scores (ARR_2D_INDEX al.score_width x (y - 1))
              + al.scoring.gap_extend)
            ((fill_mats al false).gap_b_scores (ARR_2D_INDEX al.score_width x (y - 1))
              + al.scoring.gap_open + al.scoring.gap_extend)) := by
          simp only [e]
          unfold inRange INT_MIN INT_MAX
          omega
        have h3 : inRange (MAX3
            ((fill_mats al false).match_scores (ARR_2D_INDEX al.score_width (x - 1) y)
              + al.scoring.gap_open + al.scoring.gap_extend)
            ((fill_mats al false).gap_a_scores (ARR_2D_INDEX al.score_width (x - 1) y)
              + al.scoring.gap_open + al.scoring.gap_extend)
            ((fill_mats al false).gap_b_scores (ARR_2D_INDEX al.score_width (x - 1) y)
              + al.scoring.gap_extend)) := by
          simp only [e]
          unfold inRange INT_MIN INT_MAX
          omega
        have hov : cell_no_overflow (alignment_fill_matrices al false) x y := ⟨h0, h1, h2, h3⟩
        obtain ⟨em, ea, eb⟩ := fill_cell_exact al hW0 x y hx1 (by omega) hy1 (by omega) hm ha hb he
          hov
        refine ⟨?_, fun _ _ => hov⟩
        rw [em, ea, eb]
        refine ⟨by omega, by omega, by omega, ?_⟩
        refine le_trans ?_ (MAX3_ge_each _ _ _).1
        omega

/-- For `|A| + |B| ≤ 1000` and penalties and substitution scores of absolute
value at most `1000`, a GLOBAL fill with `no_mismatches`, `no_gaps_in_a`,
`no_gaps_in_b` and `no_end_gap_penalty` unset overflows at no interior cell. -/
theorem fill_no_overflow_of_bounded (al : Aligner)
    (hW : al.score_width = al.seq_a.length + 1) (hH : al.score_height = al.seq_b.length + 1)
    (hm : al.scoring.no_mismatches = false) (ha : al.scoring.no_gaps_in_a = false)
    (hb : al.scoring.no_gaps_in_b = false) (he : al.scoring.no_end_gap_penalty = false)
    (hlen : al.seq_a.length + al.seq_b.length ≤ 1000)
    (hgo : -1000 ≤ al.scoring.gap_open ∧ al.scoring.gap_open ≤ 1000)
    (hge : -1000 ≤ al.scoring.gap_extend ∧ al.scoring.gap_extend ≤ 1000)
    (hsub : ∀ c d, -1000 ≤ (al.scoring.scoring_lookup c d).1 ∧
      (al.scoring.scoring_lookup c d).1 ≤ 1000) :
    fill_no_overflow (alignment_fill_matrices al false) :=
  fun x hx y hy hx1 hy1 =>
    (fill_bounded al hW hH hm ha hb he hlen hgo hge hsub (x + y) x y (le_refl _) hx hy).2 hx1 hy1

end SeqAlign

